import Mathlib

/-!
Verification of the contract execution engine of the burrow repository.

The development shallowly embeds the call protocol (engine.Call and
engine.CallFromSite from the engine package), the eWASM host-function bridge
(execution/wasm/contract.go), the executor boundary (execution/wasm/wasm.go)
and the native Permissions selector table, and proves the specified
properties about these definitions. Machine integers are modelled as Nat
with explicit bounds where overflow matters; fallible operations return
Option or Except; Go panics are modelled as Option.none or as an explicit
outcome constructor. Definitions are translated from the Go source; the few
operations whose implementation lies outside the repository slice are
modelled from the specification and say so in their doc comment.
-/

namespace Burrow

/-- The closed set of burrow error codes (execution/errors) used by the
components under verification. None models errors.Codes.None, the code of a
nil error; Generic stands for any non-coded error value. -/
inductive ErrCode where
  | None
  | UnknownAddress
  | InvalidAddress
  | InvalidContract
  | UnresolvedSymbols
  | ExecutionReverted
  | ExecutionAborted
  | NativeFunction
  | InsufficientGas
  | CallStackOverflow
  | PermissionDenied
  | ReadOnly
  | IllegalWrite
  | Generic
deriving DecidableEq, Repr

/-- exec.CallType: the four call types CallFromSite dispatches on
(CallTypeCall, CallTypeCode, CallTypeDelegate, CallTypeStatic); the default
branch of its switch is unreachable for these. -/
inductive CallType where
  | Call
  | Code
  | Delegate
  | Static
deriving DecidableEq, Repr

/-- errors.Maybe: an accumulator holding at most one error; later pushes are
ignored (first error wins). -/
structure Maybe where
  err : Option ErrCode
deriving DecidableEq, Repr

/-- Maybe.PushError: latches the first error; the returned Bool is true iff
the pushed error is non-nil (regardless of whether it was stored), exactly
as the Go method reports. -/
def Maybe.pushError (m : Maybe) (e : Option ErrCode) : Maybe × Bool :=
  ({ err := m.err.orElse fun _ => e }, e.isSome)

/-- Maybe.Error: the accumulated first error, if any. -/
def Maybe.error (m : Maybe) : Option ErrCode := m.err

/-- The first error of a list of optional errors: the earliest Option.some. -/
def firstErr : List (Option ErrCode) → Option ErrCode
  | [] => Option.none
  | [e] => e
  | e :: rest => e.orElse fun _ => firstErr rest

/-! ## Permissions, accounts, frames (state primitives)

The permission package, the account state overlay and engine/call_frame.go
are not part of the repository slice; only their callers are. They are
modelled from the specification as stated in each doc comment. -/

def U64 : Nat := 2 ^ 64

def allOnes64 : Nat := U64 - 1

/-- Modelled from the spec: permission flags form the closed ordered set
Send, Call, CreateContract, CreateAccount, Bond, ... represented as bits of
a 64-bit mask (the permission package is outside the slice). -/
def permSend : Nat := 1 <<< 0

def permCall : Nat := 1 <<< 1

def permCreateContract : Nat := 1 <<< 2

def permCreateAccount : Nat := 1 <<< 3

def permBond : Nat := 1 <<< 4

/-- BasePermissions: a bit is set iff the corresponding setBit bit is 1, and
then its value comes from perms; unset bits fall through to the global
account. -/
structure BasePermissions where
  perms : Nat
  setBit : Nat
deriving DecidableEq, Repr

/-- Modelled from the spec: the effective permission mask of an account,
falling back to the global account mask on bits not covered by setBit (the
permission package is outside the slice). -/
def effectivePerms (globalPerms : Nat) (bp : BasePermissions) : Nat :=
  (bp.perms &&& bp.setBit) ||| (globalPerms &&& (allOnes64 ^^^ bp.setBit))

/-- Modelled from the spec: all bits of the required flag must be set in the
effective permissions. -/
def hasPermission (globalPerms : Nat) (bp : BasePermissions) (flag : Nat) : Bool :=
  effectivePerms globalPerms bp &&& flag == flag

/-- The slice of an account relevant here: its permissions and balance. -/
structure Acct where
  perms : BasePermissions
  balance : Nat
deriving DecidableEq, Repr

/-- Modelled from the spec: the zero account created on implicit creation. -/
def zeroAcct : Acct := { perms := { perms := 0, setBit := 0 }, balance := 0 }

/-- Modelled from the spec: a call frame over the account and storage state.
The overlay chain is collapsed to a whole-view map here: reads see the
frame content, writes land in it, and Sync makes the parent adopt the child
content, which is exactly the observable behaviour the claims need. -/
structure Frame where
  accounts : List (Nat × Acct)
  storage : List ((Nat × Nat) × Nat)
  readOnly : Bool
  depth : Nat
  maxDepth : Nat
deriving DecidableEq, Repr

/-- get_account: first binding of the address in the account map. -/
def Frame.getAccount (f : Frame) (addr : Nat) : Option Acct :=
  (f.accounts.find? fun p => p.1 == addr).map Prod.snd

/-- Modelled from the spec: EnsurePermission reads the effective permissions
of the account (engine/permissions code is outside the slice); a missing
account is reported as UnknownAddress, missing bits as PermissionDenied. -/
def ensurePermission (globalPerms : Nat) (f : Frame) (addr flag : Nat) : Option ErrCode :=
  match f.getAccount addr with
  | Option.none => Option.some ErrCode.UnknownAddress
  | Option.some acc =>
    if hasPermission globalPerms acc.perms flag then Option.none
    else Option.some ErrCode.PermissionDenied

/-- Modelled from the spec: UseGasNegative charges an amount from a gas
cell; on underflow the cell is left unchanged and InsufficientGas is
reported (engine gas code is outside the slice). Returns the new cell
content and the error. -/
def useGasNegative (gasCell amount : Nat) : Nat × Option ErrCode :=
  if amount ≤ gasCell then (gasCell - amount, Option.none)
  else (gasCell, Option.some ErrCode.InsufficientGas)

/-- Modelled from the spec: GasGetAccount is a fixed cost charged before any
cross-contract lookup; the slice does not show its numeric value, so the
upstream value 1 is used. -/
def GasGetAccount : Nat := 1

/-- Modelled from the spec: NewFrame opens a child frame at depth + 1,
inheriting the read-only marking; opening beyond the maximum depth fails
with CallStackOverflow (engine/call_frame.go is outside the slice). -/
def Frame.newFrame (f : Frame) : Except ErrCode Frame :=
  if f.maxDepth < f.depth + 1 then Except.error ErrCode.CallStackOverflow
  else Except.ok { f with depth := f.depth + 1 }

/-- CallFrame.ReadOnly: marks the frame read-only. -/
def Frame.ReadOnly (f : Frame) : Frame := { f with readOnly := true }

/-- Modelled from the spec: set_storage rejects writes on a read-only
overlay with a ReadOnly error; a write of the zero word deletes the entry. -/
def Frame.setStorage (f : Frame) (addr key value : Nat) : Except ErrCode Frame :=
  if f.readOnly then Except.error ErrCode.ReadOnly
  else if value = 0 then
    Except.ok { f with storage := f.storage.filter fun e => !(e.1 == (addr, key)) }
  else
    Except.ok { f with storage := ((addr, key), value) :: f.storage.filter fun e => !(e.1 == (addr, key)) }

/-- get_storage: zero for absent entries. -/
def Frame.getStorage (f : Frame) (addr key : Nat) : Nat :=
  ((f.storage.find? fun e => e.1 == (addr, key)).map Prod.snd).getD 0

/-- Modelled from the spec: update_account reads the current account
(creating a zero account if absent), applies the mutator and writes back;
a read-only overlay rejects the write with ReadOnly. -/
def Frame.updateAccount (f : Frame) (addr : Nat) (g : Acct → Acct) : Except ErrCode Frame :=
  if f.readOnly then Except.error ErrCode.ReadOnly
  else
    let acc := (f.getAccount addr).getD zeroAcct
    Except.ok { f with accounts := (addr, g acc) :: f.accounts.filter fun p => !(p.1 == addr) }

/-- Modelled from the spec: CreateAccount writes through the overlay (so a
read-only overlay rejects it with ReadOnly), requires the CreateAccount
permission on the creator, and installs a zero account at the address. -/
def Frame.CreateAccount (globalPerms : Nat) (f : Frame) (creator addr : Nat) : Except ErrCode Frame :=
  if f.readOnly then Except.error ErrCode.ReadOnly
  else match f.getAccount creator with
  | Option.none => Except.error ErrCode.UnknownAddress
  | Option.some c =>
    if hasPermission globalPerms c.perms permCreateAccount then
      Except.ok { f with accounts := (addr, zeroAcct) :: f.accounts }
    else Except.error ErrCode.PermissionDenied

/-- Modelled from the spec: Sync merges the child overlay into the parent
with child entries taking precedence; in the whole-view model the parent
adopts the child maps. Sync cannot fail in this model (the source treats a
sync failure as a fatal invariant violation). -/
def Frame.Sync (parent child : Frame) : Frame :=
  { parent with accounts := child.accounts, storage := child.storage }

/-! ## Event sinks -/

/-- A log event as far as the claims are concerned. -/
structure LogEv where
  address : Nat
  data : List Nat
deriving DecidableEq, Repr

/-- Modelled from the spec: the default sink collects events in order; the
log-free wrapper (exec.NewLogFreeEventSink, outside the slice) is used for
static contexts. -/
inductive EventSink where
  | collector (logEvents : List LogEv)
  | logFree (inner : EventSink)
deriving DecidableEq, Repr

/-- Modelled from the spec: submitting a log event to the log-free sink of a
static context does not succeed; per the spec invariant it fails with a
ReadOnly-like error, for which burrow uses IllegalWrite. -/
def EventSink.Log : EventSink → LogEv → Except ErrCode EventSink
  | EventSink.collector ls, e => Except.ok (EventSink.collector (ls ++ [e]))
  | EventSink.logFree _, _ => Except.error ErrCode.IllegalWrite

def EventSink.isLogFree : EventSink → Bool
  | EventSink.logFree _ => true
  | EventSink.collector _ => false

/-! ## The generic call protocol: engine.Call -/

/-- engine.CallParams. The gas field holds the content of the mutable gas
cell (Go passes it as a pointer so the callee can debit it and leave the
remainder). -/
structure CallParams where
  callType : CallType
  caller : Nat
  callee : Nat
  input : List Nat
  value : Nat
  gas : Nat
  origin : Nat
deriving DecidableEq, Repr

/-- engine.Call (src/unnamed/part_001 lines 14-26): the standard wrapper
around an executor. For CallTypeCall and CallTypeCode it first attempts the
value transfer, accumulating (not returning) any error; it then runs the
executor, fires the post-call event with the accumulated error, accumulates
the event error and returns the output together with the first accumulated
error. The state type is a parameter and transfer, execute and the event
firing are passed as state transformers, mirroring the Go calls
Transfer(state.CallFrame, caller, callee, value), execute(state, params)
and FireCallEvent(state.CallFrame, maybe.Error(), state.EventSink, output,
params). -/
def Call {σ : Type} (callType : CallType)
    (transfer : σ → σ × Option ErrCode)
    (execute : σ → σ × List Nat × Option ErrCode)
    (fireCallEvent : σ → Option ErrCode → List Nat → σ × Option ErrCode)
    (st : σ) : σ × List Nat × Option ErrCode :=
  let m0 : Maybe := { err := Option.none }
  let tr := if callType = CallType.Call ∨ callType = CallType.Code
    then transfer st else (st, Option.none)
  let m1 := (m0.pushError tr.2).1
  let ex := execute tr.1
  let m2 := (m1.pushError ex.2.2).1
  let fe := fireCallEvent ex.1 m2.error ex.2.1
  let m3 := (m2.pushError fe.2).1
  (fe.1, ex.2.1, m3.error)

/-! ## The recursive call protocol: engine.CallFromSite

The function is split at its only external call, the dispatch of the child
callable: CallFromSitePre covers lines 46-137 (permission check, gas
charge, account resolution, frame opening, EIP-150 gas forwarding and the
caller/callee rewrite) and returns either an early exit or the prepared
child invocation; CallFromSitePost covers lines 139-150 (sync on success
and the function return). The child callable itself is a parameter. -/

/-- Gas forwarding of CallFromSite (src/unnamed/part_001 lines 82-89) and of
the wasm call host function (contract.go lines 108-114): when the caller
cell holds less than the requested gas, the forwarded amount is reduced to
remaining minus remaining / 64 (EIP-150); the caller cell is then debited
by the forwarded amount. Returns (content of the target gas cell, content
of the caller gas cell). -/
def callGasForwarding (siteGas targetGas : Nat) : Nat × Nat :=
  let targetGas := if siteGas < targetGas then siteGas - siteGas / 64 else targetGas
  (targetGas, siteGas - targetGas)

/-- Everything CallFromSite hands to the dispatched child callable, plus the
context needed afterwards: the child frame and event sink, the rewritten
target parameters (whose gas field is the forwarded gas cell), the account
being called, the parent frame as left behind by account resolution, the
content of the caller gas cell during the child run, and the error
accumulator state. -/
structure ChildInvocation where
  frame : Frame
  sink : EventSink
  target : CallParams
  acc : Acct
  parent : Frame
  siteGas : Nat
  maybe : Maybe
deriving DecidableEq, Repr

/-- An early return of CallFromSite, before any child frame is opened or a
child callable is dispatched: the accumulator (whose first error is
returned), the caller frame as left behind, and the caller gas cell. -/
structure EarlyExit where
  maybe : Maybe
  frame : Frame
  siteGas : Nat
deriving DecidableEq, Repr

/-- The tail of CallFromSite after account resolution (src/unnamed/part_001
lines 72-137): open the child frame, returning early on failure; apply
EIP-150 gas forwarding, debiting the already-charged site cell; set the
origin and rewrite caller and callee by call type, marking the child frame
read-only and wrapping the sink in a log-free sink for CallTypeStatic.
Factored out as the join point the account-resolution branches flow into. -/
def CallFromSiteFrame (sink : EventSink) (site target : CallParams)
    (m3 : Maybe) (st3 : Frame) (chargedGas : Nat) (acc : Acct) : EarlyExit ⊕ ChildInvocation :=
  match st3.newFrame with
  | Except.error e =>
    Sum.inl { maybe := (m3.pushError (Option.some e)).1, frame := st3, siteGas := chargedGas }
  | Except.ok childFrame =>
    let fwd := callGasForwarding chargedGas target.gas
    let target1 := { target with origin := site.origin, gas := fwd.1 }
    match target1.callType with
    | CallType.Call =>
      Sum.inr { frame := childFrame, sink := sink,
                target := { target1 with caller := site.callee },
                acc := acc, parent := st3, siteGas := fwd.2, maybe := m3 }
    | CallType.Static =>
      Sum.inr { frame := childFrame.ReadOnly, sink := EventSink.logFree sink,
                target := { target1 with caller := site.callee },
                acc := acc, parent := st3, siteGas := fwd.2, maybe := m3 }
    | CallType.Code =>
      Sum.inr { frame := childFrame, sink := sink,
                target := { target1 with caller := site.callee, callee := site.callee },
                acc := acc, parent := st3, siteGas := fwd.2, maybe := m3 }
    | CallType.Delegate =>
      Sum.inr { frame := childFrame, sink := sink,
                target := { target1 with caller := site.caller, callee := site.callee },
                acc := acc, parent := st3, siteGas := fwd.2, maybe := m3 }

/-- CallFromSite up to the dispatch (src/unnamed/part_001 lines 46-137), in
source order: (1) ensure the Call permission on the site callee, returning
early on failure; (2) charge GasGetAccount from the site gas cell,
accumulating but not returning an InsufficientGas error; (3) resolve the
target account: when absent, any call type other than CallTypeCall exits
early with UnknownAddress, while CallTypeCall implicitly creates the
account on the caller frame (returning early if creation fails) and
re-reads it; (4) continue in CallFromSiteFrame with the frame opening, the
gas forwarding and the caller/callee rewrite. -/
def CallFromSitePre (globalPerms : Nat) (st : Frame) (sink : EventSink) (maybe : Maybe)
    (site target : CallParams) : EarlyExit ⊕ ChildInvocation :=
  let p1 := maybe.pushError (ensurePermission globalPerms st site.callee permCall)
  if p1.2 then Sum.inl { maybe := p1.1, frame := st, siteGas := site.gas }
  else
    let charged := useGasNegative site.gas GasGetAccount
    let m2 := (p1.1.pushError charged.2).1
    match st.getAccount target.callee with
    | Option.some acc => CallFromSiteFrame sink site target m2 st charged.1 acc
    | Option.none =>
      if target.callType ≠ CallType.Call then
        Sum.inl { maybe := (m2.pushError (Option.some ErrCode.UnknownAddress)).1,
                  frame := st, siteGas := charged.1 }
      else
        match Frame.CreateAccount globalPerms st site.callee target.callee with
        | Except.error e =>
          Sum.inl { maybe := (m2.pushError (Option.some e)).1, frame := st, siteGas := charged.1 }
        | Except.ok st2 =>
          match st2.getAccount target.callee with
          | Option.some acc => CallFromSiteFrame sink site target m2 st2 charged.1 acc
          | Option.none =>
            -- MustGetAccount after a successful creation: unreachable, the
            -- created account is always found; modelled as an accumulated
            -- UnknownAddress and an early exit
            Sum.inl { maybe := (m2.pushError (Option.some ErrCode.UnknownAddress)).1,
                      frame := st2, siteGas := charged.1 }

/-- What the dispatched child callable produces: its return data and error,
the content of the forwarded gas cell after its run (its unused gas), and
the content of the child frame after its run. -/
structure ChildResult where
  returnData : List Nat
  callErr : Option ErrCode
  gasLeft : Nat
  frame : Frame
deriving DecidableEq, Repr

/-- The result of CallFromSite: the return data and (child) error it
returns, the accumulator it leaves behind for its caller, the caller frame
after the call, the content of the caller gas cell on return, and the
content of the forwarded gas cell on return (the unused child gas). -/
structure CFSOut where
  returnData : List Nat
  err : Option ErrCode
  maybe : Maybe
  frame : Frame
  siteGas : Nat
  childGasLeft : Nat
deriving DecidableEq, Repr

/-- CallFromSite after the dispatch (src/unnamed/part_001 lines 139-150):
on child success the child frame is synced into the parent; on failure it
is discarded. The gas refund of line 148 (site.Gas.Add(site.Gas,
target.Gas)) is commented out in the source, so the caller gas cell keeps
exactly the value forwarding left in it and the unused child gas stays in
the dead target cell. The returned error is the child error. -/
def CallFromSitePost (inv : ChildInvocation) (cr : ChildResult) : CFSOut :=
  let frame := if cr.callErr = Option.none then inv.parent.Sync cr.frame else inv.parent
  { returnData := cr.returnData, err := cr.callErr, maybe := inv.maybe,
    frame := frame, siteGas := inv.siteGas, childGasLeft := cr.gasLeft }

/-- engine.CallFromSite (src/unnamed/part_001 lines 46-150), with the
dispatched child callable as a parameter. -/
def CallFromSite (globalPerms : Nat) (child : ChildInvocation → ChildResult)
    (st : Frame) (sink : EventSink) (maybe : Maybe) (site target : CallParams) : CFSOut :=
  match CallFromSitePre globalPerms st sink maybe site target with
  | Sum.inl e =>
    { returnData := [], err := e.maybe.err, maybe := e.maybe,
      frame := e.frame, siteGas := e.siteGas, childGasLeft := target.gas }
  | Sum.inr inv => CallFromSitePost inv (child inv)

/-! ## WASM memory and the ethereum host functions -/

/-- Go slicing mem[lo:hi]; Option.none models the runtime panic on
out-of-range bounds. -/
def goSlice (mem : List Nat) (lo hi : Nat) : Option (List Nat) :=
  if lo ≤ hi ∧ hi ≤ mem.length then Option.some ((mem.drop lo).take (hi - lo))
  else Option.none

/-- binary.BigEndian.Uint64: big-endian read of the first eight bytes;
Option.none models the bounds-check panic on a shorter slice. -/
def bigEndianUint64 (bs : List Nat) : Option Nat :=
  if 8 ≤ bs.length then Option.some ((bs.take 8).foldl (fun acc b => acc * 256 + b) 0)
  else Option.none

/-- Big-endian bytes to Nat (used for the 20-byte address reads). -/
def beBytesToNat (bs : List Nat) : Nat :=
  bs.foldl (fun acc b => acc * 256 + b) 0

/-- Little-endian bytes to Nat: the value of a little-endian 128-bit region
of WASM memory per the documented ewasm ABI. -/
def leBytesToNat : List Nat → Nat
  | [] => 0
  | b :: bs => b % 256 + 256 * leBytesToNat bs

/-- The k little-endian bytes of n (binary.LittleEndian.PutUint64 for
k = 8). -/
def natToLEBytes (k n : Nat) : List Nat :=
  (List.range k).map fun i => (n >>> (8 * i)) % 256

/-- The 16-byte buffer written by getCallValue and getExternalBalance
(contract.go lines 264-267 and 286-289): make([]byte, 16) followed by
binary.LittleEndian.PutUint64, that is the value little-endian in the low
eight bytes and zeros above: a little-endian 128-bit encoding. -/
def le128Bytes (n : Nat) : List Nat := natToLEBytes 8 n ++ List.replicate 8 0

/-- copy(vm.Memory[ptr:], bs): overwrite at most len(mem) - ptr bytes of
memory starting at ptr. -/
def memWrite (mem : List Nat) (ptr : Nat) (bs : List Nat) : List Nat :=
  mem.take ptr ++ bs.take (mem.length - ptr) ++ mem.drop (ptr + bs.length)

/-- The value read by the wasm call host function (contract.go line 96):
binary.BigEndian.Uint64(vm.Memory[valuePtr:8]), a big-endian 64-bit read of
the slice from valuePtr to 8; Option.none models the panic this raises
whenever valuePtr is not 0 (the slice is shorter than eight bytes) or
memory is shorter than eight bytes. -/
def wasmCallReadValue (mem : List Nat) (valuePtr : Nat) : Option Nat :=
  (goSlice mem valuePtr 8).bind bigEndianUint64

/-- The getCallValue host function (contract.go lines 258-270): writes the
call value as a little-endian 128-bit integer at valuePtr. -/
def hostGetCallValue (value : Nat) (mem : List Nat) (valuePtr : Nat) : List Nat :=
  memWrite mem valuePtr (le128Bytes value)

/-- The getExternalBalance host function (contract.go lines 272-292): reads
a 20-byte address at addrPtr, loads the account (a missing account panics
with InvalidAddress, modelled as Option.none), and writes its balance as a
little-endian 128-bit integer at balancePtr. -/
def hostGetExternalBalance (f : Frame) (mem : List Nat) (addrPtr balancePtr : Nat) :
    Option (List Nat) :=
  match goSlice mem addrPtr (addrPtr + 20) with
  | Option.none => Option.none
  | Option.some addrBytes =>
    match f.getAccount (beBytesToNat addrBytes) with
    | Option.none => Option.none
    | Option.some acc => Option.some (memWrite mem balancePtr (le128Bytes acc.balance))

/-- The mutable state of the wasm host-function context (contract.go type
context) that the call host function touches: the call frame, the running
parameters (whose gas field is the content of the shared gas cell), the
return data of the last sub-call and the error accumulator. -/
structure WasmCtx where
  frame : Frame
  params : CallParams
  returnData : List Nat
  maybe : Maybe
deriving DecidableEq, Repr

/-- The wasm call host function (contract.go lines 83-143), with the
dispatched child callable as a parameter: reads the target address, the
value (via the big-endian read of mem[valuePtr:8]) and the input data from
memory (Option.none models the panic of an out-of-range read); opens a
child frame; applies EIP-150 gas forwarding, debiting the context gas cell;
builds the callee parameters with CallTypeCall semantics; dispatches; syncs
the child frame on success; credits the unused child gas back to the
context gas cell (line 136); and returns 0 on success, 1 on failure. -/
def hostCall (child : Frame → CallParams → ChildResult) (ctx : WasmCtx) (mem : List Nat)
    (gasLimit addressPtr valuePtr dataPtr dataLen : Nat) : Option (Nat × WasmCtx) :=
  match goSlice mem addressPtr (addressPtr + 20), wasmCallReadValue mem valuePtr,
        goSlice mem dataPtr (dataPtr + dataLen) with
  | Option.some addrBytes, Option.some value, Option.some input =>
    let target := beBytesToNat addrBytes
    match ctx.frame.newFrame with
    | Except.error e =>
      Option.some (1, { ctx with maybe := (ctx.maybe.pushError (Option.some e)).1 })
    | Except.ok childFrame =>
      let fwd := callGasForwarding ctx.params.gas gasLimit
      let calleeParams : CallParams :=
        { callType := CallType.Call, caller := ctx.params.callee, callee := target,
          input := input, value := value, gas := fwd.1, origin := ctx.params.origin }
      let cr := child childFrame calleeParams
      let frame := if cr.callErr = Option.none then ctx.frame.Sync cr.frame else ctx.frame
      let callerGas := fwd.2 + cr.gasLeft
      let status := if cr.callErr = Option.none then 0 else 1
      Option.some (status,
        { frame := frame, params := { ctx.params with gas := callerGas },
          returnData := cr.returnData, maybe := ctx.maybe })
  | _, _, _ => Option.none

/-! ## Contract.execute and the finish / revert control transfer -/

/-- How a run of the exported main function ends: a normal return, a call of
the finish or revert host function (contract.go lines 228-247) with the
designated memory region, or any other error raised inside the black-box
VM. The VM (spec: a black box) recovers host-function panics and surfaces
them as the error of vm.Run with their code intact; finish panics with
errors.Codes.None after storing the region in ctx.output, revert does the
same with errors.Codes.ExecutionReverted. -/
inductive WasmRunOutcome where
  | normal
  | finish (mem : List Nat) (dataPtr dataLen : Nat)
  | revert (mem : List Nat) (dataPtr dataLen : Nat)
  | trap (e : ErrCode)
deriving DecidableEq, Repr

/-- The pair (ctx.output, error of vm.Run) after the run: finish and revert
store the sliced region in ctx.output and unwind with their code (a failed
slice is itself a panic, surfaced as a plain non-None error); a normal
return leaves ctx.output nil and no error. -/
def vmRun : WasmRunOutcome → Option (List Nat) × Option ErrCode
  | WasmRunOutcome.normal => (Option.none, Option.none)
  | WasmRunOutcome.finish mem ptr len =>
    match goSlice mem ptr (ptr + len) with
    | Option.some bs => (Option.some bs, Option.some ErrCode.None)
    | Option.none => (Option.none, Option.some ErrCode.Generic)
  | WasmRunOutcome.revert mem ptr len =>
    match goSlice mem ptr (ptr + len) with
    | Option.some bs => (Option.some bs, Option.some ErrCode.ExecutionReverted)
    | Option.none => (Option.none, Option.some ErrCode.Generic)
  | WasmRunOutcome.trap e => (Option.none, Option.some e)

/-- The stages of Contract.execute before the run: loading the bytecode
into the VM can fail (NewVirtualMachine, wrapped as InvalidContract), and
the module may or may not export a function named main. The context error
checked between the two is necessarily nil, since no host function has run
yet. -/
inductive WasmLoad where
  | failure
  | ok (hasMain : Bool) (run : WasmRunOutcome)
deriving DecidableEq, Repr

/-- Contract.execute (contract.go lines 29-59): a load failure returns
InvalidContract; a missing main export returns UnresolvedSymbols with nil
output and the body is never run; otherwise the module runs, and any vm.Run
error whose code is not errors.Codes.None is returned as ExecutionAborted
with nil output, while a nil error or the None code returns ctx.output with
no error. -/
def contractExecute : WasmLoad → Option (List Nat) × Option ErrCode
  | WasmLoad.failure => (Option.none, Option.some ErrCode.InvalidContract)
  | WasmLoad.ok hasMain run =>
    if hasMain then
      let r := vmRun run
      match r.2 with
      | Option.some c =>
        if c ≠ ErrCode.None then (Option.none, Option.some ErrCode.ExecutionAborted)
        else (r.1, Option.none)
      | Option.none => (r.1, Option.none)
    else (Option.none, Option.some ErrCode.UnresolvedSymbols)

/-! ## WVM.Execute: the executor boundary -/

/-- A Go panic value as it occurs in the wasm executor: a coded error or a
formatted message. Every panic site in the code passes a non-nil value, so
the recovered value is never nil. -/
inductive PanicPayload where
  | code (c : ErrCode)
  | message (s : String)
deriving DecidableEq, Repr

/-- The outcome of running a Go function body: a normal return or a panic
unwinding out of it. -/
inductive GoResult (α : Type) where
  | ok (a : α)
  | panicked (v : PanicPayload)
deriving DecidableEq, Repr

/-- WVM.Execute (wasm.go lines 43-62): the deferred recover converts any
panic escaping the contract execution into the error ExecutionAborted (the
named output return value is still nil at that point); a normal return
passes through unchanged. No panic escapes. -/
def WVMExecute (body : GoResult (Option (List Nat) × Option ErrCode)) :
    Option (List Nat) × Option ErrCode :=
  match body with
  | GoResult.ok r => r
  | GoResult.panicked _ => (Option.none, Option.some ErrCode.ExecutionAborted)

/-! ## keccak-256 and the Permissions selector table

The hash is consumed by the repository as a black-box primitive; it is
implemented here in full (the pre-NIST Ethereum keccak-256: rate 136,
padding byte 0x01) so that the selector table can be checked by
evaluation. -/

def rotl64 (n r : Nat) : Nat :=
  ((n <<< r) ||| (n >>> (64 - r))) % U64

def comp64 (n : Nat) : Nat := allOnes64 ^^^ n

/-- The rho rotation offset of the lane at index x + 5 * y. -/
def keccakRho (i : Nat) : Nat :=
  match i with
  | 0 => 0
  | 1 => 1
  | 2 => 62
  | 3 => 28
  | 4 => 27
  | 5 => 36
  | 6 => 44
  | 7 => 6
  | 8 => 55
  | 9 => 20
  | 10 => 3
  | 11 => 10
  | 12 => 43
  | 13 => 25
  | 14 => 39
  | 15 => 41
  | 16 => 45
  | 17 => 15
  | 18 => 21
  | 19 => 8
  | 20 => 18
  | 21 => 2
  | 22 => 61
  | 23 => 56
  | _ => 14

/-- The round constant of round r of keccak-f[1600]. -/
def keccakRC (r : Nat) : Nat :=
  match r with
  | 0 => 0x1
  | 1 => 0x8082
  | 2 => 0x800000000000808a
  | 3 => 0x8000000080008000
  | 4 => 0x808b
  | 5 => 0x80000001
  | 6 => 0x8000000080008081
  | 7 => 0x8000000000008009
  | 8 => 0x8a
  | 9 => 0x88
  | 10 => 0x80008009
  | 11 => 0x8000000a
  | 12 => 0x8000808b
  | 13 => 0x800000000000008b
  | 14 => 0x8000000000008089
  | 15 => 0x8000000000008003
  | 16 => 0x8000000000008002
  | 17 => 0x8000000000000080
  | 18 => 0x800a
  | 19 => 0x800000008000000a
  | 20 => 0x8000000080008081
  | 21 => 0x8000000000008080
  | 22 => 0x80000001
  | _ => 0x8000000080008008

def theta (A : List Nat) : List Nat :=
  let g := fun i => A.getD i 0
  let cs := (List.range 5).map fun x =>
    ((((g x) ^^^ (g (x + 5))) ^^^ (g (x + 10))) ^^^ (g (x + 15))) ^^^ (g (x + 20))
  let ds := (List.range 5).map fun x =>
    (cs.getD ((x + 4) % 5) 0) ^^^ (rotl64 (cs.getD ((x + 1) % 5) 0) 1)
  (List.range 25).map fun i => (g i) ^^^ (ds.getD (i % 5) 0)

def rhoPi (A : List Nat) : List Nat :=
  (List.range 25).foldl
    (fun B i =>
      let x := i % 5
      let y := i / 5
      let j := y + 5 * ((2 * x + 3 * y) % 5)
      B.set j (rotl64 (A.getD i 0) (keccakRho i)))
    (List.replicate 25 0)

def chi (B : List Nat) : List Nat :=
  (List.range 25).map fun i =>
    let x := i % 5
    let y := i / 5
    (B.getD i 0) ^^^ ((comp64 (B.getD ((x + 1) % 5 + 5 * y) 0)) &&& (B.getD ((x + 2) % 5 + 5 * y) 0))

def iotaStep (r : Nat) (A : List Nat) : List Nat :=
  A.set 0 ((A.getD 0 0) ^^^ (keccakRC r))

/-- One round of keccak-f[1600]: theta, rho and pi, chi, iota. -/
def keccakRound (r : Nat) (A : List Nat) : List Nat :=
  iotaStep r (chi (rhoPi (theta A)))

def keccakF (A : List Nat) : List Nat :=
  (List.range 24).foldl (fun A r => keccakRound r A) A

/-- The keccak pad10*1 padding of the final short block with the 0x01
domain byte, to the rate of 136 bytes. -/
def keccakPadBlock (msg : List Nat) : List Nat :=
  let padLen := 136 - msg.length
  if padLen = 1 then msg ++ [0x81]
  else msg ++ [0x01] ++ List.replicate (padLen - 2) 0 ++ [0x80]

/-- Split a message into padded rate-sized blocks; the Nat fuel argument
keeps the recursion structural (any fuel of at least length / 136 works). -/
def keccakBlocks : Nat → List Nat → List (List Nat)
  | 0, msg => [keccakPadBlock msg]
  | fuel + 1, msg =>
    if msg.length < 136 then [keccakPadBlock msg]
    else msg.take 136 :: keccakBlocks fuel (msg.drop 136)

/-- Xor the 17 lanes of a 136-byte block (little-endian) into the state. -/
def xorBlock (A : List Nat) (block : List Nat) : List Nat :=
  (List.range 25).map fun i =>
    if i < 17 then (A.getD i 0) ^^^ leBytesToNat ((block.drop (8 * i)).take 8)
    else A.getD i 0

/-- Absorb one 136-byte block: xor it into the state and permute. -/
def absorbBlock (A : List Nat) (block : List Nat) : List Nat :=
  keccakF (xorBlock A block)

/-- Squeeze the first 32 bytes of the state (four lanes, little-endian). -/
def squeeze (A : List Nat) : List Nat :=
  (List.range 4).foldr (fun i acc => natToLEBytes 8 (A.getD i 0) ++ acc) []

/-- keccak-256 of a byte list: absorb all padded blocks into the zero state
and squeeze. -/
def keccak256 (msg : List Nat) : List Nat :=
  squeeze ((keccakBlocks (msg.length / 136 + 1) msg).foldl absorbBlock (List.replicate 25 0))

/-- The ASCII bytes of a canonical signature string. -/
def strBytes (s : String) : List Nat := s.toList.map Char.toNat

/-- The 4-byte function selector: the first four bytes of keccak-256 of the
canonical signature (spec and abi.FunctionID). -/
def selector (sig : String) : List Nat := (keccak256 (strBytes sig)).take 4

/-- Modelled from the spec: the function table of the Permissions native
contract exposes exactly these seven functions with these canonical
signatures, in the order of the compiledSigs table of its test
(src/unnamed/part_000 lines 34-42); the native package itself is outside
the slice. -/
def permissionsSignatures : List String :=
  ["addRole(address,string)",
   "removeRole(address,string)",
   "hasRole(address,string)",
   "setBase(address,uint64,bool)",
   "unsetBase(address,uint64)",
   "hasBase(address,uint64)",
   "setGlobal(uint64,bool)"]

/-- The selectors the test table compiledSigs (src/unnamed/part_000 lines
34-42) pins for the seven signatures, in the same order. -/
def compiledSigSelectors : List (List Nat) :=
  [[0x7d, 0x72, 0xaa, 0x65],
   [0x1b, 0xfe, 0x03, 0x08],
   [0x21, 0x7f, 0xe6, 0xc6],
   [0xdb, 0xd4, 0xa8, 0xea],
   [0xb7, 0xd4, 0xdc, 0x0d],
   [0x22, 0x5b, 0x65, 0x74],
   [0xc4, 0xbc, 0x7b, 0x70]]

/-! ## Concrete fixtures used by witnesses and counterexamples -/

/-- An account with every permission bit set locally. -/
def acctAllPerms : Acct :=
  { perms := { perms := allOnes64, setBit := allOnes64 }, balance := 100 }

/-- A small two-account frame: the calling contract at address 10 and the
target contract at address 20, both fully permissioned. -/
def testFrame : Frame :=
  { accounts := [(10, acctAllPerms), (20, acctAllPerms)], storage := [],
    readOnly := false, depth := 0, maxDepth := 1024 }

/-- Site parameters of the running contract: callee 10 with a gas cell
holding 100. -/
def siteParams : CallParams :=
  { callType := CallType.Call, caller := 1, callee := 10, input := [],
    value := 0, gas := 100, origin := 1 }

/-- Target parameters requesting 10 gas for a call to address 20. -/
def targetParams : CallParams :=
  { callType := CallType.Call, caller := 10, callee := 20, input := [],
    value := 0, gas := 10, origin := 1 }

/-- A child callable that consumes 4 gas of its forwarded cell and
succeeds. -/
def consumingChild : ChildInvocation → ChildResult := fun inv =>
  { returnData := [7], callErr := Option.none, gasLeft := inv.target.gas - 4,
    frame := inv.frame }

/-- The same child behaviour in the shape the wasm call host function
dispatches. -/
def consumingWasmChild : Frame → CallParams → ChildResult := fun frame params =>
  { returnData := [7], callErr := Option.none, gasLeft := params.gas - 4,
    frame := frame }

/-- A 40-byte zero memory for wasm host-function fixtures. -/
def mem40 : List Nat := List.replicate 40 0

/-- The context of the wasm call fixture: the test frame with the running
contract at callee 10 and a gas cell holding 100. -/
def testWasmCtx : WasmCtx :=
  { frame := testFrame, params := siteParams, returnData := [], maybe := { err := Option.none } }

/-- Target parameters for a static sub-call to address 20. -/
def targetStaticParams : CallParams := { targetParams with callType := CallType.Static }

/-- The child invocation CallFromSitePre produces on the test fixture with a
CallTypeCall target: child frame at depth 1, forwarded cell 10, caller cell
89 after the GasGetAccount charge and the debit of the forwarded gas. -/
def testInvCall : ChildInvocation :=
  { frame := { testFrame with depth := 1 }, sink := EventSink.collector [],
    target := targetParams, acc := acctAllPerms,
    parent := testFrame, siteGas := 89, maybe := { err := Option.none } }

/-- A frame in which the target address 20 has no account yet. -/
def testFrameNoTarget : Frame :=
  { accounts := [(10, acctAllPerms)], storage := [],
    readOnly := false, depth := 0, maxDepth := 1024 }

/-- An account holding only the Call permission (all bits locally set, so
nothing falls through to the global account). -/
def acctOnlyCall : Acct :=
  { perms := { perms := permCall, setBit := allOnes64 }, balance := 0 }

/-- A frame whose calling contract may call but not create accounts, and in
which the target address 20 has no account. -/
def testFrameDenied : Frame :=
  { accounts := [(10, acctOnlyCall)], storage := [],
    readOnly := false, depth := 0, maxDepth := 1024 }

end Burrow

namespace Burrow

/-! ## Theorems -/

/-- C4: For every invocation of the generic call protocol engine.Call, the
value transfer is attempted exactly when the call type is Call or CallCode
(Delegate and Static leave the state untouched before execution); a
transfer error is accumulated but execution still runs, on the
post-transfer state; the post-call event is fired in every case, after
execution, with the output and the first error accumulated so far; and the
returned error is the first of transfer error, execute error and event
error, later errors never masking an earlier one. -/
theorem Call_transfer_event_and_error_precedence {σ : Type} (callType : CallType)
    (transfer : σ → σ × Option ErrCode)
    (execute : σ → σ × List Nat × Option ErrCode)
    (fireCallEvent : σ → Option ErrCode → List Nat → σ × Option ErrCode)
    (st : σ) :
    Call callType transfer execute fireCallEvent st =
      (let tr := if callType = CallType.Call ∨ callType = CallType.Code
        then transfer st else (st, Option.none)
       let ex := execute tr.1
       let fe := fireCallEvent ex.1 (firstErr [tr.2, ex.2.2]) ex.2.1
       (fe.1, ex.2.1, firstErr [tr.2, ex.2.2, fe.2])) := by
  unfold Call
  by_cases h : callType = CallType.Call ∨ callType = CallType.Code
  · simp only [if_pos h]
    cases hte : (transfer st).2 <;>
      cases hee : (execute (transfer st).1).2.2 <;>
      rfl
  · simp only [if_neg h]
    cases hee : (execute st).2.2 <;> rfl

end Burrow

namespace Burrow

/-- C2: For every sub-call, the gas forwarded to the child is the requested
amount when the remaining gas of the caller is at least the request, and
remaining minus remaining / 64 otherwise; the caller cell is decremented by
exactly the forwarded amount (their sum is the remaining gas); whenever
CallFromSitePre reaches a dispatch, the forwarded cell and the caller cell
are exactly this forwarding applied to the gas remaining after the
GasGetAccount charge; and a caller with 640 gas requesting 1024 forwards
630 and retains 10. -/
theorem CallFromSite_eip150_gas_forwarding :
    (∀ remaining requested, callGasForwarding remaining requested =
        ((if remaining < requested then remaining - remaining / 64 else requested),
         remaining - (if remaining < requested then remaining - remaining / 64 else requested)))
    ∧ (∀ remaining requested,
        (callGasForwarding remaining requested).2 + (callGasForwarding remaining requested).1
          = remaining)
    ∧ (∀ globalPerms st sink m site target inv,
        CallFromSitePre globalPerms st sink m site target = Sum.inr inv →
        (inv.target.gas, inv.siteGas) =
          callGasForwarding (useGasNegative site.gas GasGetAccount).1 target.gas)
    ∧ callGasForwarding 640 1024 = (630, 10) := by
  refine ⟨fun r q => rfl, fun r q => ?_, ?_, by decide⟩
  · unfold callGasForwarding
    dsimp only
    split <;> omega
  · intro globalPerms st sink m site target inv h
    unfold CallFromSitePre CallFromSiteFrame at h
    dsimp only at h
    repeat' first
      | (injection h with h; subst h; rfl)
      | injection h
      | split at h

/-- Witness for C2: the dispatch reached on the test fixture carries
forwarded gas 10 and caller gas 89 = (100 - 1) - 10, exactly the forwarding
applied to the post-charge remainder. -/
theorem CallFromSite_eip150_gas_forwarding_witness :
    (testInvCall.target.gas, testInvCall.siteGas) =
      callGasForwarding (useGasNegative siteParams.gas GasGetAccount).1 targetParams.gas :=
  CallFromSite_eip150_gas_forwarding.2.2.1 0 testFrame (EventSink.collector [])
    { err := Option.none } siteParams targetParams testInvCall (by decide)

/-- C6: A sub-call with CallTypeStatic that reaches the dispatch hands the
child a frame marked read-only and an event sink wrapped in the log-free
sink; on that frame every storage write, account update and account
creation fails with ReadOnly, and every log submission to that sink fails
with IllegalWrite (the ReadOnly-class code burrow uses for logs in a
static context). -/
theorem CallFromSite_static_readonly_logfree (globalPerms : Nat) (st : Frame)
    (sink : EventSink) (m : Maybe) (site target : CallParams) (acc : Acct)
    (hperm : ensurePermission globalPerms st site.callee permCall = Option.none)
    (hacc : st.getAccount target.callee = Option.some acc)
    (hdepth : ¬ st.maxDepth < st.depth + 1)
    (htype : target.callType = CallType.Static) :
    ∃ inv, CallFromSitePre globalPerms st sink m site target = Sum.inr inv
      ∧ inv.frame.readOnly = true
      ∧ inv.sink = EventSink.logFree sink
      ∧ (∀ a k v, inv.frame.setStorage a k v = Except.error ErrCode.ReadOnly)
      ∧ (∀ a g, inv.frame.updateAccount a g = Except.error ErrCode.ReadOnly)
      ∧ (∀ gp c a, inv.frame.CreateAccount gp c a = Except.error ErrCode.ReadOnly)
      ∧ (∀ e, inv.sink.Log e = Except.error ErrCode.IllegalWrite) := by
  unfold CallFromSitePre
  simp only [hperm, Maybe.pushError, Option.isSome, hacc]
  unfold CallFromSiteFrame
  unfold Frame.newFrame
  rw [if_neg hdepth]
  simp only [htype]
  exact ⟨_, rfl, rfl, rfl, fun a k v => rfl, fun a g => rfl, fun gp c a => rfl, fun e => rfl⟩

/-- Witness for C6: on the concrete static fixture the child invocation is
read-only with a log-free sink and the mutating operations all fail. -/
theorem CallFromSite_static_readonly_logfree_witness :
    ∃ inv, CallFromSitePre 0 testFrame (EventSink.collector []) { err := Option.none }
        siteParams targetStaticParams = Sum.inr inv
      ∧ inv.frame.readOnly = true
      ∧ inv.sink = EventSink.logFree (EventSink.collector [])
      ∧ (∀ a k v, inv.frame.setStorage a k v = Except.error ErrCode.ReadOnly)
      ∧ (∀ a g, inv.frame.updateAccount a g = Except.error ErrCode.ReadOnly)
      ∧ (∀ gp c a, inv.frame.CreateAccount gp c a = Except.error ErrCode.ReadOnly)
      ∧ (∀ e, inv.sink.Log e = Except.error ErrCode.IllegalWrite) :=
  CallFromSite_static_readonly_logfree 0 testFrame (EventSink.collector [])
    { err := Option.none } siteParams targetStaticParams acctAllPerms
    (by decide) (by decide) (by decide) rfl

/-- C1 (the code at the failing input): on the engine path a caller holding
100 gas forwards 10 to a child that consumes only 4, yet on return the
caller cell holds 89 = (100 - 1) - 10 and the 6 unused units sit in the
dead target cell: the commented-out refund of src/unnamed/part_001 line 148
loses them, 89 + 4 + 1 = 94 differs from 100. On the wasm path of
contract.go line 136 the refund happens: the same child behaviour leaves
the caller cell at 96 = (100 - 10) + 6, and 96 + 4 = 100 as the claim
demands. -/
theorem CallFromSite_discards_unused_child_gas :
    (CallFromSite 0 consumingChild testFrame (EventSink.collector [])
        { err := Option.none } siteParams targetParams).siteGas = 89
    ∧ (CallFromSite 0 consumingChild testFrame (EventSink.collector [])
        { err := Option.none } siteParams targetParams).childGasLeft = 6
    ∧ 89 + (10 - 6) + GasGetAccount ≠ 100
    ∧ (hostCall consumingWasmChild testWasmCtx mem40 10 0 0 0 0).map
        (fun p => (p.1, p.2.params.gas)) = Option.some (0, 96)
    ∧ 96 + 4 = 100 := by decide

/-- C3 counterexample: a contract that calls the revert host function with
the region [1, 2, 3] makes Contract.execute return nil output with
ExecutionAborted, not the region with ExecutionReverted as claimed. -/
theorem contractExecute_revert_counterexample :
    contractExecute (WasmLoad.ok true (WasmRunOutcome.revert [1, 2, 3] 0 3)) =
      (Option.none, Option.some ErrCode.ExecutionAborted)
    ∧ contractExecute (WasmLoad.ok true (WasmRunOutcome.revert [1, 2, 3] 0 3)) ≠
      (Option.some [1, 2, 3], Option.some ErrCode.ExecutionReverted) := by decide

/-- C3 as amended: finish returns the designated region with no error;
revert returns nil output with ExecutionAborted (the ExecutionReverted code
of the revert panic is collapsed by the execute error handling, and the
stored region is dropped). -/
theorem contractExecute_finish_and_revert (mem : List Nat) (ptr len : Nat) (bs : List Nat)
    (h : goSlice mem ptr (ptr + len) = Option.some bs) :
    contractExecute (WasmLoad.ok true (WasmRunOutcome.finish mem ptr len)) =
      (Option.some bs, Option.none)
    ∧ contractExecute (WasmLoad.ok true (WasmRunOutcome.revert mem ptr len)) =
      (Option.none, Option.some ErrCode.ExecutionAborted) := by
  constructor <;> simp only [contractExecute, vmRun, h] <;> simp

/-- Witness for the amended C3 at the region [1, 2, 3]. -/
theorem contractExecute_finish_and_revert_witness :
    contractExecute (WasmLoad.ok true (WasmRunOutcome.finish [1, 2, 3] 0 3)) =
      (Option.some [1, 2, 3], Option.none)
    ∧ contractExecute (WasmLoad.ok true (WasmRunOutcome.revert [1, 2, 3] 0 3)) =
      (Option.none, Option.some ErrCode.ExecutionAborted) :=
  contractExecute_finish_and_revert [1, 2, 3] 0 3 [1, 2, 3] (by decide)

/-- C5 (the code at the failing input): getCallValue and getExternalBalance
do write little-endian 128-bit values (writing 5 and the balance 100 and
reading the 16-byte region back little-endian returns them), but the call
host function does not read one: on a memory holding the little-endian
128-bit encoding of 1 it reads the big-endian 64-bit value 2 ^ 56 from
mem[0:8], and for any valuePtr other than 0, such as 4, the slice
mem[valuePtr:8] is shorter than eight bytes and the read panics. -/
theorem wasm_value_encoding_mismatch :
    leBytesToNat (le128Bytes 1) = 1
    ∧ wasmCallReadValue (le128Bytes 1) 0 = Option.some (2 ^ 56)
    ∧ 2 ^ 56 ≠ 1
    ∧ wasmCallReadValue (le128Bytes 1) 4 = Option.none
    ∧ (goSlice (hostGetCallValue 5 (List.replicate 40 0) 8) 8 24).map leBytesToNat
        = Option.some 5
    ∧ ((hostGetExternalBalance testFrame
          (List.replicate 19 0 ++ [10] ++ List.replicate 20 0) 0 20).bind
        fun mem => (goSlice mem 20 36).map leBytesToNat) = Option.some 100 := by decide

/-- C8: WVM.Execute turns every panic reaching its deferred recover into
nil output with the error ExecutionAborted, and passes a normal return
through unchanged; being a total function of the body outcome, it never
propagates a panic. -/
theorem WVMExecute_recovers_panics :
    (∀ v, WVMExecute (GoResult.panicked v) =
        (Option.none, Option.some ErrCode.ExecutionAborted))
    ∧ (∀ r, WVMExecute (GoResult.ok r) = r) :=
  ⟨fun _ => rfl, fun _ => rfl⟩

/-- C10: when the bytecode loads but the module exports no main function,
Contract.execute returns nil output with UnresolvedSymbols, whatever the
body would have done: the run outcome is never consulted. -/
theorem contractExecute_missing_main (run : WasmRunOutcome) :
    contractExecute (WasmLoad.ok false run) =
      (Option.none, Option.some ErrCode.UnresolvedSymbols) := rfl

end Burrow

namespace Burrow

/-- C7: When the target account does not exist, CallFromSite behaves by call
type: (1) for any call type other than CallTypeCall it returns nil data
with UnknownAddress, leaves the caller frame untouched and dispatches no
child (the result is the same for every child callable and is produced
before any frame is opened); (2) for CallTypeCall with the CreateAccount
permission on the creating contract, the zero account is created on the
caller frame and the dispatch proceeds against that new account, visible in
both the parent and the child frame; (3) for CallTypeCall without the
CreateAccount permission, the call fails with PermissionDenied, again with
no child dispatched. -/
theorem CallFromSite_absent_account_handling :
    (∀ globalPerms st sink site target child,
      ensurePermission globalPerms st site.callee permCall = Option.none →
      GasGetAccount ≤ site.gas →
      st.getAccount target.callee = Option.none →
      target.callType ≠ CallType.Call →
      CallFromSite globalPerms child st sink { err := Option.none } site target =
        { returnData := [], err := Option.some ErrCode.UnknownAddress,
          maybe := { err := Option.some ErrCode.UnknownAddress },
          frame := st, siteGas := site.gas - GasGetAccount, childGasLeft := target.gas })
    ∧ (∀ globalPerms st sink m site target creatorAcct,
        ensurePermission globalPerms st site.callee permCall = Option.none →
        st.getAccount target.callee = Option.none →
        target.callType = CallType.Call →
        st.readOnly = false →
        st.getAccount site.callee = Option.some creatorAcct →
        hasPermission globalPerms creatorAcct.perms permCreateAccount = true →
        ¬ st.maxDepth < st.depth + 1 →
        ∃ inv, CallFromSitePre globalPerms st sink m site target = Sum.inr inv
          ∧ inv.acc = zeroAcct
          ∧ inv.parent.getAccount target.callee = Option.some zeroAcct
          ∧ inv.frame.getAccount target.callee = Option.some zeroAcct)
    ∧ (∀ globalPerms st sink site target creatorAcct child,
        ensurePermission globalPerms st site.callee permCall = Option.none →
        GasGetAccount ≤ site.gas →
        st.getAccount target.callee = Option.none →
        target.callType = CallType.Call →
        st.readOnly = false →
        st.getAccount site.callee = Option.some creatorAcct →
        hasPermission globalPerms creatorAcct.perms permCreateAccount = false →
        CallFromSite globalPerms child st sink { err := Option.none } site target =
          { returnData := [], err := Option.some ErrCode.PermissionDenied,
            maybe := { err := Option.some ErrCode.PermissionDenied },
            frame := st, siteGas := site.gas - GasGetAccount, childGasLeft := target.gas }) := by
  refine ⟨?_, ?_, ?_⟩
  · intro globalPerms st sink site target child hperm hgas hacc htype
    have hch : useGasNegative site.gas GasGetAccount = (site.gas - GasGetAccount, Option.none) := by
      unfold useGasNegative; rw [if_pos hgas]
    unfold CallFromSite CallFromSitePre
    simp only [hperm, Maybe.pushError, Option.isSome, hacc, hch]
    rw [if_pos htype]
    rfl
  · intro globalPerms st sink m site target creatorAcct hperm hacc htype hro hcreator hcperm hdepth
    have hcr : Frame.CreateAccount globalPerms st site.callee target.callee =
        Except.ok { st with accounts := (target.callee, zeroAcct) :: st.accounts } := by
      unfold Frame.CreateAccount
      simp only [hro, hcreator, hcperm]
      rfl
    have hget : Frame.getAccount { st with accounts := (target.callee, zeroAcct) :: st.accounts }
        target.callee = Option.some zeroAcct := by
      unfold Frame.getAccount
      simp
    have hget2 : Frame.getAccount { st with
        accounts := (target.callee, zeroAcct) :: st.accounts, depth := st.depth + 1 }
        target.callee = Option.some zeroAcct := by
      unfold Frame.getAccount
      simp
    unfold CallFromSitePre
    simp only [hperm, Maybe.pushError, Option.isSome, hacc, hcr, hget]
    rw [if_neg (show ¬ target.callType ≠ CallType.Call by simp [htype])]
    unfold CallFromSiteFrame
    unfold Frame.newFrame
    rw [if_neg hdepth]
    simp only [htype]
    exact ⟨_, rfl, rfl, hget, hget2⟩
  · intro globalPerms st sink site target creatorAcct child hperm hgas hacc htype hro hcreator hcperm
    have hch : useGasNegative site.gas GasGetAccount = (site.gas - GasGetAccount, Option.none) := by
      unfold useGasNegative; rw [if_pos hgas]
    have hcr : Frame.CreateAccount globalPerms st site.callee target.callee =
        Except.error ErrCode.PermissionDenied := by
      unfold Frame.CreateAccount
      simp only [hro, hcreator, hcperm]
      rfl
    unfold CallFromSite CallFromSitePre
    simp only [hperm, Maybe.pushError, Option.isSome, hacc, hch, hcr]
    rw [if_neg (show ¬ target.callType ≠ CallType.Call by simp [htype])]
    rfl

/-- Witness for C7: on concrete fixtures, a static call to the absent
address 20 fails with UnknownAddress leaving the frame untouched; a
CallTypeCall by a fully permissioned caller creates the zero account at 20
and reaches the dispatch against it; a CallTypeCall by a caller holding
only the Call permission fails with PermissionDenied. -/
theorem CallFromSite_absent_account_handling_witness :
    CallFromSite 0 consumingChild testFrameNoTarget (EventSink.collector [])
        { err := Option.none } siteParams targetStaticParams =
      { returnData := [], err := Option.some ErrCode.UnknownAddress,
        maybe := { err := Option.some ErrCode.UnknownAddress },
        frame := testFrameNoTarget, siteGas := 99, childGasLeft := 10 }
    ∧ (∃ inv, CallFromSitePre 0 testFrameNoTarget (EventSink.collector [])
          { err := Option.none } siteParams targetParams = Sum.inr inv
        ∧ inv.acc = zeroAcct
        ∧ inv.parent.getAccount targetParams.callee = Option.some zeroAcct
        ∧ inv.frame.getAccount targetParams.callee = Option.some zeroAcct)
    ∧ CallFromSite 0 consumingChild testFrameDenied (EventSink.collector [])
        { err := Option.none } siteParams targetParams =
      { returnData := [], err := Option.some ErrCode.PermissionDenied,
        maybe := { err := Option.some ErrCode.PermissionDenied },
        frame := testFrameDenied, siteGas := 99, childGasLeft := 10 } :=
  ⟨CallFromSite_absent_account_handling.1 0 testFrameNoTarget (EventSink.collector [])
      siteParams targetStaticParams consumingChild (by decide) (by decide) (by decide) (by decide),
   CallFromSite_absent_account_handling.2.1 0 testFrameNoTarget (EventSink.collector [])
      { err := Option.none } siteParams targetParams acctAllPerms
      (by decide) (by decide) rfl rfl (by decide) (by decide) (by decide),
   CallFromSite_absent_account_handling.2.2 0 testFrameDenied (EventSink.collector [])
      siteParams targetParams acctOnlyCall consumingChild
      (by decide) (by decide) (by decide) rfl rfl (by decide) (by decide)⟩

/-- Unrolling of the 24-round permutation, used to check the selector table
round by round. -/
theorem keccakF_unfold (A : List Nat) : keccakF A =
    keccakRound 23 (keccakRound 22 (keccakRound 21 (keccakRound 20 (keccakRound 19
      (keccakRound 18 (keccakRound 17 (keccakRound 16 (keccakRound 15 (keccakRound 14
      (keccakRound 13 (keccakRound 12 (keccakRound 11 (keccakRound 10 (keccakRound 9
      (keccakRound 8 (keccakRound 7 (keccakRound 6 (keccakRound 5 (keccakRound 4
      (keccakRound 3 (keccakRound 2 (keccakRound 1 (keccakRound 0 A))))))))))))))))))))))) := rfl

/-! The following selector lemmas evaluate keccak-256 on each canonical
signature one permutation round at a time (the intermediate states were
computed with the definitions above and are re-checked here by decide),
keeping each check small. -/

theorem kstep_addRole_0 :
    keccakRound 0 [0x28656c6f52646461, 0x2c73736572646461, 0x129676e69727473, 0x0, 0x0, 0x0, 0x0, 0x0, 0x0, 0x0, 0x0, 0x0, 0x0, 0x0, 0x0, 0x0, 0x8000000000000000, 0x0, 0x0, 0x0, 0x0, 0x0, 0x0, 0x0, 0x0] = [0x53a087e5373caf30, 0xc40450af7e4b3c24, 0x31118c53ab8bbb81, 0xad4d2ccb0aec0dac, 0xbe7fd9307a33843a, 0xa48215141250d464, 0x9d6a8d8c5c353cad, 0xe3393c7f2c4eca96, 0xd381f445e4446262, 0x3ce626e422698405, 0xcc8b870d83cb9348, 0x1ed4c35891d1987b, 0xcdf1e5ebc5077345, 0xce58fe280c085214, 0x8b7fcb733b1d6bb8, 0x67240444129646c6, 0x6dbcbd05be6eaebf, 0x9c8bce474e7b3cec, 0x3d94ff3222b6d2bb, 0x7b89a156e2015a5c, 0xef32e40a868dc244, 0xa81112223fb529b3, 0x4c2a6966676e4d46, 0x929183b1090811c9, 0xb85e9a7f33320b26] := by decide

theorem kstep_addRole_1 :
    keccakRound 1 [0x53a087e5373caf30, 0xc40450af7e4b3c24, 0x31118c53ab8bbb81, 0xad4d2ccb0aec0dac, 0xbe7fd9307a33843a, 0xa48215141250d464, 0x9d6a8d8c5c353cad, 0xe3393c7f2c4eca96, 0xd381f445e4446262, 0x3ce626e422698405, 0xcc8b870d83cb9348, 0x1ed4c35891d1987b, 0xcdf1e5ebc5077345, 0xce58fe280c085214, 0x8b7fcb733b1d6bb8, 0x67240444129646c6, 0x6dbcbd05be6eaebf, 0x9c8bce474e7b3cec, 0x3d94ff3222b6d2bb, 0x7b89a156e2015a5c, 0xef32e40a868dc244, 0xa81112223fb529b3, 0x4c2a6966676e4d46, 0x929183b1090811c9, 0xb85e9a7f33320b26] = [0x993dba57c7a0ea9a, 0x725c8b3ad9d73b52, 0x76455d432f27c306, 0xcc15f938778cdbd2, 0x688fa6d50373f1ae, 0x4fa21ba7dddce53, 0xfa48e8fe6c0709a6, 0xeaeb45a82fc26d0, 0x84e6182e92ae636d, 0x64232dce38e4f575, 0xf694a52b1893eeb7, 0xc21e4b65419f4717, 0xa6e72ea9372a8097, 0xb51496ee45dea306, 0x25fb1a471c5884b2, 0xadb2248c7a3cdb81, 0x486d704ecae6823d, 0xe10d11b50c4a77ce, 0x619a53085b11989f, 0x8a84992ccbc5373b, 0x6e2b302002789602, 0x30c5c48eeb375932, 0xbcde16d8c2b11339, 0xf686af5274b2f181, 0x5b844ffb79ba2c2] := by decide

theorem kstep_addRole_2 :
    keccakRound 2 [0x993dba57c7a0ea9a, 0x725c8b3ad9d73b52, 0x76455d432f27c306, 0xcc15f938778cdbd2, 0x688fa6d50373f1ae, 0x4fa21ba7dddce53, 0xfa48e8fe6c0709a6, 0xeaeb45a82fc26d0, 0x84e6182e92ae636d, 0x64232dce38e4f575, 0xf694a52b1893eeb7, 0xc21e4b65419f4717, 0xa6e72ea9372a8097, 0xb51496ee45dea306, 0x25fb1a471c5884b2, 0xadb2248c7a3cdb81, 0x486d704ecae6823d, 0xe10d11b50c4a77ce, 0x619a53085b11989f, 0x8a84992ccbc5373b, 0x6e2b302002789602, 0x30c5c48eeb375932, 0xbcde16d8c2b11339, 0xf686af5274b2f181, 0x5b844ffb79ba2c2] = [0x9c1b441736002c58, 0x91f56061942371ea, 0xf0d98a4da3ce6274, 0x4166cb2d411df223, 0x66220224b7d5ce9c, 0x3d0cce031159c93f, 0x2b911a28989734cd, 0xc6f6c823c1fd1fe9, 0x90dfb0e34b721707, 0x69e1535703b61fd3, 0xbb5261d456375c81, 0xdecdcd72ba11189b, 0x4bfc6d1112d4ab9a, 0x41065b75c99b2c31, 0x553e55515822b42f, 0x3949582710950358, 0x9750428d65755d60, 0xbdb3d88e068f8566, 0x4c8aa3b41c3e0228, 0xd029ae6efcd7c6fb, 0x241c3596f143fa3a, 0xfd26f770c639c220, 0x77bcda2d0c64ee99, 0x2123925ca1a10134, 0xa7e07f5a609f778e] := by decide

theorem kstep_addRole_3 :
    keccakRound 3 [0x9c1b441736002c58, 0x91f56061942371ea, 0xf0d98a4da3ce6274, 0x4166cb2d411df223, 0x66220224b7d5ce9c, 0x3d0cce031159c93f, 0x2b911a28989734cd, 0xc6f6c823c1fd1fe9, 0x90dfb0e34b721707, 0x69e1535703b61fd3, 0xbb5261d456375c81, 0xdecdcd72ba11189b, 0x4bfc6d1112d4ab9a, 0x41065b75c99b2c31, 0x553e55515822b42f, 0x3949582710950358, 0x9750428d65755d60, 0xbdb3d88e068f8566, 0x4c8aa3b41c3e0228, 0xd029ae6efcd7c6fb, 0x241c3596f143fa3a, 0xfd26f770c639c220, 0x77bcda2d0c64ee99, 0x2123925ca1a10134, 0xa7e07f5a609f778e] = [0x3b91bd458fdb7da9, 0xe8ebc431196a3fe3, 0x7c1a6397a485fce, 0xac91d42e9f8c0f64, 0x98d08fd39f07d777, 0xcd302e5f388d76cd, 0x6e77ff5a5da92d7e, 0xeecca70c36b3c60, 0x8152bfc911aca0fb, 0xf22c3fc9f98bde2e, 0xf83e7360260db30e, 0x956ac64a3856d98e, 0x8aa72837e40967e1, 0x7c3a8fb28c8d7f07, 0x9572aaecbf8e12db, 0xb3041676ec26bab5, 0xc00c9da0f121edb4, 0x16ca6f7fc4b4a0cd, 0x7d7517f0a944a448, 0xeef51f15bc7aff14, 0x554ba8cb56b84d24, 0x68bedd1b0af9bc95, 0xdce717b70cc6f5c3, 0x1fa76a1ad78d72b6, 0x7c8cbff6032357d7] := by decide

theorem kstep_addRole_4 :
    keccakRound 4 [0x3b91bd458fdb7da9, 0xe8ebc431196a3fe3, 0x7c1a6397a485fce, 0xac91d42e9f8c0f64, 0x98d08fd39f07d777, 0xcd302e5f388d76cd, 0x6e77ff5a5da92d7e, 0xeecca70c36b3c60, 0x8152bfc911aca0fb, 0xf22c3fc9f98bde2e, 0xf83e7360260db30e, 0x956ac64a3856d98e, 0x8aa72837e40967e1, 0x7c3a8fb28c8d7f07, 0x9572aaecbf8e12db, 0xb3041676ec26bab5, 0xc00c9da0f121edb4, 0x16ca6f7fc4b4a0cd, 0x7d7517f0a944a448, 0xeef51f15bc7aff14, 0x554ba8cb56b84d24, 0x68bedd1b0af9bc95, 0xdce717b70cc6f5c3, 0x1fa76a1ad78d72b6, 0x7c8cbff6032357d7] = [0x367f6c4c72be216, 0x4416741ccdc666ee, 0x65e930bca7b69cdc, 0xed902136f577bfa7, 0x2af1cb296b15a2c1, 0x2c66a38877e538cd, 0x3f9503247af15479, 0x3a23920a5e418132, 0x8c5997f246c4cf82, 0x33b7977e66786e57, 0x26c107a6b06be53f, 0xddc005292f88a7b4, 0xdc2e1df1a1dddd5f, 0x7e7822838458002c, 0x7ebcd9ea23813a55, 0xc6a7ca17bbc3d555, 0x2497438577e6d7b1, 0xd687a2c68855ddba, 0xf0efddcdaa4978f6, 0x75d5fbaac2a240e5, 0x16f0aa3715303c4c, 0x50338f3bab8ca0ca, 0x30c56dbff6d62c7a, 0xfe4f2363b4ec9d45, 0xc48aef8c84b54633] := by decide

theorem kstep_addRole_5 :
    keccakRound 5 [0x367f6c4c72be216, 0x4416741ccdc666ee, 0x65e930bca7b69cdc, 0xed902136f577bfa7, 0x2af1cb296b15a2c1, 0x2c66a38877e538cd, 0x3f9503247af15479, 0x3a23920a5e418132, 0x8c5997f246c4cf82, 0x33b7977e66786e57, 0x26c107a6b06be53f, 0xddc005292f88a7b4, 0xdc2e1df1a1dddd5f, 0x7e7822838458002c, 0x7ebcd9ea23813a55, 0xc6a7ca17bbc3d555, 0x2497438577e6d7b1, 0xd687a2c68855ddba, 0xf0efddcdaa4978f6, 0x75d5fbaac2a240e5, 0x16f0aa3715303c4c, 0x50338f3bab8ca0ca, 0x30c56dbff6d62c7a, 0xfe4f2363b4ec9d45, 0xc48aef8c84b54633] = [0xd0ac8322b4df9293, 0xe0e4044c91a29de, 0x88b78567d1acfc10, 0xd8aaa0f515e44643, 0x763e5c81569cb0a0, 0xcd7cd4e55ac15371, 0xc001bd7473496a8d, 0x3d5f5b0ac5cf00f8, 0x6c5750ee1062719d, 0xd80129c87d3bd422, 0xabdb4d74b0a88da3, 0x51ae8fc7024283a6, 0x7ed0ca2cfec38cb, 0x4ee4dae31d7c8555, 0xbefc10221f39479, 0xacf98df6044c7d06, 0x6bd146997ac5e4d8, 0x747c5f42514e0f70, 0xc41cdb8a8e4f5703, 0x5c36e0719bc33295, 0x344a16fc6cdc975c, 0x6ae0bb63e75c699b, 0x39211e7a61cb186b, 0x389e3abd612209d, 0x43813e3733201b56] := by decide

theorem kstep_addRole_6 :
    keccakRound 6 [0xd0ac8322b4df9293, 0xe0e4044c91a29de, 0x88b78567d1acfc10, 0xd8aaa0f515e44643, 0x763e5c81569cb0a0, 0xcd7cd4e55ac15371, 0xc001bd7473496a8d, 0x3d5f5b0ac5cf00f8, 0x6c5750ee1062719d, 0xd80129c87d3bd422, 0xabdb4d74b0a88da3, 0x51ae8fc7024283a6, 0x7ed0ca2cfec38cb, 0x4ee4dae31d7c8555, 0xbefc10221f39479, 0xacf98df6044c7d06, 0x6bd146997ac5e4d8, 0x747c5f42514e0f70, 0xc41cdb8a8e4f5703, 0x5c36e0719bc33295, 0x344a16fc6cdc975c, 0x6ae0bb63e75c699b, 0x39211e7a61cb186b, 0x389e3abd612209d, 0x43813e3733201b56] = [0x8eba7926f178920f, 0x26aa714441fb3935, 0x5cd9bda309a4e3d5, 0xd8ccf54390296153, 0xabe307f2241f61ee, 0xfb70d07aad57be41, 0x1e230974c41a0f8d, 0x47e8eb9a68de7711, 0xdcbe571b190bb75f, 0xff903b9de8a99a7c, 0xb60ddea46bd87761, 0xf56da56f4200cb32, 0x1f6836806d8ead3b, 0xfff012b72beba574, 0x8a5e34b754074427, 0xdb55f4455cb32a6d, 0x5439aa0083da47d3, 0x18a642a9c5070507, 0x79ad5a8cfcf040d2, 0xf0a81da4e4707243, 0x9fc3c6c2157a9ae5, 0x3803e2c9f7cc80d1, 0xa50efdb589647082, 0xc6352d757fb18bfa, 0x8b9454dd9db8a6ce] := by decide

theorem kstep_addRole_7 :
    keccakRound 7 [0x8eba7926f178920f, 0x26aa714441fb3935, 0x5cd9bda309a4e3d5, 0xd8ccf54390296153, 0xabe307f2241f61ee, 0xfb70d07aad57be41, 0x1e230974c41a0f8d, 0x47e8eb9a68de7711, 0xdcbe571b190bb75f, 0xff903b9de8a99a7c, 0xb60ddea46bd87761, 0xf56da56f4200cb32, 0x1f6836806d8ead3b, 0xfff012b72beba574, 0x8a5e34b754074427, 0xdb55f4455cb32a6d, 0x5439aa0083da47d3, 0x18a642a9c5070507, 0x79ad5a8cfcf040d2, 0xf0a81da4e4707243, 0x9fc3c6c2157a9ae5, 0x3803e2c9f7cc80d1, 0xa50efdb589647082, 0xc6352d757fb18bfa, 0x8b9454dd9db8a6ce] = [0xa82612be77a6c864, 0x2f8abca25d2418b0, 0x453899b4392de4e0, 0xa55dd1135ebac3e4, 0x8184bc127a6463db, 0xd1286fb5aaf1f2da, 0x25c341df563ff71e, 0x94012987ef4b0a06, 0x46b077256a871713, 0x77cfac8bbb3a4750, 0x873202bb8dc6944b, 0x90fc48270f0a5679, 0x2791ff8ec38e798, 0x14515c78e9db4cfb, 0xb1f647b21138afae, 0x96ba38038d2ada55, 0x3c8a968178ddb7c2, 0x2c490ef55289c416, 0xaa438af6ab9592e6, 0xd935e0f1c33cf133, 0xc4ca1e67f60a2bf, 0xaa7fb69e7ecca726, 0xcb91ffe0737ee3cf, 0x560007daf3db3c4, 0x90d775f1a3fedb0f] := by decide

theorem kstep_addRole_8 :
    keccakRound 8 [0xa82612be77a6c864, 0x2f8abca25d2418b0, 0x453899b4392de4e0, 0xa55dd1135ebac3e4, 0x8184bc127a6463db, 0xd1286fb5aaf1f2da, 0x25c341df563ff71e, 0x94012987ef4b0a06, 0x46b077256a871713, 0x77cfac8bbb3a4750, 0x873202bb8dc6944b, 0x90fc48270f0a5679, 0x2791ff8ec38e798, 0x14515c78e9db4cfb, 0xb1f647b21138afae, 0x96ba38038d2ada55, 0x3c8a968178ddb7c2, 0x2c490ef55289c416, 0xaa438af6ab9592e6, 0xd935e0f1c33cf133, 0xc4ca1e67f60a2bf, 0xaa7fb69e7ecca726, 0xcb91ffe0737ee3cf, 0x560007daf3db3c4, 0x90d775f1a3fedb0f] = [0xb6dbf767e95ba955, 0x61dcf08455832031, 0x59e27cb80ade3290, 0x83621ea1ce707782, 0x3363cf41e3278457, 0x2360aa37d3c6b11d, 0xec25a1b34aa685b, 0x872ac1900b4b5bb0, 0x27926cbc192e9d03, 0x2cfa565fc742b54, 0xe4c1ea97991382c7, 0x438fdb48f430580a, 0xe3255640de78a50c, 0x7fbc5fdd55bf26ca, 0x3e093f5523a43241, 0xff3bcb945890f237, 0x4050db5c7fe039ca, 0x586f3cbaff35b730, 0x1b0d592e07bce89b, 0x516d5792d3bddc9f, 0xded9af5e8a19c3a1, 0xdd354bd65788338c, 0x60d8ffcf5a695fca, 0x7e525f00cbc94a52, 0x9f31f55ff91481c2] := by decide

theorem kstep_addRole_9 :
    keccakRound 9 [0xb6dbf767e95ba955, 0x61dcf08455832031, 0x59e27cb80ade3290, 0x83621ea1ce707782, 0x3363cf41e3278457, 0x2360aa37d3c6b11d, 0xec25a1b34aa685b, 0x872ac1900b4b5bb0, 0x27926cbc192e9d03, 0x2cfa565fc742b54, 0xe4c1ea97991382c7, 0x438fdb48f430580a, 0xe3255640de78a50c, 0x7fbc5fdd55bf26ca, 0x3e093f5523a43241, 0xff3bcb945890f237, 0x4050db5c7fe039ca, 0x586f3cbaff35b730, 0x1b0d592e07bce89b, 0x516d5792d3bddc9f, 0xded9af5e8a19c3a1, 0xdd354bd65788338c, 0x60d8ffcf5a695fca, 0x7e525f00cbc94a52, 0x9f31f55ff91481c2] = [0x17dada5197e3597e, 0x38c4e346edc37b0e, 0x1d11b815df0a0ff5, 0xc9ab34098ff0e990, 0x360ef06d864c220c, 0x7f0d3d3031669db4, 0x740db93c459582, 0x320ef4a7e939b4a7, 0xf3696759bb15d3f0, 0xb5b14be8c147515f, 0x37e2c463a09d8e29, 0xb1c5c431e4a3209c, 0x5022ff849efbfb11, 0x595a031c06e42b46, 0xe17a9a9c9befd3f4, 0xa23c4ce679800671, 0xb7b856ce3f08f193, 0xb781edc9137ef946, 0xc518ebd1206bc0cf, 0xee78eb80639434e4, 0xef89528e5bf9bdaf, 0xb5581fffae83b734, 0x9be659959ddb1041, 0xb904dab257fd9f60, 0xc37aed6ebb144f6] := by decide

theorem kstep_addRole_10 :
    keccakRound 10 [0x17dada5197e3597e, 0x38c4e346edc37b0e, 0x1d11b815df0a0ff5, 0xc9ab34098ff0e990, 0x360ef06d864c220c, 0x7f0d3d3031669db4, 0x740db93c459582, 0x320ef4a7e939b4a7, 0xf3696759bb15d3f0, 0xb5b14be8c147515f, 0x37e2c463a09d8e29, 0xb1c5c431e4a3209c, 0x5022ff849efbfb11, 0x595a031c06e42b46, 0xe17a9a9c9befd3f4, 0xa23c4ce679800671, 0xb7b856ce3f08f193, 0xb781edc9137ef946, 0xc518ebd1206bc0cf, 0xee78eb80639434e4, 0xef89528e5bf9bdaf, 0xb5581fffae83b734, 0x9be659959ddb1041, 0xb904dab257fd9f60, 0xc37aed6ebb144f6] = [0x8c6efdc0f26e102d, 0xf3e32bdc07e2b70b, 0xb63fae2598f028a3, 0x8485f0f99c6c7ac4, 0x9e4a7bbd7b8128e7, 0xd202d09bd9bc5337, 0x4978015fde6cf337, 0x87b8019bfa4b1f95, 0x1a444068e51a15f5, 0x84d37e22940bc0fc, 0x48e3b5b75ae5986f, 0x88352a99aee056e5, 0xd11b14d7e353c9ba, 0xe5f0db0ecaba0684, 0x60ed599555dda027, 0xb402fc679c605349, 0xef85c6a19aa8e98a, 0x8e157e306684b606, 0x96249a1dce55c5c6, 0x44e489d4441bb95, 0x3a4c064495620496, 0xcfd0c7d6560471ed, 0x598f22e9ff60e1cf, 0x13cc50031ddc2858, 0xc02020975a7c2b6d] := by decide

theorem kstep_addRole_11 :
    keccakRound 11 [0x8c6efdc0f26e102d, 0xf3e32bdc07e2b70b, 0xb63fae2598f028a3, 0x8485f0f99c6c7ac4, 0x9e4a7bbd7b8128e7, 0xd202d09bd9bc5337, 0x4978015fde6cf337, 0x87b8019bfa4b1f95, 0x1a444068e51a15f5, 0x84d37e22940bc0fc, 0x48e3b5b75ae5986f, 0x88352a99aee056e5, 0xd11b14d7e353c9ba, 0xe5f0db0ecaba0684, 0x60ed599555dda027, 0xb402fc679c605349, 0xef85c6a19aa8e98a, 0x8e157e306684b606, 0x96249a1dce55c5c6, 0x44e489d4441bb95, 0x3a4c064495620496, 0xcfd0c7d6560471ed, 0x598f22e9ff60e1cf, 0x13cc50031ddc2858, 0xc02020975a7c2b6d] = [0xc7884b1b31b1191f, 0x27503bf26b852b66, 0x927abbf6963185dc, 0xb3131890a15abec3, 0xd1730274e7cac3be, 0x94e74f008ca971ca, 0xa551025cfd05e8c1, 0xc874b77498d68a9a, 0x8ef65109211b89c0, 0xf5c8ec458081a465, 0x497b0efa0ec452f7, 0x3c18fde02e853458, 0xbd65de1f91c580a9, 0x1d2e8614f422bb9d, 0xf67deb3764998b88, 0x55596ea7ea899906, 0xbd1aec9016bac404, 0xe64cab82122b10eb, 0x9d2a8fc6d2f73863, 0x34787e8fa62b6130, 0xf74bff82abea6ef2, 0x9a89f96fe85bd91b, 0x19dea577fb3c4242, 0xd31b04d5dd9381d, 0xecd1a9813cb23e30] := by decide

theorem kstep_addRole_12 :
    keccakRound 12 [0xc7884b1b31b1191f, 0x27503bf26b852b66, 0x927abbf6963185dc, 0xb3131890a15abec3, 0xd1730274e7cac3be, 0x94e74f008ca971ca, 0xa551025cfd05e8c1, 0xc874b77498d68a9a, 0x8ef65109211b89c0, 0xf5c8ec458081a465, 0x497b0efa0ec452f7, 0x3c18fde02e853458, 0xbd65de1f91c580a9, 0x1d2e8614f422bb9d, 0xf67deb3764998b88, 0x55596ea7ea899906, 0xbd1aec9016bac404, 0xe64cab82122b10eb, 0x9d2a8fc6d2f73863, 0x34787e8fa62b6130, 0xf74bff82abea6ef2, 0x9a89f96fe85bd91b, 0x19dea577fb3c4242, 0xd31b04d5dd9381d, 0xecd1a9813cb23e30] = [0x3cf67a51905aee06, 0x3d9b3a5a4216aeaf, 0xdb9d422a7d70530c, 0x1382f8e155521512, 0x1a8a082a485bcb33, 0x9e5d94d2fbc3f427, 0xeac9e9261b435156, 0xa81fcc80d239d50b, 0x542ac6dfeb63810f, 0x5c9ed9b06968777c, 0x954a31cc3a82a949, 0x3379b2b22b0a02cc, 0xc163fd00daa311fe, 0xe1f100f4d356fdcd, 0x39037fa221df7e42, 0xea8546e69c817e79, 0xcab574a0e932e389, 0x877bd60141147a57, 0xcfd1910df9610b1f, 0xfd3126c0754bfb03, 0x1f1a6019c9979d9b, 0x12706054be1b5f59, 0x1dce23bcc8167c3d, 0x5fb2ac847be9f47, 0x4db261ebea1ef904] := by decide

theorem kstep_addRole_13 :
    keccakRound 13 [0x3cf67a51905aee06, 0x3d9b3a5a4216aeaf, 0xdb9d422a7d70530c, 0x1382f8e155521512, 0x1a8a082a485bcb33, 0x9e5d94d2fbc3f427, 0xeac9e9261b435156, 0xa81fcc80d239d50b, 0x542ac6dfeb63810f, 0x5c9ed9b06968777c, 0x954a31cc3a82a949, 0x3379b2b22b0a02cc, 0xc163fd00daa311fe, 0xe1f100f4d356fdcd, 0x39037fa221df7e42, 0xea8546e69c817e79, 0xcab574a0e932e389, 0x877bd60141147a57, 0xcfd1910df9610b1f, 0xfd3126c0754bfb03, 0x1f1a6019c9979d9b, 0x12706054be1b5f59, 0x1dce23bcc8167c3d, 0x5fb2ac847be9f47, 0x4db261ebea1ef904] = [0xfee211c511f8dc9, 0x7088a1c1e2e58b71, 0x251859077c514282, 0x2db92e5317269118, 0x75e08aee89a67b66, 0x196c01140aebee8c, 0x3fff06a2be1be39e, 0x1529d5cc57ff4c09, 0xd240bb44122a2099, 0xfbabc7319d5239db, 0xd6988d03efb1ba2f, 0x32fccd7266997987, 0x8889cbd986e539e1, 0xed51232eef368413, 0x8cdc135f7964e0d9, 0x3c8b4db42f14a376, 0xade93ef221494a6b, 0x383c312d41418680, 0x789f2908e74133c9, 0xd2b43c78cd7d8e, 0x75e54b637fdd78cb, 0xc49bbbd86f9f7c4a, 0x3c156aecc39057b9, 0xe51a7afb6a4a4abb, 0x28ef7a50f1cb7d6] := by decide

theorem kstep_addRole_14 :
    keccakRound 14 [0xfee211c511f8dc9, 0x7088a1c1e2e58b71, 0x251859077c514282, 0x2db92e5317269118, 0x75e08aee89a67b66, 0x196c01140aebee8c, 0x3fff06a2be1be39e, 0x1529d5cc57ff4c09, 0xd240bb44122a2099, 0xfbabc7319d5239db, 0xd6988d03efb1ba2f, 0x32fccd7266997987, 0x8889cbd986e539e1, 0xed51232eef368413, 0x8cdc135f7964e0d9, 0x3c8b4db42f14a376, 0xade93ef221494a6b, 0x383c312d41418680, 0x789f2908e74133c9, 0xd2b43c78cd7d8e, 0x75e54b637fdd78cb, 0xc49bbbd86f9f7c4a, 0x3c156aecc39057b9, 0xe51a7afb6a4a4abb, 0x28ef7a50f1cb7d6] = [0x32f7e272e40e1a4f, 0x6bda6fda394d825a, 0xb47b6c5c1cddf533, 0xdbbdc9123c403b24, 0x917da4c566e767ca, 0x89c3aa33dd9b6083, 0x54a23f20184775a7, 0xdb56f328eebc882f, 0x10826984e59293d7, 0x72f6fc4c6f6c7b52, 0x1cbc62728238860b, 0xe2fa5a69cf28e1d3, 0xbfd86d4d69219e69, 0x178a0bd0661c499c, 0xc2722b7030915332, 0xc84c58c5cdd2f9c4, 0x9e0ddeaa194c27fa, 0x3964236080ae9d3a, 0x63e51d48590438cf, 0x84d89f7e1a7d5447, 0x2d2ed76a3df0b962, 0x103c93edb189b89b, 0x36e0cd889cd2de2b, 0x67c1a94b463d80ba, 0x8325860f929ec8e1] := by decide

theorem kstep_addRole_15 :
    keccakRound 15 [0x32f7e272e40e1a4f, 0x6bda6fda394d825a, 0xb47b6c5c1cddf533, 0xdbbdc9123c403b24, 0x917da4c566e767ca, 0x89c3aa33dd9b6083, 0x54a23f20184775a7, 0xdb56f328eebc882f, 0x10826984e59293d7, 0x72f6fc4c6f6c7b52, 0x1cbc62728238860b, 0xe2fa5a69cf28e1d3, 0xbfd86d4d69219e69, 0x178a0bd0661c499c, 0xc2722b7030915332, 0xc84c58c5cdd2f9c4, 0x9e0ddeaa194c27fa, 0x3964236080ae9d3a, 0x63e51d48590438cf, 0x84d89f7e1a7d5447, 0x2d2ed76a3df0b962, 0x103c93edb189b89b, 0x36e0cd889cd2de2b, 0x67c1a94b463d80ba, 0x8325860f929ec8e1] = [0x76bd073298b859fe, 0x8887db8f3c6ff551, 0x21a09af260a0f771, 0x1216bf65964e9bdf, 0x7c9c51d5984f539a, 0x4168c145d4dc44c9, 0x921fcc05a0a27839, 0xce70080fa35b68e4, 0x5e6a8d05acd6ab92, 0xb89b3e9adb59c788, 0x2fa0c5cf7977df65, 0xed289cda7918cd17, 0x6025a28fa38bc7a4, 0xba4ee3ef8d41d31c, 0x996a1f29e7cab13a, 0x389301be600c3c4, 0x3edc90c00914f0be, 0x89f9620b70f77e7f, 0xad1781c3c76160fb, 0xdea6b96083b6c2bc, 0x7d82854f5fca3393, 0x958175406640e7aa, 0x8c3966061bbb968f, 0x8d5a2c925b7be8f3, 0x309147dbf1fd9c87] := by decide

theorem kstep_addRole_16 :
    keccakRound 16 [0x76bd073298b859fe, 0x8887db8f3c6ff551, 0x21a09af260a0f771, 0x1216bf65964e9bdf, 0x7c9c51d5984f539a, 0x4168c145d4dc44c9, 0x921fcc05a0a27839, 0xce70080fa35b68e4, 0x5e6a8d05acd6ab92, 0xb89b3e9adb59c788, 0x2fa0c5cf7977df65, 0xed289cda7918cd17, 0x6025a28fa38bc7a4, 0xba4ee3ef8d41d31c, 0x996a1f29e7cab13a, 0x389301be600c3c4, 0x3edc90c00914f0be, 0x89f9620b70f77e7f, 0xad1781c3c76160fb, 0xdea6b96083b6c2bc, 0x7d82854f5fca3393, 0x958175406640e7aa, 0x8c3966061bbb968f, 0x8d5a2c925b7be8f3, 0x309147dbf1fd9c87] = [0xbc3d54cf5ba3046d, 0x2277f464f32153a1, 0xb720f40295fa13f4, 0x28e46a6898a0b6ce, 0xd7359ae384f57904, 0x1305e8c2cde93d6b, 0x6dbd9a8c857023e4, 0x4284e3b98715d589, 0x8467884b8ef23b76, 0x75f4c2158c5827a, 0xb3362c1b2d1add3f, 0xb84f984f947a2d4f, 0xe10b765ecbd8d9f, 0x81886db1834bee60, 0x500fa1bb0b79de0b, 0x1453d1ec0b42b66a, 0x7e29c4b4a3089b10, 0xf44b2b8be2560776, 0xfaa3f61a76d32ef5, 0x75e9da05e274683f, 0x31eac3e63b6bc8a2, 0x987977406245aa77, 0x498d9988150707da, 0x4a0440361eafc343, 0x1447995bb306f2e7] := by decide

theorem kstep_addRole_17 :
    keccakRound 17 [0xbc3d54cf5ba3046d, 0x2277f464f32153a1, 0xb720f40295fa13f4, 0x28e46a6898a0b6ce, 0xd7359ae384f57904, 0x1305e8c2cde93d6b, 0x6dbd9a8c857023e4, 0x4284e3b98715d589, 0x8467884b8ef23b76, 0x75f4c2158c5827a, 0xb3362c1b2d1add3f, 0xb84f984f947a2d4f, 0xe10b765ecbd8d9f, 0x81886db1834bee60, 0x500fa1bb0b79de0b, 0x1453d1ec0b42b66a, 0x7e29c4b4a3089b10, 0xf44b2b8be2560776, 0xfaa3f61a76d32ef5, 0x75e9da05e274683f, 0x31eac3e63b6bc8a2, 0x987977406245aa77, 0x498d9988150707da, 0x4a0440361eafc343, 0x1447995bb306f2e7] = [0xfb5d8a6e975c3bb2, 0xe2fe994df3d70191, 0xafd87b20ee5a4fa8, 0xc7469ca9d50be9eb, 0xa99703a472d87e61, 0x2949c8e9dad1430f, 0x6a281c1b9f6c9ccb, 0x86bc9047fef8dae2, 0x5372f1666e22464c, 0x5e4220e6dcbbd62d, 0x6b40bda494bc2fbd, 0x2a96e5deaefa6dcb, 0x921413c6f70c940a, 0x20a7838da27b820b, 0xf5aaae2195568e6f, 0x3611a24414f3d3f, 0xdfe5b804bd260373, 0x20f2c436109c18a0, 0x2fe283f9fa274b6b, 0x864b41f3b21b9bf7, 0x6159728d111fc4a1, 0xb980f9d96c550280, 0xe3bb83ccee6e1e18, 0x68e20bac77cb9b06, 0x242bc2eb802a9b6e] := by decide

theorem kstep_addRole_18 :
    keccakRound 18 [0xfb5d8a6e975c3bb2, 0xe2fe994df3d70191, 0xafd87b20ee5a4fa8, 0xc7469ca9d50be9eb, 0xa99703a472d87e61, 0x2949c8e9dad1430f, 0x6a281c1b9f6c9ccb, 0x86bc9047fef8dae2, 0x5372f1666e22464c, 0x5e4220e6dcbbd62d, 0x6b40bda494bc2fbd, 0x2a96e5deaefa6dcb, 0x921413c6f70c940a, 0x20a7838da27b820b, 0xf5aaae2195568e6f, 0x3611a24414f3d3f, 0xdfe5b804bd260373, 0x20f2c436109c18a0, 0x2fe283f9fa274b6b, 0x864b41f3b21b9bf7, 0x6159728d111fc4a1, 0xb980f9d96c550280, 0xe3bb83ccee6e1e18, 0x68e20bac77cb9b06, 0x242bc2eb802a9b6e] = [0xdf2dcf373898fbe7, 0x51d276737f506acf, 0x7c971c1d7dd1e632, 0x9b9ea84a0cdb9b21, 0x6228519589a6985a, 0x4d4ff9befd1a5de0, 0x7a0598756d11b04b, 0x10bb8aed4e6f7c12, 0xb1a34cbf6f5711bf, 0xaa170997da858299, 0x93c2f062901c01ff, 0x6fd7ef554ffe0b6a, 0xb92257590d716470, 0x38af136f63f4a0c, 0x956df6e92e992430, 0x1396a6a061547e55, 0xcb8c622911c84277, 0x2f6368d48f6e8a07, 0xa0031f3d6722e1fc, 0xc358b4a811f49e5b, 0xf634a4c6a54451db, 0x28d53aaf6d3ed152, 0x979b0a59666194ab, 0x7cf02456c9a8ba9c, 0x4afd59be1e8025be] := by decide

theorem kstep_addRole_19 :
    keccakRound 19 [0xdf2dcf373898fbe7, 0x51d276737f506acf, 0x7c971c1d7dd1e632, 0x9b9ea84a0cdb9b21, 0x6228519589a6985a, 0x4d4ff9befd1a5de0, 0x7a0598756d11b04b, 0x10bb8aed4e6f7c12, 0xb1a34cbf6f5711bf, 0xaa170997da858299, 0x93c2f062901c01ff, 0x6fd7ef554ffe0b6a, 0xb92257590d716470, 0x38af136f63f4a0c, 0x956df6e92e992430, 0x1396a6a061547e55, 0xcb8c622911c84277, 0x2f6368d48f6e8a07, 0xa0031f3d6722e1fc, 0xc358b4a811f49e5b, 0xf634a4c6a54451db, 0x28d53aaf6d3ed152, 0x979b0a59666194ab, 0x7cf02456c9a8ba9c, 0x4afd59be1e8025be] = [0xd56a9cc192d019ae, 0xcbfc5c1ec48b1414, 0x5b0bb7af909ebe5a, 0x3c0291a165e82167, 0x951701b78a8359fe, 0x4fd866b207f86259, 0x430b1410e474d162, 0x563840fe802253f0, 0xa1df18887dcda531, 0x1b4d49db1e2a6912, 0x5d73ac2f2833662a, 0x52b0800e15520f43, 0x93cc8121bee794aa, 0x952ab207528302fc, 0x50c646611029b8d0, 0x151e1158aff04ef1, 0xc26d7e354a34be85, 0xa82645c74560d540, 0x62cfcb05d94bbf8, 0x8dd92e05d8fb655c, 0x449484660cbaccc5, 0xb712f5b7902bc7dd, 0x12d5d7785e6aac4b, 0x10ecaf11a4956a25, 0xefc0b83d7cc26248] := by decide

theorem kstep_addRole_20 :
    keccakRound 20 [0xd56a9cc192d019ae, 0xcbfc5c1ec48b1414, 0x5b0bb7af909ebe5a, 0x3c0291a165e82167, 0x951701b78a8359fe, 0x4fd866b207f86259, 0x430b1410e474d162, 0x563840fe802253f0, 0xa1df18887dcda531, 0x1b4d49db1e2a6912, 0x5d73ac2f2833662a, 0x52b0800e15520f43, 0x93cc8121bee794aa, 0x952ab207528302fc, 0x50c646611029b8d0, 0x151e1158aff04ef1, 0xc26d7e354a34be85, 0xa82645c74560d540, 0x62cfcb05d94bbf8, 0x8dd92e05d8fb655c, 0x449484660cbaccc5, 0xb712f5b7902bc7dd, 0x12d5d7785e6aac4b, 0x10ecaf11a4956a25, 0xefc0b83d7cc26248] = [0x3f9f83f1ad1d506c, 0x765def05b5acdd4d, 0xc941c025d22df3a8, 0x20b735d4d94fa560, 0x55fde4f512593e58, 0xcd282bed720c3455, 0x790351e15be39fca, 0xec25b0c6af3eaeec, 0xad23c0c4aa990798, 0x203178bcb3b05cb3, 0x2f15effe28f155da, 0x63349484859e3cc3, 0x4156c3b14d425bcd, 0x7bc46e109f2cfeef, 0x3dfbdd9883d811a7, 0xe80f7c8ed13ddd6f, 0xe3cc98e2b2f695a7, 0x9e6b44b71652d077, 0xeb8d764e254c95b3, 0x7d0d695bb692b774, 0x70175b5da708a8f4, 0xfcf869a8d2cc377d, 0x32e9c23132353546, 0xb5a05abd20458d6, 0x20ebd90983a53780] := by decide

theorem kstep_addRole_21 :
    keccakRound 21 [0x3f9f83f1ad1d506c, 0x765def05b5acdd4d, 0xc941c025d22df3a8, 0x20b735d4d94fa560, 0x55fde4f512593e58, 0xcd282bed720c3455, 0x790351e15be39fca, 0xec25b0c6af3eaeec, 0xad23c0c4aa990798, 0x203178bcb3b05cb3, 0x2f15effe28f155da, 0x63349484859e3cc3, 0x4156c3b14d425bcd, 0x7bc46e109f2cfeef, 0x3dfbdd9883d811a7, 0xe80f7c8ed13ddd6f, 0xe3cc98e2b2f695a7, 0x9e6b44b71652d077, 0xeb8d764e254c95b3, 0x7d0d695bb692b774, 0x70175b5da708a8f4, 0xfcf869a8d2cc377d, 0x32e9c23132353546, 0xb5a05abd20458d6, 0x20ebd90983a53780] = [0x8d2440687849ae2, 0xa34e7cdf94869f75, 0x494db8f57eca278c, 0xd313eef28b2d037c, 0xd6fdc365ba32a43, 0x8e720b538c3a6ce2, 0x3ba3c26c174dd2c, 0xeecf58516090e2f0, 0xa0f584e25e476579, 0x8c1fa99e72d6e962, 0x454fef683b0936d8, 0xe72f59ae6c9a752c, 0x85602db54e71a67d, 0xfb449db6ba8646e1, 0xea0a9fe34dd60cc8, 0xa7a199eccf95e3b, 0x28d46c5de14603a7, 0xa2bc3c21f217359f, 0xa73995429106a03e, 0x3b6dadd259eebed8, 0xe5c430617f9a4d38, 0xb10cdc2dc94c61a3, 0xc0841a112dfacf1d, 0xdc6be406d45eb187, 0xa8aa80cfed92c1d1] := by decide

theorem kstep_addRole_22 :
    keccakRound 22 [0x8d2440687849ae2, 0xa34e7cdf94869f75, 0x494db8f57eca278c, 0xd313eef28b2d037c, 0xd6fdc365ba32a43, 0x8e720b538c3a6ce2, 0x3ba3c26c174dd2c, 0xeecf58516090e2f0, 0xa0f584e25e476579, 0x8c1fa99e72d6e962, 0x454fef683b0936d8, 0xe72f59ae6c9a752c, 0x85602db54e71a67d, 0xfb449db6ba8646e1, 0xea0a9fe34dd60cc8, 0xa7a199eccf95e3b, 0x28d46c5de14603a7, 0xa2bc3c21f217359f, 0xa73995429106a03e, 0x3b6dadd259eebed8, 0xe5c430617f9a4d38, 0xb10cdc2dc94c61a3, 0xc0841a112dfacf1d, 0xdc6be406d45eb187, 0xa8aa80cfed92c1d1] = [0x4068741ee5df00e1, 0xd28d58eeedba36de, 0x98a5ade4c406b0b3, 0x11d72ef72f93d31f, 0xd6fd3ac257eef5ec, 0xea7f4cb3e62a2aaf, 0x3fd1fc97fef8fde0, 0xcab54de019576c0, 0xfc3e5887a47aaf06, 0xfaac67da55ae4b5a, 0x295495c851be7e10, 0xc16f2c89979d7eb5, 0xf4effd7c4a534f9a, 0x3628f5ccf2384990, 0x57cd1e047aef855f, 0x87bd64264767e342, 0xa2762e102da1ec33, 0xad143f420487e76b, 0x46f16e6ac42b0dad, 0xa56fc099227223fc, 0xfc6ed68586354421, 0x1d88ca6db6201303, 0x56ef1f80f8c343b0, 0x4881b1990bb90c7c, 0x722226c1655e1eb6] := by decide

theorem kstep_addRole_23 :
    keccakRound 23 [0x4068741ee5df00e1, 0xd28d58eeedba36de, 0x98a5ade4c406b0b3, 0x11d72ef72f93d31f, 0xd6fd3ac257eef5ec, 0xea7f4cb3e62a2aaf, 0x3fd1fc97fef8fde0, 0xcab54de019576c0, 0xfc3e5887a47aaf06, 0xfaac67da55ae4b5a, 0x295495c851be7e10, 0xc16f2c89979d7eb5, 0xf4effd7c4a534f9a, 0x3628f5ccf2384990, 0x57cd1e047aef855f, 0x87bd64264767e342, 0xa2762e102da1ec33, 0xad143f420487e76b, 0x46f16e6ac42b0dad, 0xa56fc099227223fc, 0xfc6ed68586354421, 0x1d88ca6db6201303, 0x56ef1f80f8c343b0, 0x4881b1990bb90c7c, 0x722226c1655e1eb6] = [0x107082065aa727d, 0x91da9e12e0b510ae, 0x8a6c6e28016e2560, 0x6fa1525ffd00b11, 0xc5087a5ca9205d26, 0xa2421f24ad34e82a, 0x498c7ce1dc8d62c2, 0x55bf5cd2946f4a24, 0xba9c6b9ee30f4b3e, 0xc4459bb43ea6fe7, 0xb88f58827bff3e3e, 0x7f22383c9345ee0d, 0x80b170da96ed2321, 0xeeb35bf222f3fc89, 0xaa4e3f37dfd5dc17, 0xa9cf9365f8fd2e9, 0xa15bb797d3e3441e, 0x25eb1fde2658851f, 0xf39cfa8f88208a1d, 0x78c93e5f9547373a, 0x2e22225d07dd279e, 0x9df439b05d46ccf, 0x3b9ecbfaef8ea16, 0x90e1a0694901f40c, 0xdd2f330d48c6b12e] := by decide

theorem selector_addRole : selector "addRole(address,string)" = [0x7d, 0x72, 0xaa, 0x65] := by
  unfold selector keccak256
  rw [show keccakBlocks ((strBytes "addRole(address,string)").length / 136 + 1) (strBytes "addRole(address,string)")
        = [[97, 100, 100, 82, 111, 108, 101, 40, 97, 100, 100, 114, 101, 115, 115, 44, 115, 116, 114, 105, 110, 103, 41, 1, 0, 0, 0, 0, 0, 0, 0, 0, 0, 0, 0, 0, 0, 0, 0, 0, 0, 0, 0, 0, 0, 0, 0, 0, 0, 0, 0, 0, 0, 0, 0, 0, 0, 0, 0, 0, 0, 0, 0, 0, 0, 0, 0, 0, 0, 0, 0, 0, 0, 0, 0, 0, 0, 0, 0, 0, 0, 0, 0, 0, 0, 0, 0, 0, 0, 0, 0, 0, 0, 0, 0, 0, 0, 0, 0, 0, 0, 0, 0, 0, 0, 0, 0, 0, 0, 0, 0, 0, 0, 0, 0, 0, 0, 0, 0, 0, 0, 0, 0, 0, 0, 0, 0, 0, 0, 0, 0, 0, 0, 0, 0, 128]] by decide]
  simp only [List.foldl_cons, List.foldl_nil, absorbBlock]
  rw [show xorBlock (List.replicate 25 0) [97, 100, 100, 82, 111, 108, 101, 40, 97, 100, 100, 114, 101, 115, 115, 44, 115, 116, 114, 105, 110, 103, 41, 1, 0, 0, 0, 0, 0, 0, 0, 0, 0, 0, 0, 0, 0, 0, 0, 0, 0, 0, 0, 0, 0, 0, 0, 0, 0, 0, 0, 0, 0, 0, 0, 0, 0, 0, 0, 0, 0, 0, 0, 0, 0, 0, 0, 0, 0, 0, 0, 0, 0, 0, 0, 0, 0, 0, 0, 0, 0, 0, 0, 0, 0, 0, 0, 0, 0, 0, 0, 0, 0, 0, 0, 0, 0, 0, 0, 0, 0, 0, 0, 0, 0, 0, 0, 0, 0, 0, 0, 0, 0, 0, 0, 0, 0, 0, 0, 0, 0, 0, 0, 0, 0, 0, 0, 0, 0, 0, 0, 0, 0, 0, 0, 128] = [0x28656c6f52646461, 0x2c73736572646461, 0x129676e69727473, 0x0, 0x0, 0x0, 0x0, 0x0, 0x0, 0x0, 0x0, 0x0, 0x0, 0x0, 0x0, 0x0, 0x8000000000000000, 0x0, 0x0, 0x0, 0x0, 0x0, 0x0, 0x0, 0x0] by decide]
  rw [keccakF_unfold]
  rw [kstep_addRole_0, kstep_addRole_1, kstep_addRole_2, kstep_addRole_3, kstep_addRole_4, kstep_addRole_5, kstep_addRole_6, kstep_addRole_7, kstep_addRole_8, kstep_addRole_9, kstep_addRole_10, kstep_addRole_11, kstep_addRole_12, kstep_addRole_13, kstep_addRole_14, kstep_addRole_15, kstep_addRole_16, kstep_addRole_17, kstep_addRole_18, kstep_addRole_19, kstep_addRole_20, kstep_addRole_21, kstep_addRole_22, kstep_addRole_23]
  decide

theorem kstep_removeRole_0 :
    keccakRound 0 [0x6f5265766f6d6572, 0x657264646128656c, 0x6e697274732c7373, 0x12967, 0x0, 0x0, 0x0, 0x0, 0x0, 0x0, 0x0, 0x0, 0x0, 0x0, 0x0, 0x0, 0x8000000000000000, 0x0, 0x0, 0x0, 0x0, 0x0, 0x0, 0x0, 0x0] = [0xa432b9bd3e1faca2, 0x563b2bbc645524b5, 0x618c051b03a31188, 0xcb8aed866b70c52c, 0x6ab275b6f8e0b7b9, 0x1610d7e1446483a5, 0xe9d6d8e380c6b6c, 0x1baa0eca9e82501e, 0xb362175152f14025, 0xf4636492b43c2ebc, 0xd838b13746bdfb5, 0x5891bd0053aee9a3, 0xebc759e7c6d8fae5, 0x280e2e6a0bfb47be, 0x733b194b21e30b9b, 0x64f48d3c4ef77415, 0x153cad0da79dacbd, 0x434a3346b22c5e8c, 0x36a2a699115570bd, 0x726649f2d47ba4fb, 0x268604c244c5f172, 0x39b306a9b3a917b9, 0x23f3c5857623783d, 0x81517211c99000a0, 0x573336431eee085b] := by decide

theorem kstep_removeRole_1 :
    keccakRound 1 [0xa432b9bd3e1faca2, 0x563b2bbc645524b5, 0x618c051b03a31188, 0xcb8aed866b70c52c, 0x6ab275b6f8e0b7b9, 0x1610d7e1446483a5, 0xe9d6d8e380c6b6c, 0x1baa0eca9e82501e, 0xb362175152f14025, 0xf4636492b43c2ebc, 0xd838b13746bdfb5, 0x5891bd0053aee9a3, 0xebc759e7c6d8fae5, 0x280e2e6a0bfb47be, 0x733b194b21e30b9b, 0x64f48d3c4ef77415, 0x153cad0da79dacbd, 0x434a3346b22c5e8c, 0x36a2a699115570bd, 0x726649f2d47ba4fb, 0x268604c244c5f172, 0x39b306a9b3a917b9, 0x23f3c5857623783d, 0x81517211c99000a0, 0x573336431eee085b] = [0x31f95f0fa673b8a1, 0xa87bcfaff48f40a0, 0x25d3714ffc5cd223, 0xbe007eb88a6bf89d, 0x39c7bf1504dad2fc, 0xc99fa1413a9a98d8, 0xc0486c37aadead09, 0x6242fdab242fdbbc, 0x7fcca10bf9a2f9e6, 0xcc6c7e995657e501, 0x93122fc4bf24854a, 0xde1789e68fe7a75a, 0x4df5e1cd549255cb, 0x47a0a97ea9c9faa6, 0x4c6d3b7d648d513, 0x82b1d6f441bfc165, 0x7514e0306cb001dd, 0xc0412890ce97ef1e, 0x31cd360c91f3ddea, 0x5be95731655922f9, 0xe0c7d8687367dc49, 0xffa900e63e56b84c, 0x852d4d33c5686c61, 0xd662bfdbe4f105f5, 0x966cadc82d194634] := by decide

theorem kstep_removeRole_2 :
    keccakRound 2 [0x31f95f0fa673b8a1, 0xa87bcfaff48f40a0, 0x25d3714ffc5cd223, 0xbe007eb88a6bf89d, 0x39c7bf1504dad2fc, 0xc99fa1413a9a98d8, 0xc0486c37aadead09, 0x6242fdab242fdbbc, 0x7fcca10bf9a2f9e6, 0xcc6c7e995657e501, 0x93122fc4bf24854a, 0xde1789e68fe7a75a, 0x4df5e1cd549255cb, 0x47a0a97ea9c9faa6, 0x4c6d3b7d648d513, 0x82b1d6f441bfc165, 0x7514e0306cb001dd, 0xc0412890ce97ef1e, 0x31cd360c91f3ddea, 0x5be95731655922f9, 0xe0c7d8687367dc49, 0xffa900e63e56b84c, 0x852d4d33c5686c61, 0xd662bfdbe4f105f5, 0x966cadc82d194634] = [0xe12b4a1e38dfdccc, 0xaac495352a6329ce, 0x2c076d9b5bb89d2c, 0xa471fe51b8e52299, 0xb1abad6d87523a73, 0x7d45e2af88899f37, 0xfa4dbbab2a1bb8b2, 0x594ef18eaa06bc6e, 0x10f31ccacd4e6e18, 0x6dfe7a75a455fb90, 0xde9fb318576ead92, 0x5b224a163ecad3af, 0x73875855146862b2, 0x470605b975350ca8, 0x96cea9a8fa2bc657, 0x85f880b38d00ff1, 0x81ef8a584535dfa4, 0x5ffa4456e86ad74, 0x8a098de9affc148e, 0x9b40b89610f724d8, 0xc6f02477084a1999, 0x42a48ab857655487, 0x306f4dab80e170ad, 0x635345eedd56ceb7, 0xa3ebb11c87cb3a11] := by decide

theorem kstep_removeRole_3 :
    keccakRound 3 [0xe12b4a1e38dfdccc, 0xaac495352a6329ce, 0x2c076d9b5bb89d2c, 0xa471fe51b8e52299, 0xb1abad6d87523a73, 0x7d45e2af88899f37, 0xfa4dbbab2a1bb8b2, 0x594ef18eaa06bc6e, 0x10f31ccacd4e6e18, 0x6dfe7a75a455fb90, 0xde9fb318576ead92, 0x5b224a163ecad3af, 0x73875855146862b2, 0x470605b975350ca8, 0x96cea9a8fa2bc657, 0x85f880b38d00ff1, 0x81ef8a584535dfa4, 0x5ffa4456e86ad74, 0x8a098de9affc148e, 0x9b40b89610f724d8, 0xc6f02477084a1999, 0x42a48ab857655487, 0x306f4dab80e170ad, 0x635345eedd56ceb7, 0xa3ebb11c87cb3a11] = [0x9aeaf180a50b4612, 0x65ca188bf5da2ea5, 0x24fb867e4f13b6e5, 0xc4fc6ce720a1f0f9, 0x996096a4447080cf, 0xf2bf2d76a2fdf3f8, 0xafb11a28b034f95d, 0xd3f8650204dc7970, 0x812fed652aea92ee, 0xb4a6fcf8310f59ac, 0x4309f3398165cb3e, 0x248afb95a31ee5b8, 0x8bc12f72bf30658e, 0xa3f099cc170f80a1, 0x6ac6767e6e04b083, 0x18cb3fc3019465e9, 0x38e0dabf6b55d849, 0x221e5378385771e5, 0xd572c107a9c67c5c, 0x81b42dbede0b5772, 0xbc42d5ee321c482d, 0x67eb3f7a80262fad, 0xd47224a56649213, 0x1f4c9eff7e235a73, 0xe0b8bac7d6b36492] := by decide

theorem kstep_removeRole_4 :
    keccakRound 4 [0x9aeaf180a50b4612, 0x65ca188bf5da2ea5, 0x24fb867e4f13b6e5, 0xc4fc6ce720a1f0f9, 0x996096a4447080cf, 0xf2bf2d76a2fdf3f8, 0xafb11a28b034f95d, 0xd3f8650204dc7970, 0x812fed652aea92ee, 0xb4a6fcf8310f59ac, 0x4309f3398165cb3e, 0x248afb95a31ee5b8, 0x8bc12f72bf30658e, 0xa3f099cc170f80a1, 0x6ac6767e6e04b083, 0x18cb3fc3019465e9, 0x38e0dabf6b55d849, 0x221e5378385771e5, 0xd572c107a9c67c5c, 0x81b42dbede0b5772, 0xbc42d5ee321c482d, 0x67eb3f7a80262fad, 0xd47224a56649213, 0x1f4c9eff7e235a73, 0xe0b8bac7d6b36492] = [0x5f52c03da86b57e4, 0x233b68f508432d0b, 0xd45cf190c65c1fd, 0x13b0d3a49a7c5d15, 0xbd2425c9139a94c3, 0xeedcb4f501b76ece, 0xc8a97b83b1ec7d41, 0xb0a981edc58d138, 0x825e62c10887f95c, 0xbcb1ff38299c8ad1, 0x9b1146f872c358be, 0x8c9ce2230308731c, 0x1058a8faf8fac02d, 0xf0c97e1615d2a4, 0x99604a65609fc7e9, 0xbf272f97bdd2b2d7, 0xe3f16b5afe51d974, 0x3f10b6ba15d7c031, 0x4154614916ad77bf, 0x9e90ce3d35ea258f, 0xbb6ecc74bde0f85c, 0x21cf16b130c92827, 0x55ef1ea8b8d8076a, 0x622184c2527abe12, 0x3ca71107409cbdbe] := by decide

theorem kstep_removeRole_5 :
    keccakRound 5 [0x5f52c03da86b57e4, 0x233b68f508432d0b, 0xd45cf190c65c1fd, 0x13b0d3a49a7c5d15, 0xbd2425c9139a94c3, 0xeedcb4f501b76ece, 0xc8a97b83b1ec7d41, 0xb0a981edc58d138, 0x825e62c10887f95c, 0xbcb1ff38299c8ad1, 0x9b1146f872c358be, 0x8c9ce2230308731c, 0x1058a8faf8fac02d, 0xf0c97e1615d2a4, 0x99604a65609fc7e9, 0xbf272f97bdd2b2d7, 0xe3f16b5afe51d974, 0x3f10b6ba15d7c031, 0x4154614916ad77bf, 0x9e90ce3d35ea258f, 0xbb6ecc74bde0f85c, 0x21cf16b130c92827, 0x55ef1ea8b8d8076a, 0x622184c2527abe12, 0x3ca71107409cbdbe] = [0x8f95d8eae758ba44, 0x1b8b108af358f105, 0xf3e1460e7ccb18ad, 0x1b68053c59c28530, 0x5bce0caf453070c8, 0x3906ac92a1a50932, 0x92d4d97c7ad7337c, 0x1d909075a38dfbdf, 0xbfa70e0fe287855d, 0xd2704642f3c2a331, 0xe8ea2b76b3fc42e4, 0xff2be8088cd3ae42, 0xb391e70d70203605, 0xd6920e700844a1b0, 0x799829c872740224, 0xfb2fc4ebfa9685dd, 0xe2faf078c5fc486d, 0x5f19b24e945d956e, 0x4296726c3c4defae, 0x353b7d5c74e04e0a, 0x313adc8bfc187a57, 0x3d6dbd5131a9ca42, 0x2516c9dbd23a1800, 0xa4a6319f36f8c0f0, 0x57e0a3a380b1b1db] := by decide

theorem kstep_removeRole_6 :
    keccakRound 6 [0x8f95d8eae758ba44, 0x1b8b108af358f105, 0xf3e1460e7ccb18ad, 0x1b68053c59c28530, 0x5bce0caf453070c8, 0x3906ac92a1a50932, 0x92d4d97c7ad7337c, 0x1d909075a38dfbdf, 0xbfa70e0fe287855d, 0xd2704642f3c2a331, 0xe8ea2b76b3fc42e4, 0xff2be8088cd3ae42, 0xb391e70d70203605, 0xd6920e700844a1b0, 0x799829c872740224, 0xfb2fc4ebfa9685dd, 0xe2faf078c5fc486d, 0x5f19b24e945d956e, 0x4296726c3c4defae, 0x353b7d5c74e04e0a, 0x313adc8bfc187a57, 0x3d6dbd5131a9ca42, 0x2516c9dbd23a1800, 0xa4a6319f36f8c0f0, 0x57e0a3a380b1b1db] = [0xc8862d9eb59c42e2, 0xc98368de557555fd, 0x1ea99217c827b507, 0x637a944440cc1068, 0xfaa2f78688fb6f41, 0xb116f00b0056c147, 0xd2ba51a31c2cd4de, 0xe8f781fa3c4c769, 0xb7daff3b05cebe8a, 0x366de38db22b717a, 0xc5720344a5039207, 0xaae850e8711683a6, 0x2e495d1b40aa4c78, 0x8eb6352fcefca6d0, 0xc9f4cbfa7b8be126, 0x503cd193af3afea6, 0x3f0bb87500e2c177, 0xb4e836b530c1b056, 0x29a44e0da43f6732, 0xd6a5926cc87a5795, 0xddb62b8e2d6a3879, 0x2e79698b85343800, 0x745844e2d6601335, 0xa06df07a166b161c, 0xb9356ff1c084d5a3] := by decide

theorem kstep_removeRole_7 :
    keccakRound 7 [0xc8862d9eb59c42e2, 0xc98368de557555fd, 0x1ea99217c827b507, 0x637a944440cc1068, 0xfaa2f78688fb6f41, 0xb116f00b0056c147, 0xd2ba51a31c2cd4de, 0xe8f781fa3c4c769, 0xb7daff3b05cebe8a, 0x366de38db22b717a, 0xc5720344a5039207, 0xaae850e8711683a6, 0x2e495d1b40aa4c78, 0x8eb6352fcefca6d0, 0xc9f4cbfa7b8be126, 0x503cd193af3afea6, 0x3f0bb87500e2c177, 0xb4e836b530c1b056, 0x29a44e0da43f6732, 0xd6a5926cc87a5795, 0xddb62b8e2d6a3879, 0x2e79698b85343800, 0x745844e2d6601335, 0xa06df07a166b161c, 0xb9356ff1c084d5a3] = [0x5b43672da70bdc04, 0x8386c346ddfe60de, 0x3bad3d4de9b8f675, 0xb0575b80852acd99, 0xb10777c51865635c, 0xd526e3a020afb116, 0xa236db296b8e7714, 0xfe920e7cddb96405, 0x441a5e1f964c1135, 0xec708f92aa55e57f, 0x9893c361d7327bf, 0xecdb4ccf42f3a884, 0x23e490a1ef15f761, 0xa01252d0d3a053f1, 0x80947d7b88df5169, 0x175910a56a4daa69, 0x2c04f29fabec3361, 0xe7793590dbb8c199, 0xe7686e8244dbfb7a, 0x178f4c6963eac873, 0xf7c3a8cadaaaf20, 0x842eb97cd3abe764, 0xb086f346d402473, 0x5cacb073210ef81b, 0x5a391e0963f64617] := by decide

theorem kstep_removeRole_8 :
    keccakRound 8 [0x5b43672da70bdc04, 0x8386c346ddfe60de, 0x3bad3d4de9b8f675, 0xb0575b80852acd99, 0xb10777c51865635c, 0xd526e3a020afb116, 0xa236db296b8e7714, 0xfe920e7cddb96405, 0x441a5e1f964c1135, 0xec708f92aa55e57f, 0x9893c361d7327bf, 0xecdb4ccf42f3a884, 0x23e490a1ef15f761, 0xa01252d0d3a053f1, 0x80947d7b88df5169, 0x175910a56a4daa69, 0x2c04f29fabec3361, 0xe7793590dbb8c199, 0xe7686e8244dbfb7a, 0x178f4c6963eac873, 0xf7c3a8cadaaaf20, 0x842eb97cd3abe764, 0xb086f346d402473, 0x5cacb073210ef81b, 0x5a391e0963f64617] = [0x85b612a29030923f, 0x725960bb80a43af6, 0xfc06d9ccd084fbc7, 0x24db9affbb99fc17, 0x1ea4bf297ef58ece, 0x43a6a27369e160fa, 0x1583027d6aab6202, 0x8af727c9b5750a72, 0x667e7741bacda5a2, 0x6269c6d5576ede8, 0xd2a203389f3e7f92, 0x3f6033bac64e4d14, 0xb1895cc2ad347622, 0x95c1b744add58fd7, 0x641eabc2c2e0d6ee, 0xf888a6954b8227d3, 0xbd04e2456f5500b6, 0x3d9076526db259d1, 0xdcdf1cadd955d497, 0xb835e58f6b2984ea, 0xf6768e74cdfe319b, 0xe1fdad17c8552f01, 0xc4a10a280e60d183, 0xac7f2adf97269c93, 0x334a6799450ba7d8] := by decide

theorem kstep_removeRole_9 :
    keccakRound 9 [0x85b612a29030923f, 0x725960bb80a43af6, 0xfc06d9ccd084fbc7, 0x24db9affbb99fc17, 0x1ea4bf297ef58ece, 0x43a6a27369e160fa, 0x1583027d6aab6202, 0x8af727c9b5750a72, 0x667e7741bacda5a2, 0x6269c6d5576ede8, 0xd2a203389f3e7f92, 0x3f6033bac64e4d14, 0xb1895cc2ad347622, 0x95c1b744add58fd7, 0x641eabc2c2e0d6ee, 0xf888a6954b8227d3, 0xbd04e2456f5500b6, 0x3d9076526db259d1, 0xdcdf1cadd955d497, 0xb835e58f6b2984ea, 0xf6768e74cdfe319b, 0xe1fdad17c8552f01, 0xc4a10a280e60d183, 0xac7f2adf97269c93, 0x334a6799450ba7d8] = [0xfb57a4ad556c72ff, 0xa536f190260edc3, 0x8ac5c65317dfef19, 0xd6acbc7694f2fa70, 0xcb684aa701e0a585, 0x39d858685bb1ed17, 0x7fc33a65530b46b0, 0x4f50af2af7f4eef3, 0x1884ff3b6fc39e29, 0x77ea7bb6e810884b, 0x990c0fd166bbf80f, 0x79729bec4671832, 0x3350e3eccd9898bd, 0x61b79b48dc2feaab, 0xa4d440d9df7c267e, 0xfebe0434b769cb29, 0x8288bae3ecb8f1e2, 0xdf1e45a38f3405f4, 0xd836909f9be8f62c, 0xa37dda2a0ba2b27c, 0x7f57449d66b83e67, 0xc85bfcda34cfbcc7, 0x86bf7aeb817aa3b2, 0xe2fa4c23df28a031, 0x9c8295d3f3e52ed2] := by decide

theorem kstep_removeRole_10 :
    keccakRound 10 [0xfb57a4ad556c72ff, 0xa536f190260edc3, 0x8ac5c65317dfef19, 0xd6acbc7694f2fa70, 0xcb684aa701e0a585, 0x39d858685bb1ed17, 0x7fc33a65530b46b0, 0x4f50af2af7f4eef3, 0x1884ff3b6fc39e29, 0x77ea7bb6e810884b, 0x990c0fd166bbf80f, 0x79729bec4671832, 0x3350e3eccd9898bd, 0x61b79b48dc2feaab, 0xa4d440d9df7c267e, 0xfebe0434b769cb29, 0x8288bae3ecb8f1e2, 0xdf1e45a38f3405f4, 0xd836909f9be8f62c, 0xa37dda2a0ba2b27c, 0x7f57449d66b83e67, 0xc85bfcda34cfbcc7, 0x86bf7aeb817aa3b2, 0xe2fa4c23df28a031, 0x9c8295d3f3e52ed2] = [0x394eff6391d1990a, 0x6aa72fe2ee022ad5, 0xef387988025b857a, 0xa4763776e1271023, 0x7f2578413afd8d95, 0xfa89ae1553613f52, 0x4ca8a53373566d1, 0x687a8999951f834f, 0x238d0654fe54a002, 0x37dfa92e4d63dd00, 0xb9a1ed1df9590233, 0x5b9e48d75ee49215, 0xe88489f7498327fd, 0xfb38cc37bb55c201, 0x7d6ecad35264f55c, 0x2b8c0a29cd15b147, 0xd0c96e07f9b43e42, 0xd7c428ec3392e20d, 0x1b9d00b96731d7fc, 0xcc52a893ade14801, 0xc2ac5d360e576108, 0x8b7c470a1466b6c7, 0xf64de164a9118dd6, 0x2f4c9351fbd9cfce, 0x33b0937e6aa1d5f2] := by decide

theorem kstep_removeRole_11 :
    keccakRound 11 [0x394eff6391d1990a, 0x6aa72fe2ee022ad5, 0xef387988025b857a, 0xa4763776e1271023, 0x7f2578413afd8d95, 0xfa89ae1553613f52, 0x4ca8a53373566d1, 0x687a8999951f834f, 0x238d0654fe54a002, 0x37dfa92e4d63dd00, 0xb9a1ed1df9590233, 0x5b9e48d75ee49215, 0xe88489f7498327fd, 0xfb38cc37bb55c201, 0x7d6ecad35264f55c, 0x2b8c0a29cd15b147, 0xd0c96e07f9b43e42, 0xd7c428ec3392e20d, 0x1b9d00b96731d7fc, 0xcc52a893ade14801, 0xc2ac5d360e576108, 0x8b7c470a1466b6c7, 0xf64de164a9118dd6, 0x2f4c9351fbd9cfce, 0x33b0937e6aa1d5f2] = [0xbab71fe223e90e92, 0x6279b0b93347b13f, 0x3568407570216291, 0x2bb9971d91592fce, 0x8a9288df45fce72a, 0xde5352a65de57577, 0x93a05c95f504d433, 0x7bd7c8cadd4cb9c1, 0xccc81b025d19ad21, 0xc0adf20f164101ec, 0xbaad814d720085b6, 0x8f24062791083767, 0xe6b0ab634e623724, 0xc5298f6455cade02, 0xd2c4e19d50eb2b1e, 0xad9e70cf6845c253, 0x5d28a40a6736e9a4, 0xbf4c97db11c83471, 0x1fb4941bd0db82d1, 0xf8f56b631b5ac0d5, 0x48559886f671c072, 0x323cbf094bfbae7d, 0xfeac9308e8a941cd, 0xde08227ca925dd17, 0x20bf35f0999b491b] := by decide

theorem kstep_removeRole_12 :
    keccakRound 12 [0xbab71fe223e90e92, 0x6279b0b93347b13f, 0x3568407570216291, 0x2bb9971d91592fce, 0x8a9288df45fce72a, 0xde5352a65de57577, 0x93a05c95f504d433, 0x7bd7c8cadd4cb9c1, 0xccc81b025d19ad21, 0xc0adf20f164101ec, 0xbaad814d720085b6, 0x8f24062791083767, 0xe6b0ab634e623724, 0xc5298f6455cade02, 0xd2c4e19d50eb2b1e, 0xad9e70cf6845c253, 0x5d28a40a6736e9a4, 0xbf4c97db11c83471, 0x1fb4941bd0db82d1, 0xf8f56b631b5ac0d5, 0x48559886f671c072, 0x323cbf094bfbae7d, 0xfeac9308e8a941cd, 0xde08227ca925dd17, 0x20bf35f0999b491b] = [0xb9d7302cd5f0e3eb, 0x5a435cda540d539, 0x83244d8109939fb8, 0x1cfd1b7a37eca7e7, 0xf23350f42eb9b909, 0xfed183f2a0f9419c, 0xd9ade6e93b35ccc8, 0xcf6c351906ef3463, 0x9c48e44e1dc98980, 0x43da50a287cee05, 0x9442b4c96e15bffd, 0x6cd214999a8a9903, 0x44b914bf6d5beed5, 0x15df4a9a5c7f4b4d, 0x94b649ba3caaacdc, 0x541f8c630c1392b7, 0xb1a5b15bd31f72a0, 0x103364537bd250d5, 0x27c1d323389a694, 0x5056a4961db421cc, 0x2dfa7e7130dfdc5d, 0xeac0214730822eeb, 0x37e97ce1165f8408, 0xad0a611dfa2c5a39, 0x2b8355557c59a6f9] := by decide

theorem kstep_removeRole_13 :
    keccakRound 13 [0xb9d7302cd5f0e3eb, 0x5a435cda540d539, 0x83244d8109939fb8, 0x1cfd1b7a37eca7e7, 0xf23350f42eb9b909, 0xfed183f2a0f9419c, 0xd9ade6e93b35ccc8, 0xcf6c351906ef3463, 0x9c48e44e1dc98980, 0x43da50a287cee05, 0x9442b4c96e15bffd, 0x6cd214999a8a9903, 0x44b914bf6d5beed5, 0x15df4a9a5c7f4b4d, 0x94b649ba3caaacdc, 0x541f8c630c1392b7, 0xb1a5b15bd31f72a0, 0x103364537bd250d5, 0x27c1d323389a694, 0x5056a4961db421cc, 0x2dfa7e7130dfdc5d, 0xeac0214730822eeb, 0x37e97ce1165f8408, 0xad0a611dfa2c5a39, 0x2b8355557c59a6f9] = [0xc7cdc6e010b7a972, 0x4ef082f5ae8f702b, 0x388d95d9d0ccefaf, 0x377134119133d7f6, 0x15b7831409679135, 0x8a761cbd2a918e1c, 0x6859cabd111aba09, 0x679ba76ffac3935e, 0x48bce05dd5ae1f7b, 0x9504550865fe7d57, 0xe3a7d3c51b8b43b5, 0x32fa734edfb87721, 0x71992046ac3158ca, 0x89a75c68f39eca6e, 0x6a8eba42e31b3bae, 0x7af5ae3a4f4a679b, 0x1bb06184cc1652f9, 0xb4a2d0803fe59640, 0x8e3ff597a7182653, 0x21b8bb0f86469252, 0xf521e330f0669405, 0x4ce6de85e29af4e0, 0x2a9979fdd4b52862, 0x2f8e417cd89fcb31, 0x701ce9252a8d5b44] := by decide

theorem kstep_removeRole_14 :
    keccakRound 14 [0xc7cdc6e010b7a972, 0x4ef082f5ae8f702b, 0x388d95d9d0ccefaf, 0x377134119133d7f6, 0x15b7831409679135, 0x8a761cbd2a918e1c, 0x6859cabd111aba09, 0x679ba76ffac3935e, 0x48bce05dd5ae1f7b, 0x9504550865fe7d57, 0xe3a7d3c51b8b43b5, 0x32fa734edfb87721, 0x71992046ac3158ca, 0x89a75c68f39eca6e, 0x6a8eba42e31b3bae, 0x7af5ae3a4f4a679b, 0x1bb06184cc1652f9, 0xb4a2d0803fe59640, 0x8e3ff597a7182653, 0x21b8bb0f86469252, 0xf521e330f0669405, 0x4ce6de85e29af4e0, 0x2a9979fdd4b52862, 0x2f8e417cd89fcb31, 0x701ce9252a8d5b44] = [0xf63ff4fafed0a39d, 0x7386fa9fa6925176, 0x4dc4f7abd6fc3b8d, 0x761d9c8837c537ae, 0xd6b3f5c7a7908d55, 0xba2adf61870c3537, 0x39c599c78895ff, 0xf16b3d71ad217658, 0x5d194c63244dd339, 0x5cc45016e1a3bd47, 0xd0322e951afa4ae, 0x2a189ce91b96c9a3, 0x1f91dc5fb63061fc, 0xfb8ca73ac553dd05, 0x973da4b6f9ff73cf, 0xd3e612c5711eb037, 0xdb260f2b566e8c79, 0x646312ef83821ead, 0xf48b72274920ac9b, 0x95e065ac17b36f24, 0xf137d8bc2159deee, 0xeb453513114f28bc, 0x7f7c468f728e8a13, 0x469ee08e8ff08147, 0x3bdfb135073f7f48] := by decide

theorem kstep_removeRole_15 :
    keccakRound 15 [0xf63ff4fafed0a39d, 0x7386fa9fa6925176, 0x4dc4f7abd6fc3b8d, 0x761d9c8837c537ae, 0xd6b3f5c7a7908d55, 0xba2adf61870c3537, 0x39c599c78895ff, 0xf16b3d71ad217658, 0x5d194c63244dd339, 0x5cc45016e1a3bd47, 0xd0322e951afa4ae, 0x2a189ce91b96c9a3, 0x1f91dc5fb63061fc, 0xfb8ca73ac553dd05, 0x973da4b6f9ff73cf, 0xd3e612c5711eb037, 0xdb260f2b566e8c79, 0x646312ef83821ead, 0xf48b72274920ac9b, 0x95e065ac17b36f24, 0xf137d8bc2159deee, 0xeb453513114f28bc, 0x7f7c468f728e8a13, 0x469ee08e8ff08147, 0x3bdfb135073f7f48] = [0x12c73e2a1e8162e9, 0xdb61d11fc1b18444, 0x4f16ec5a6471e2dc, 0xe5a46a1e67a5c873, 0x1d9638c6f49b2bb6, 0x4d2463498e0d5551, 0x278144114b27d593, 0x65be276d29678707, 0x313b7914cb341ce2, 0x28f07eb50cd4294e, 0xc04318bc8e88fd00, 0xd71b17de363d9af7, 0x4cff708dc84e8b90, 0xf202ea43d40a6830, 0xdeab500b5a3345fb, 0xc373965090d4857, 0x31f71a99e50db31d, 0xe470b0689791d576, 0x68c3c618c6ff686f, 0x82d81081328f029e, 0x3060fd2a309106b7, 0x67c149b49dab1524, 0x2e6e539155e3f83d, 0x132e914505f8c1ce, 0xa580cf98cfc2057b] := by decide

theorem kstep_removeRole_16 :
    keccakRound 16 [0x12c73e2a1e8162e9, 0xdb61d11fc1b18444, 0x4f16ec5a6471e2dc, 0xe5a46a1e67a5c873, 0x1d9638c6f49b2bb6, 0x4d2463498e0d5551, 0x278144114b27d593, 0x65be276d29678707, 0x313b7914cb341ce2, 0x28f07eb50cd4294e, 0xc04318bc8e88fd00, 0xd71b17de363d9af7, 0x4cff708dc84e8b90, 0xf202ea43d40a6830, 0xdeab500b5a3345fb, 0xc373965090d4857, 0x31f71a99e50db31d, 0xe470b0689791d576, 0x68c3c618c6ff686f, 0x82d81081328f029e, 0x3060fd2a309106b7, 0x67c149b49dab1524, 0x2e6e539155e3f83d, 0x132e914505f8c1ce, 0xa580cf98cfc2057b] = [0xf7c914a05100f9ee, 0xac7f1f6f07514a0e, 0x96ec44441ddac01d, 0xb667a6c55dc3e419, 0x509fa795c062a9c5, 0x7b8ec88b6d04720b, 0x3c1f8fd34f93e7e5, 0x336bd3ba759128c3, 0x76ee19710475c191, 0x9d395cd8be29d310, 0x4059c003bbf7cc7b, 0xe70f9fe494a12830, 0x9c188e7daa0ed063, 0x47b5f5d6a26e2f98, 0xfa61b08e758c1e3a, 0xf892b398787a6c2f, 0x9428e857abb59c3b, 0xf9bb6e7646aa98b0, 0x8edfa3f27137dd82, 0x14a041c467c2193, 0x2a229941a5b7a8a1, 0x17032ecdaa185e07, 0x7d3cc5ea9b669f95, 0x4dab1e1556e6dfbd, 0x6711c6109b904bf8] := by decide

theorem kstep_removeRole_17 :
    keccakRound 17 [0xf7c914a05100f9ee, 0xac7f1f6f07514a0e, 0x96ec44441ddac01d, 0xb667a6c55dc3e419, 0x509fa795c062a9c5, 0x7b8ec88b6d04720b, 0x3c1f8fd34f93e7e5, 0x336bd3ba759128c3, 0x76ee19710475c191, 0x9d395cd8be29d310, 0x4059c003bbf7cc7b, 0xe70f9fe494a12830, 0x9c188e7daa0ed063, 0x47b5f5d6a26e2f98, 0xfa61b08e758c1e3a, 0xf892b398787a6c2f, 0x9428e857abb59c3b, 0xf9bb6e7646aa98b0, 0x8edfa3f27137dd82, 0x14a041c467c2193, 0x2a229941a5b7a8a1, 0x17032ecdaa185e07, 0x7d3cc5ea9b669f95, 0x4dab1e1556e6dfbd, 0x6711c6109b904bf8] = [0xcade9cec5cb35c71, 0xbbfc4d918fc3db2b, 0x853b77e67c68667f, 0x46985f1dced027e4, 0xe63dbdf9103d458b, 0xdee35e6ab8844977, 0x4ffc69cd94af528c, 0x4a5af22eba862983, 0x72c39e1e775339a3, 0xa1211df13ead5b8d, 0x91c2b95ac45b4c77, 0xbd2145e01b534ac3, 0xac02621ab733682e, 0xcf5ee06e487ebc79, 0x62126484b4aede5e, 0xd5403efc470c1be1, 0x2f7424356939aca1, 0x4a34a5c2a7317f46, 0xb45fa4bb278c82b5, 0x276c8abfbd541ded, 0x468640a2dc058567, 0x8366a7de7d995550, 0xb8292ac98a157c1e, 0xab54c0234d52814b, 0x4e41d7571c08d889] := by decide

theorem kstep_removeRole_18 :
    keccakRound 18 [0xcade9cec5cb35c71, 0xbbfc4d918fc3db2b, 0x853b77e67c68667f, 0x46985f1dced027e4, 0xe63dbdf9103d458b, 0xdee35e6ab8844977, 0x4ffc69cd94af528c, 0x4a5af22eba862983, 0x72c39e1e775339a3, 0xa1211df13ead5b8d, 0x91c2b95ac45b4c77, 0xbd2145e01b534ac3, 0xac02621ab733682e, 0xcf5ee06e487ebc79, 0x62126484b4aede5e, 0xd5403efc470c1be1, 0x2f7424356939aca1, 0x4a34a5c2a7317f46, 0xb45fa4bb278c82b5, 0x276c8abfbd541ded, 0x468640a2dc058567, 0x8366a7de7d995550, 0xb8292ac98a157c1e, 0xab54c0234d52814b, 0x4e41d7571c08d889] = [0x1c93d12e2eef88e0, 0x886c5871b7d5133, 0x7aa19c415d5575af, 0xddd3b733cab1a0bf, 0xe72ddae9acb9308e, 0x426cd011c4f37250, 0x70557727543699a0, 0xae97ac8e3120e380, 0x480673e77ee2bd25, 0x62b1ec28af1d2524, 0x3cf330421aa061b7, 0xdd66acf6bfa72552, 0x9be7b702564ccf74, 0x1a944d50b61b6b7c, 0xb4a7fdc3d0d70740, 0x5daaeb3f38728bbd, 0xc9bb94950a590b82, 0x8bc76d6d2356ca05, 0xa073c0b18a39339d, 0x19a3799ab0675fad, 0xe9450783a7bd0ffe, 0xa83a39c00f6cf389, 0xfd703b4cc32c386c, 0x80d7eca00b426dba, 0xde3537d9fc39decb] := by decide

theorem kstep_removeRole_19 :
    keccakRound 19 [0x1c93d12e2eef88e0, 0x886c5871b7d5133, 0x7aa19c415d5575af, 0xddd3b733cab1a0bf, 0xe72ddae9acb9308e, 0x426cd011c4f37250, 0x70557727543699a0, 0xae97ac8e3120e380, 0x480673e77ee2bd25, 0x62b1ec28af1d2524, 0x3cf330421aa061b7, 0xdd66acf6bfa72552, 0x9be7b702564ccf74, 0x1a944d50b61b6b7c, 0xb4a7fdc3d0d70740, 0x5daaeb3f38728bbd, 0xc9bb94950a590b82, 0x8bc76d6d2356ca05, 0xa073c0b18a39339d, 0x19a3799ab0675fad, 0xe9450783a7bd0ffe, 0xa83a39c00f6cf389, 0xfd703b4cc32c386c, 0x80d7eca00b426dba, 0xde3537d9fc39decb] = [0x7206d268981835f0, 0x4e8c09708415703c, 0x1c6bc048c259232b, 0x5bc9d637be9e893b, 0xc77ba57c92a33f01, 0xd2ea02e901a62285, 0x8bbf6913bac73b3a, 0x153f286f73fc88f2, 0xea7e4f33fddd3a74, 0x8dc4d46eb05266be, 0x7df1717189063107, 0xdb56a191b7a9565e, 0x6cb447cce20b4928, 0xc927bed8b249c53b, 0x9113440af9779c4f, 0xd68878363218b6a3, 0x4e6ce4f748853563, 0xb21fbb9245789b04, 0x2c29e974f7262c1a, 0x91106eb6076c5bb9, 0xb8571911690a0e3f, 0xdd2955d0d84d6d81, 0xa118937a4093e262, 0x5261c85ef588f6c0, 0x37591ba756279ba4] := by decide

theorem kstep_removeRole_20 :
    keccakRound 20 [0x7206d268981835f0, 0x4e8c09708415703c, 0x1c6bc048c259232b, 0x5bc9d637be9e893b, 0xc77ba57c92a33f01, 0xd2ea02e901a62285, 0x8bbf6913bac73b3a, 0x153f286f73fc88f2, 0xea7e4f33fddd3a74, 0x8dc4d46eb05266be, 0x7df1717189063107, 0xdb56a191b7a9565e, 0x6cb447cce20b4928, 0xc927bed8b249c53b, 0x9113440af9779c4f, 0xd68878363218b6a3, 0x4e6ce4f748853563, 0xb21fbb9245789b04, 0x2c29e974f7262c1a, 0x91106eb6076c5bb9, 0xb8571911690a0e3f, 0xdd2955d0d84d6d81, 0xa118937a4093e262, 0x5261c85ef588f6c0, 0x37591ba756279ba4] = [0x172321eba030bbc8, 0x2d3f254da05c25c6, 0xa98737e121d675e7, 0xdc16ac7dabf60af5, 0x4f3340a588f9d117, 0xbf569517ec4f797a, 0x327d2a335cdec891, 0xd6879b51d7e4d6f8, 0xe850621b0d6695f6, 0x841857e0475dbf55, 0xb121a74a6a61a3aa, 0x27dd97a250e7cfa5, 0x33e12c2eee9d2079, 0x4ce9632359aa4ac0, 0xa81f1227031b7bcf, 0x4a979573b6357b05, 0x29a9d5a14fb35e9, 0x6137014c2ff83c35, 0xc175ccf1d2f03956, 0xd970c470e7c53cc, 0xa43af904290867f9, 0x38c3c8a6494d0344, 0xcb84967c8361b94e, 0x55cf43a59bbe5e6, 0x14136ca4ed641102] := by decide

theorem kstep_removeRole_21 :
    keccakRound 21 [0x172321eba030bbc8, 0x2d3f254da05c25c6, 0xa98737e121d675e7, 0xdc16ac7dabf60af5, 0x4f3340a588f9d117, 0xbf569517ec4f797a, 0x327d2a335cdec891, 0xd6879b51d7e4d6f8, 0xe850621b0d6695f6, 0x841857e0475dbf55, 0xb121a74a6a61a3aa, 0x27dd97a250e7cfa5, 0x33e12c2eee9d2079, 0x4ce9632359aa4ac0, 0xa81f1227031b7bcf, 0x4a979573b6357b05, 0x29a9d5a14fb35e9, 0x6137014c2ff83c35, 0xc175ccf1d2f03956, 0xd970c470e7c53cc, 0xa43af904290867f9, 0x38c3c8a6494d0344, 0xcb84967c8361b94e, 0x55cf43a59bbe5e6, 0x14136ca4ed641102] = [0x883cd46a3c614391, 0x1115d1802e00b09b, 0xa13e4085961486a4, 0x23b3b5393dab8cc6, 0xd22a5a44fb642911, 0x342a2a77cdf0c731, 0x56d0158c16456ec3, 0x26ebec553144e5f6, 0x8886c71e150898b7, 0x1cddfa880147273c, 0x20a44f26e0ad0f66, 0xb31d117bfc74502b, 0x77431e096adbf7f, 0xc7a2218ac985f67c, 0x4808847575437c15, 0x476ae31fc8ab7955, 0x7440691c1bb0a87e, 0xf1a9e0ea049aa73, 0x73d80a71f506b56e, 0x7d96664890a6476f, 0xf4933ed7ea35ccd7, 0xdef4f15d1bb26dea, 0x9036ba7d95b49d0a, 0x9888e47e5ae57267, 0xc16e1e271cbc964] := by decide

theorem kstep_removeRole_22 :
    keccakRound 22 [0x883cd46a3c614391, 0x1115d1802e00b09b, 0xa13e4085961486a4, 0x23b3b5393dab8cc6, 0xd22a5a44fb642911, 0x342a2a77cdf0c731, 0x56d0158c16456ec3, 0x26ebec553144e5f6, 0x8886c71e150898b7, 0x1cddfa880147273c, 0x20a44f26e0ad0f66, 0xb31d117bfc74502b, 0x77431e096adbf7f, 0xc7a2218ac985f67c, 0x4808847575437c15, 0x476ae31fc8ab7955, 0x7440691c1bb0a87e, 0xf1a9e0ea049aa73, 0x73d80a71f506b56e, 0x7d96664890a6476f, 0xf4933ed7ea35ccd7, 0xdef4f15d1bb26dea, 0x9036ba7d95b49d0a, 0x9888e47e5ae57267, 0xc16e1e271cbc964] = [0x460fe780e20a2c4d, 0x6a63d568433fd3d8, 0xe49c9eb69c36b679, 0xa017cab091b05d72, 0xc909867aa48fa7c3, 0xde423b7f491f30b7, 0xccc2c065e3c058c9, 0xc83303c1c733b747, 0x2e5344fc0ac12023, 0xb8ba35815b81fbd4, 0x1e8aabeaab42114e, 0xc33689eb1e6b441d, 0xc6870c8806cdbded, 0xc7098239045ae38a, 0xde90316a8893fac1, 0x293189cee79d7fd, 0x79b88827f9dd91e2, 0x347db91c54e34e8c, 0xd6a87d7cb597aeec, 0xed413e580b02de63, 0x9d35597d73fb71f8, 0x4219ea0d2ee24b94, 0x5b806068acb20cac, 0x4011104e81da39d, 0x789b1ea08c429c1e] := by decide

theorem kstep_removeRole_23 :
    keccakRound 23 [0x460fe780e20a2c4d, 0x6a63d568433fd3d8, 0xe49c9eb69c36b679, 0xa017cab091b05d72, 0xc909867aa48fa7c3, 0xde423b7f491f30b7, 0xccc2c065e3c058c9, 0xc83303c1c733b747, 0x2e5344fc0ac12023, 0xb8ba35815b81fbd4, 0x1e8aabeaab42114e, 0xc33689eb1e6b441d, 0xc6870c8806cdbded, 0xc7098239045ae38a, 0xde90316a8893fac1, 0x293189cee79d7fd, 0x79b88827f9dd91e2, 0x347db91c54e34e8c, 0xd6a87d7cb597aeec, 0xed413e580b02de63, 0x9d35597d73fb71f8, 0x4219ea0d2ee24b94, 0x5b806068acb20cac, 0x4011104e81da39d, 0x789b1ea08c429c1e] = [0x4c8db86a0803fe1b, 0x6069df60b65c63dc, 0x6c3f1c3bdf83db70, 0xa4949692e8a493de, 0x64b158d2004db52f, 0xcdfca6e1730dfc62, 0xbe5a2591d0711ca0, 0xc6fee24dce4dba9c, 0xf1e6a94670f89dc9, 0x644dc3c568cb4651, 0x71d0553723bd0e08, 0x567c49d8f6f1fa68, 0xda80b0a8a8ea1b9c, 0x867318e70939aa5c, 0x183e414a2adc3ea4, 0xa65c2a3a6b085b5d, 0xaa0a32800776c866, 0xcca8003a74e53e53, 0x1edd405bd50ee89, 0x31f7e398d8ca3f36, 0xafc8ac03d52fa725, 0xe34f7ba456a7e908, 0xcfd736083b0e6338, 0x4423cd0812a95b8f, 0x36e251fe2102783] := by decide

theorem selector_removeRole : selector "removeRole(address,string)" = [0x1b, 0xfe, 0x03, 0x08] := by
  unfold selector keccak256
  rw [show keccakBlocks ((strBytes "removeRole(address,string)").length / 136 + 1) (strBytes "removeRole(address,string)")
        = [[114, 101, 109, 111, 118, 101, 82, 111, 108, 101, 40, 97, 100, 100, 114, 101, 115, 115, 44, 115, 116, 114, 105, 110, 103, 41, 1, 0, 0, 0, 0, 0, 0, 0, 0, 0, 0, 0, 0, 0, 0, 0, 0, 0, 0, 0, 0, 0, 0, 0, 0, 0, 0, 0, 0, 0, 0, 0, 0, 0, 0, 0, 0, 0, 0, 0, 0, 0, 0, 0, 0, 0, 0, 0, 0, 0, 0, 0, 0, 0, 0, 0, 0, 0, 0, 0, 0, 0, 0, 0, 0, 0, 0, 0, 0, 0, 0, 0, 0, 0, 0, 0, 0, 0, 0, 0, 0, 0, 0, 0, 0, 0, 0, 0, 0, 0, 0, 0, 0, 0, 0, 0, 0, 0, 0, 0, 0, 0, 0, 0, 0, 0, 0, 0, 0, 128]] by decide]
  simp only [List.foldl_cons, List.foldl_nil, absorbBlock]
  rw [show xorBlock (List.replicate 25 0) [114, 101, 109, 111, 118, 101, 82, 111, 108, 101, 40, 97, 100, 100, 114, 101, 115, 115, 44, 115, 116, 114, 105, 110, 103, 41, 1, 0, 0, 0, 0, 0, 0, 0, 0, 0, 0, 0, 0, 0, 0, 0, 0, 0, 0, 0, 0, 0, 0, 0, 0, 0, 0, 0, 0, 0, 0, 0, 0, 0, 0, 0, 0, 0, 0, 0, 0, 0, 0, 0, 0, 0, 0, 0, 0, 0, 0, 0, 0, 0, 0, 0, 0, 0, 0, 0, 0, 0, 0, 0, 0, 0, 0, 0, 0, 0, 0, 0, 0, 0, 0, 0, 0, 0, 0, 0, 0, 0, 0, 0, 0, 0, 0, 0, 0, 0, 0, 0, 0, 0, 0, 0, 0, 0, 0, 0, 0, 0, 0, 0, 0, 0, 0, 0, 0, 128] = [0x6f5265766f6d6572, 0x657264646128656c, 0x6e697274732c7373, 0x12967, 0x0, 0x0, 0x0, 0x0, 0x0, 0x0, 0x0, 0x0, 0x0, 0x0, 0x0, 0x0, 0x8000000000000000, 0x0, 0x0, 0x0, 0x0, 0x0, 0x0, 0x0, 0x0] by decide]
  rw [keccakF_unfold]
  rw [kstep_removeRole_0, kstep_removeRole_1, kstep_removeRole_2, kstep_removeRole_3, kstep_removeRole_4, kstep_removeRole_5, kstep_removeRole_6, kstep_removeRole_7, kstep_removeRole_8, kstep_removeRole_9, kstep_removeRole_10, kstep_removeRole_11, kstep_removeRole_12, kstep_removeRole_13, kstep_removeRole_14, kstep_removeRole_15, kstep_removeRole_16, kstep_removeRole_17, kstep_removeRole_18, kstep_removeRole_19, kstep_removeRole_20, kstep_removeRole_21, kstep_removeRole_22, kstep_removeRole_23]
  decide

theorem kstep_hasRole_0 :
    keccakRound 0 [0x28656c6f52736168, 0x2c73736572646461, 0x129676e69727473, 0x0, 0x0, 0x0, 0x0, 0x0, 0x0, 0x0, 0x0, 0x0, 0x0, 0x0, 0x0, 0x0, 0x8000000000000000, 0x0, 0x0, 0x0, 0x0, 0x0, 0x0, 0x0, 0x0] = [0x73a087e5372baa38, 0xb454c0af7e4b3c25, 0x31118c52ab0f3b81, 0xad4d2cca886b8ca5, 0xbe2fc93bf8b40432, 0xa48217543250d464, 0xbdea8f6cfd153cad, 0xc3b91c7f2c4eca96, 0x3320d445e4446260, 0x3ce62644a3498405, 0xcc8b870d83e5995a, 0x1ed4c35899d9987b, 0xcdf1e5ebe70f7145, 0xce58fe2822204814, 0x8b7fcb733b1563ba, 0x67257414d28646c6, 0x6dbcbd05ae7eaabf, 0x9c8bce47126f18ec, 0x3d94af22b2b6d2bb, 0x7b89a14662015a5c, 0xe937ed0a868dc244, 0xb91012223fb529b3, 0x5b2f6066677e4d62, 0x929183b1094c15cd, 0xb85e9a7f336e1f02] := by decide

theorem kstep_hasRole_1 :
    keccakRound 1 [0x73a087e5372baa38, 0xb454c0af7e4b3c25, 0x31118c52ab0f3b81, 0xad4d2cca886b8ca5, 0xbe2fc93bf8b40432, 0xa48217543250d464, 0xbdea8f6cfd153cad, 0xc3b91c7f2c4eca96, 0x3320d445e4446260, 0x3ce62644a3498405, 0xcc8b870d83e5995a, 0x1ed4c35899d9987b, 0xcdf1e5ebe70f7145, 0xce58fe2822204814, 0x8b7fcb733b1563ba, 0x67257414d28646c6, 0x6dbcbd05ae7eaabf, 0x9c8bce47126f18ec, 0x3d94af22b2b6d2bb, 0x7b89a14662015a5c, 0xe937ed0a868dc244, 0xb91012223fb529b3, 0x5b2f6066677e4d62, 0x929183b1094c15cd, 0xb85e9a7f336e1f02] = [0x3e4b7da904a54fba, 0xeff91dd3eb6a0113, 0x674cafa69af0fe3b, 0x41f4dbc8481e1579, 0xaa4398fec52b1b45, 0x77c37340e9576d30, 0x971f3850bab3a25b, 0x4bb7d8cd47a25384, 0xbf72d0361c8906ce, 0x4ccd2ad4625390bb, 0xe809f2a7c983ae31, 0x3ccfc813abcb937, 0x5ba061e9de46cf77, 0xeeb746b4debd9abe, 0xd2c88e597fa692e4, 0x564bdc15aa524f98, 0xd8f57ceeb6dab195, 0x71de5785d11015e3, 0x9dc86874232e13e4, 0xb64aaeec28dbac8c, 0xa36dfec6eadc79cc, 0x1f22dbc8e449bab7, 0xa122a30592590725, 0x3182869570d8c92f, 0x79c2ac231a7e840a] := by decide

theorem kstep_hasRole_2 :
    keccakRound 2 [0x3e4b7da904a54fba, 0xeff91dd3eb6a0113, 0x674cafa69af0fe3b, 0x41f4dbc8481e1579, 0xaa4398fec52b1b45, 0x77c37340e9576d30, 0x971f3850bab3a25b, 0x4bb7d8cd47a25384, 0xbf72d0361c8906ce, 0x4ccd2ad4625390bb, 0xe809f2a7c983ae31, 0x3ccfc813abcb937, 0x5ba061e9de46cf77, 0xeeb746b4debd9abe, 0xd2c88e597fa692e4, 0x564bdc15aa524f98, 0xd8f57ceeb6dab195, 0x71de5785d11015e3, 0x9dc86874232e13e4, 0xb64aaeec28dbac8c, 0xa36dfec6eadc79cc, 0x1f22dbc8e449bab7, 0xa122a30592590725, 0x3182869570d8c92f, 0x79c2ac231a7e840a] = [0x3c3adb6d9df29e17, 0xcfb818cf7a15b9b1, 0x4fc57eea3240d3a1, 0xf1a5cde88f4bfafe, 0xef2c82150a891a5f, 0x2c63d0f4619c946b, 0xe8535f6a463f9dd3, 0x51688196c3a5fc9f, 0xec26b8438cd2ea13, 0xecb13445c963fdaf, 0xf8a60e941e1abf53, 0x8f583f9b93bbd723, 0x1eddad1610591cf7, 0x76927fa8ecd8a220, 0xf791ac0eca8dc544, 0xed3043ea6d7fb813, 0x2864edfb4f6bd1cd, 0x9b98f36b49ef3570, 0x51f36d4d508656cb, 0x1866190cfce4709e, 0xead9fdf51c27f60d, 0xf4d6a72fa6f1934a, 0xd3d87c27fe4a6527, 0x6269df19ba31d04f, 0x70d0546a2f38016] := by decide

theorem kstep_hasRole_3 :
    keccakRound 3 [0x3c3adb6d9df29e17, 0xcfb818cf7a15b9b1, 0x4fc57eea3240d3a1, 0xf1a5cde88f4bfafe, 0xef2c82150a891a5f, 0x2c63d0f4619c946b, 0xe8535f6a463f9dd3, 0x51688196c3a5fc9f, 0xec26b8438cd2ea13, 0xecb13445c963fdaf, 0xf8a60e941e1abf53, 0x8f583f9b93bbd723, 0x1eddad1610591cf7, 0x76927fa8ecd8a220, 0xf791ac0eca8dc544, 0xed3043ea6d7fb813, 0x2864edfb4f6bd1cd, 0x9b98f36b49ef3570, 0x51f36d4d508656cb, 0x1866190cfce4709e, 0xead9fdf51c27f60d, 0xf4d6a72fa6f1934a, 0xd3d87c27fe4a6527, 0x6269df19ba31d04f, 0x70d0546a2f38016] = [0x5b7fae21dc8d3fca, 0x124de87265622680, 0x84a53edb4f7c92a5, 0x8567977a6389ee32, 0xf2cd610511ed607a, 0x3b7a71f5955de7ce, 0x82deac83ac42297f, 0x9c5aafaa2989669f, 0xb89a3af3fd14ae4e, 0xe2dd4bce1e77b7bf, 0x2196336a85478261, 0x9f67cab7d0ab5667, 0x742841cb9b95db3d, 0xc1df5cfdcbb2bd97, 0x66f7d9800e7fd676, 0x290034c3acc8dae3, 0xefb6ddb69079374c, 0x1c9303b896ec7bd0, 0x4996a2c5de1e3d27, 0x2e4ede3e4761e81f, 0x63b65c2386e8e8dd, 0xda292cf086fa541e, 0x9f872f3ade0f9666, 0x702301f5320117cd, 0xb68fb9d247aca81c] := by decide

theorem kstep_hasRole_4 :
    keccakRound 4 [0x5b7fae21dc8d3fca, 0x124de87265622680, 0x84a53edb4f7c92a5, 0x8567977a6389ee32, 0xf2cd610511ed607a, 0x3b7a71f5955de7ce, 0x82deac83ac42297f, 0x9c5aafaa2989669f, 0xb89a3af3fd14ae4e, 0xe2dd4bce1e77b7bf, 0x2196336a85478261, 0x9f67cab7d0ab5667, 0x742841cb9b95db3d, 0xc1df5cfdcbb2bd97, 0x66f7d9800e7fd676, 0x290034c3acc8dae3, 0xefb6ddb69079374c, 0x1c9303b896ec7bd0, 0x4996a2c5de1e3d27, 0x2e4ede3e4761e81f, 0x63b65c2386e8e8dd, 0xda292cf086fa541e, 0x9f872f3ade0f9666, 0x702301f5320117cd, 0xb68fb9d247aca81c] = [0x3b4468ee3659e45, 0x38446ce35f278217, 0xeafd627b4dd28f67, 0xf76839addefa41a4, 0xd48afd9da7e01945, 0x545e69af812360c, 0x333aa39904811181, 0x1fa296f8b3b17269, 0x334b270a9f313799, 0xf7ea5e9774edc044, 0x9dffeb935665b561, 0xc7d90cd608379d67, 0x5eeae3b8cfe4e613, 0x9749cf8bbfefba9c, 0x981267075bffe592, 0xf3afda6a0f44c1d8, 0xce5daa2889a137e8, 0x79969606eec7d3b, 0x8e34e7e89f84df62, 0x191389549324e676, 0x1dd059dc99c5dd93, 0x2e508552a29922b5, 0xac8a0c298c39825, 0xe48db7676039c864, 0xf828c15f6f0ac6fc] := by decide

theorem kstep_hasRole_5 :
    keccakRound 5 [0x3b4468ee3659e45, 0x38446ce35f278217, 0xeafd627b4dd28f67, 0xf76839addefa41a4, 0xd48afd9da7e01945, 0x545e69af812360c, 0x333aa39904811181, 0x1fa296f8b3b17269, 0x334b270a9f313799, 0xf7ea5e9774edc044, 0x9dffeb935665b561, 0xc7d90cd608379d67, 0x5eeae3b8cfe4e613, 0x9749cf8bbfefba9c, 0x981267075bffe592, 0xf3afda6a0f44c1d8, 0xce5daa2889a137e8, 0x79969606eec7d3b, 0x8e34e7e89f84df62, 0x191389549324e676, 0x1dd059dc99c5dd93, 0x2e508552a29922b5, 0xac8a0c298c39825, 0xe48db7676039c864, 0xf828c15f6f0ac6fc] = [0xc0b99b23f6ebf5a6, 0x336e62382f7b3d40, 0xe2564c637de50721, 0x2f3e33830a7b3d64, 0xa61b6f54ee74ac6, 0x8d0f78b7535d4ff3, 0xfd3c2b31b2f3470c, 0x75b5d0ecdb56d514, 0x7c579ecdb9f582cf, 0x9ac8aceadc69269c, 0x15d9970b46c2a2e4, 0x29465a368ac2a118, 0x2d639ff31b4a1422, 0x23b896e59fbd930c, 0x1bde391fd37d7b20, 0xecacff22b03ddb9a, 0x9bd9de584df79305, 0x9161a13347820ef9, 0xeb700ebb68dd7a2a, 0x44b7faa1b7cc090b, 0x4d7242ffddb16be7, 0xc1d19c30a9dc10f9, 0xea3cb9a7095b1db6, 0xb18911d9638f81b4, 0xcba35d43db27ef5c] := by decide

theorem kstep_hasRole_6 :
    keccakRound 6 [0xc0b99b23f6ebf5a6, 0x336e62382f7b3d40, 0xe2564c637de50721, 0x2f3e33830a7b3d64, 0xa61b6f54ee74ac6, 0x8d0f78b7535d4ff3, 0xfd3c2b31b2f3470c, 0x75b5d0ecdb56d514, 0x7c579ecdb9f582cf, 0x9ac8aceadc69269c, 0x15d9970b46c2a2e4, 0x29465a368ac2a118, 0x2d639ff31b4a1422, 0x23b896e59fbd930c, 0x1bde391fd37d7b20, 0xecacff22b03ddb9a, 0x9bd9de584df79305, 0x9161a13347820ef9, 0xeb700ebb68dd7a2a, 0x44b7faa1b7cc090b, 0x4d7242ffddb16be7, 0xc1d19c30a9dc10f9, 0xea3cb9a7095b1db6, 0xb18911d9638f81b4, 0xcba35d43db27ef5c] = [0x7de27b6ebd10a548, 0x34bf21fbfc5e65e4, 0x6f1406452642b58f, 0x16d83c8b8004fc03, 0x3ad6f87c9a350c9e, 0xae272082066146d8, 0x28447b9007dc5819, 0x5c558a307a410d87, 0xa83fbcb86c7926bb, 0x80265b34571b054c, 0x12c668568f517a72, 0x5272aedcfd025933, 0x90ed4968bfb50129, 0xfc4fcddf5d0f99c7, 0xbef85ba59e644d20, 0xfd21b963fc114041, 0x401990ef2555c7bb, 0x1492158a6f4797ed, 0x957851707e00fc17, 0xb628d39ff48e311e, 0xd2e2d508ba5675da, 0xefdbabc2d5b82459, 0xd6b6c2eb4ac3a9f4, 0xcfb1d8055fb36a9b, 0xcb71a849451c4812] := by decide

theorem kstep_hasRole_7 :
    keccakRound 7 [0x7de27b6ebd10a548, 0x34bf21fbfc5e65e4, 0x6f1406452642b58f, 0x16d83c8b8004fc03, 0x3ad6f87c9a350c9e, 0xae272082066146d8, 0x28447b9007dc5819, 0x5c558a307a410d87, 0xa83fbcb86c7926bb, 0x80265b34571b054c, 0x12c668568f517a72, 0x5272aedcfd025933, 0x90ed4968bfb50129, 0xfc4fcddf5d0f99c7, 0xbef85ba59e644d20, 0xfd21b963fc114041, 0x401990ef2555c7bb, 0x1492158a6f4797ed, 0x957851707e00fc17, 0xb628d39ff48e311e, 0xd2e2d508ba5675da, 0xefdbabc2d5b82459, 0xd6b6c2eb4ac3a9f4, 0xcfb1d8055fb36a9b, 0xcb71a849451c4812] = [0x566a7d629b6716a4, 0xc9a1a019520b4fb5, 0xc9ff160f897a0ac6, 0x6d4fd3601873de23, 0x1d5d8c5df14c8ab4, 0x4039e288724d3005, 0xa4467c61b1aced30, 0x484232c448174e28, 0xe4ae6dbd1522f962, 0xc025c1d8d725fcd5, 0xba52ad2600af074a, 0x3673826bebe84523, 0x8caf4b9f1f9f6933, 0xdb6c802284b4153b, 0x613bd31c72b5f4b2, 0x36215c00f6159d24, 0xa6a75ba18200cac1, 0xdd1bd28401a0f8ec, 0x9b098542c326e85, 0xdf5a993d065e7156, 0x6fc70012b86b2441, 0x3f1a46d41afd6d6d, 0x3d68131dac304f76, 0x4367dc9edf4bfdf4, 0x1837c9ecef7ec0ef] := by decide

theorem kstep_hasRole_8 :
    keccakRound 8 [0x566a7d629b6716a4, 0xc9a1a019520b4fb5, 0xc9ff160f897a0ac6, 0x6d4fd3601873de23, 0x1d5d8c5df14c8ab4, 0x4039e288724d3005, 0xa4467c61b1aced30, 0x484232c448174e28, 0xe4ae6dbd1522f962, 0xc025c1d8d725fcd5, 0xba52ad2600af074a, 0x3673826bebe84523, 0x8caf4b9f1f9f6933, 0xdb6c802284b4153b, 0x613bd31c72b5f4b2, 0x36215c00f6159d24, 0xa6a75ba18200cac1, 0xdd1bd28401a0f8ec, 0x9b098542c326e85, 0xdf5a993d065e7156, 0x6fc70012b86b2441, 0x3f1a46d41afd6d6d, 0x3d68131dac304f76, 0x4367dc9edf4bfdf4, 0x1837c9ecef7ec0ef] = [0x2a5e56a694fb2581, 0x64179cb464f01f0c, 0x39c0597483d8b1b8, 0x610294704103d486, 0xdf983e95743e20e8, 0xc97f9b3326ebbebb, 0xa18634c6c0332353, 0x3851899ef19ee022, 0x4cd813196b5cae75, 0x7dfe9046f12768a9, 0x85132b6a36eb6729, 0xb5c7d22b43724d26, 0xdd585f1f199aa3a5, 0x33d910317e0c52c, 0x10bcc3cf1dea4aeb, 0xbca5b0d51cd2417f, 0xcd5837bf5002b75c, 0x1bdcf74159234865, 0xbae51204e8581f9d, 0x26005cc422df7181, 0x89d8ba00fc0c4017, 0xe8b36cbd588fdcd6, 0xaf93120812bc4f03, 0x945c9f922a1948d3, 0x30de976e6f8d99b0] := by decide

theorem kstep_hasRole_9 :
    keccakRound 9 [0x2a5e56a694fb2581, 0x64179cb464f01f0c, 0x39c0597483d8b1b8, 0x610294704103d486, 0xdf983e95743e20e8, 0xc97f9b3326ebbebb, 0xa18634c6c0332353, 0x3851899ef19ee022, 0x4cd813196b5cae75, 0x7dfe9046f12768a9, 0x85132b6a36eb6729, 0xb5c7d22b43724d26, 0xdd585f1f199aa3a5, 0x33d910317e0c52c, 0x10bcc3cf1dea4aeb, 0xbca5b0d51cd2417f, 0xcd5837bf5002b75c, 0x1bdcf74159234865, 0xbae51204e8581f9d, 0x26005cc422df7181, 0x89d8ba00fc0c4017, 0xe8b36cbd588fdcd6, 0xaf93120812bc4f03, 0x945c9f922a1948d3, 0x30de976e6f8d99b0] = [0xed22b6e51d265a76, 0x33e5e9396ceb4b4d, 0x9e52304ac2c948cb, 0xbaac4ba66371573e, 0xe7789616622ce186, 0x5da22d16c5089b3a, 0x3afce985aca59fed, 0x182e3b4de997d2ae, 0x14b2b6a9e5cde5b4, 0x7d1e20b468aa905f, 0x6db14b0e00a110af, 0x1461e32d3dea7e5b, 0x9d39528891cf7d74, 0x45b76c9dea67e782, 0x68415b662ae0f6c9, 0xea95b8077aa2c735, 0xb3761c0c6087f002, 0x9ea9b697434aa4de, 0x32f9acf57990e5ef, 0xac96d7d043b4296a, 0x793857b4be464f0a, 0x1da62abee459a66d, 0x876d14c37ed637c4, 0x470c0527b2e9faac, 0xaf477fb7b0870c38] := by decide

theorem kstep_hasRole_10 :
    keccakRound 10 [0xed22b6e51d265a76, 0x33e5e9396ceb4b4d, 0x9e52304ac2c948cb, 0xbaac4ba66371573e, 0xe7789616622ce186, 0x5da22d16c5089b3a, 0x3afce985aca59fed, 0x182e3b4de997d2ae, 0x14b2b6a9e5cde5b4, 0x7d1e20b468aa905f, 0x6db14b0e00a110af, 0x1461e32d3dea7e5b, 0x9d39528891cf7d74, 0x45b76c9dea67e782, 0x68415b662ae0f6c9, 0xea95b8077aa2c735, 0xb3761c0c6087f002, 0x9ea9b697434aa4de, 0x32f9acf57990e5ef, 0xac96d7d043b4296a, 0x793857b4be464f0a, 0x1da62abee459a66d, 0x876d14c37ed637c4, 0x470c0527b2e9faac, 0xaf477fb7b0870c38] = [0xf38cd181f12e9506, 0x47e2715c9215e96d, 0xcafb71b51ef9dc3f, 0xbcae16daacbe728e, 0xce38edeaff6321e8, 0x3c1d746205b40bb2, 0x668765e2a85347fe, 0xf9b38779090b5f87, 0xcc195f4e3e3ebe5d, 0xa38dbfa8b35eeffc, 0xf0e44388ec34e116, 0x3fa7b7a72afea2e2, 0x2d1f0ae084e9268, 0xe2210cdc6ce0d8af, 0xee45c7ef53cdb41f, 0xe7c99061e002a6c7, 0x4b9caf1cb01ca7be, 0xda8b11fbf6af027d, 0xdcd23a38624e28d8, 0x2aa26469abcf46f2, 0x4655b56ebd310022, 0x9842cf2b7ec3354e, 0x92c09c320a8ec753, 0x128989841b24494, 0xc1cdc39eda626b55] := by decide

theorem kstep_hasRole_11 :
    keccakRound 11 [0xf38cd181f12e9506, 0x47e2715c9215e96d, 0xcafb71b51ef9dc3f, 0xbcae16daacbe728e, 0xce38edeaff6321e8, 0x3c1d746205b40bb2, 0x668765e2a85347fe, 0xf9b38779090b5f87, 0xcc195f4e3e3ebe5d, 0xa38dbfa8b35eeffc, 0xf0e44388ec34e116, 0x3fa7b7a72afea2e2, 0x2d1f0ae084e9268, 0xe2210cdc6ce0d8af, 0xee45c7ef53cdb41f, 0xe7c99061e002a6c7, 0x4b9caf1cb01ca7be, 0xda8b11fbf6af027d, 0xdcd23a38624e28d8, 0x2aa26469abcf46f2, 0x4655b56ebd310022, 0x9842cf2b7ec3354e, 0x92c09c320a8ec753, 0x128989841b24494, 0xc1cdc39eda626b55] = [0x8daa6f86a75e76e3, 0x737ff59ef311163d, 0x87e04899a7d2a36c, 0xa5ebe9ac6c4ad4fb, 0xfafbb309f07bacda, 0x4b2830fb2044635c, 0xa06e5f105e7cb13a, 0x1217ae7855ae4ce8, 0x5bf9a4580f61ecdf, 0xf8a6fd19f9c32517, 0x5758449a23f6b1e9, 0x84a2a1227d041db2, 0x8607394690a70943, 0x4d5d09af69cd6d78, 0x8d071f8cbe3e9bce, 0xd8c6657bbda55d64, 0x70661884ffba06f9, 0x9da7d6a6e279f453, 0x4bc46af00ece6ce7, 0x1089d4f3c5669726, 0xa6429f54cbbacfb7, 0xfd32faf8aa880487, 0x611f7c0f5cc67410, 0x3df433ad0206445, 0x8d880cebd1951797] := by decide

theorem kstep_hasRole_12 :
    keccakRound 12 [0x8daa6f86a75e76e3, 0x737ff59ef311163d, 0x87e04899a7d2a36c, 0xa5ebe9ac6c4ad4fb, 0xfafbb309f07bacda, 0x4b2830fb2044635c, 0xa06e5f105e7cb13a, 0x1217ae7855ae4ce8, 0x5bf9a4580f61ecdf, 0xf8a6fd19f9c32517, 0x5758449a23f6b1e9, 0x84a2a1227d041db2, 0x8607394690a70943, 0x4d5d09af69cd6d78, 0x8d071f8cbe3e9bce, 0xd8c6657bbda55d64, 0x70661884ffba06f9, 0x9da7d6a6e279f453, 0x4bc46af00ece6ce7, 0x1089d4f3c5669726, 0xa6429f54cbbacfb7, 0xfd32faf8aa880487, 0x611f7c0f5cc67410, 0x3df433ad0206445, 0x8d880cebd1951797] = [0x2a6eb1e3ce8db9e6, 0xea0b693fa5ec5144, 0x5bcd48495505f7, 0x9cf69d84e6f412a7, 0x3c3ba006c898e818, 0x390c2c5db7634af8, 0x8168ad05c65f465, 0x4660f436ddb31a23, 0x9eaf81532aa72aa, 0xc93a8b5fc63d3ae1, 0xc4a378963259db32, 0xb63f517eb1f164af, 0x44638c1d03454095, 0xe05887a388b20b15, 0x7c18ba8bb4a23d6, 0x6e8f74a14ae0c2fd, 0xd868241fcbe4adc8, 0x376bdc78fbd0ddd6, 0x3a2e6b593902c83c, 0x35a8233bbc4c8227, 0xcafe420ef2b66836, 0x98e0014bafeccf5f, 0xd8d6d9d575d98660, 0x477498f6045ebc38, 0x26f3c5d60f876b6e] := by decide

theorem kstep_hasRole_13 :
    keccakRound 13 [0x2a6eb1e3ce8db9e6, 0xea0b693fa5ec5144, 0x5bcd48495505f7, 0x9cf69d84e6f412a7, 0x3c3ba006c898e818, 0x390c2c5db7634af8, 0x8168ad05c65f465, 0x4660f436ddb31a23, 0x9eaf81532aa72aa, 0xc93a8b5fc63d3ae1, 0xc4a378963259db32, 0xb63f517eb1f164af, 0x44638c1d03454095, 0xe05887a388b20b15, 0x7c18ba8bb4a23d6, 0x6e8f74a14ae0c2fd, 0xd868241fcbe4adc8, 0x376bdc78fbd0ddd6, 0x3a2e6b593902c83c, 0x35a8233bbc4c8227, 0xcafe420ef2b66836, 0x98e0014bafeccf5f, 0xd8d6d9d575d98660, 0x477498f6045ebc38, 0x26f3c5d60f876b6e] = [0xcaa9f874b80be11b, 0x56f6c61ed38c3145, 0xa6fd8067b5ea3723, 0x17c5441f00c25a3a, 0x1987207f5feb2a2e, 0xc19ea68bfe65137, 0xd84402e21132e419, 0x786889a665fd0930, 0x20e96c4afae2d97d, 0xeb4c092753490728, 0x86cb367a9dafa3fe, 0xe9153b4c88e12018, 0x8358b0ba9f9d1f76, 0xd714af3a3dab41c2, 0x9772b1c8f9c848c0, 0xa3fbca965500a0f5, 0x3e2340ef3c655d38, 0x11a5b04113beb879, 0x1455d27276f199ca, 0x1a69a7ed0835e082, 0x15bf5c79e79d7f29, 0xb32cdeaf1b3c603, 0x1cda0e75625b8c4a, 0x4a284160c2aa0809, 0x8a6e4dc3ad67915e] := by decide

theorem kstep_hasRole_14 :
    keccakRound 14 [0xcaa9f874b80be11b, 0x56f6c61ed38c3145, 0xa6fd8067b5ea3723, 0x17c5441f00c25a3a, 0x1987207f5feb2a2e, 0xc19ea68bfe65137, 0xd84402e21132e419, 0x786889a665fd0930, 0x20e96c4afae2d97d, 0xeb4c092753490728, 0x86cb367a9dafa3fe, 0xe9153b4c88e12018, 0x8358b0ba9f9d1f76, 0xd714af3a3dab41c2, 0x9772b1c8f9c848c0, 0xa3fbca965500a0f5, 0x3e2340ef3c655d38, 0x11a5b04113beb879, 0x1455d27276f199ca, 0x1a69a7ed0835e082, 0x15bf5c79e79d7f29, 0xb32cdeaf1b3c603, 0x1cda0e75625b8c4a, 0x4a284160c2aa0809, 0x8a6e4dc3ad67915e] = [0x9cef6aabe33102da, 0x382aa0656bcf0451, 0xa1be076925d7abec, 0x986d51f57415fa8c, 0x2f2bb3920e4f2215, 0xf9a5db678ac0f2f2, 0x83b5526dccaf926f, 0xb0c18ffe546b1845, 0x5ed2595f851fbf6c, 0x25eca8f05754d92, 0x119f4ab0dd22bc4, 0xd5a478436d1239d5, 0x3f67082dc7cdb02d, 0x529e962b5a217300, 0xba96e89eaf1545a6, 0xb1f84549a955caa9, 0xc9cb8dbdf4f2ceda, 0x30eda953c002cac8, 0x740b38c31044d544, 0x66f07e9717fea463, 0xb2b03aaab530fef9, 0xb5db1c36e28fae2, 0xf2e409f22020536c, 0x56c013ee738afb64, 0x7ce846b39e4a8287] := by decide

theorem kstep_hasRole_15 :
    keccakRound 15 [0x9cef6aabe33102da, 0x382aa0656bcf0451, 0xa1be076925d7abec, 0x986d51f57415fa8c, 0x2f2bb3920e4f2215, 0xf9a5db678ac0f2f2, 0x83b5526dccaf926f, 0xb0c18ffe546b1845, 0x5ed2595f851fbf6c, 0x25eca8f05754d92, 0x119f4ab0dd22bc4, 0xd5a478436d1239d5, 0x3f67082dc7cdb02d, 0x529e962b5a217300, 0xba96e89eaf1545a6, 0xb1f84549a955caa9, 0xc9cb8dbdf4f2ceda, 0x30eda953c002cac8, 0x740b38c31044d544, 0x66f07e9717fea463, 0xb2b03aaab530fef9, 0xb5db1c36e28fae2, 0xf2e409f22020536c, 0x56c013ee738afb64, 0x7ce846b39e4a8287] = [0xd00d735653d9b18a, 0xe69923c2c3dd840c, 0x79d7b670fea58831, 0x3a89a24cb3404519, 0x8515e900114b0109, 0xadf0db67eb8b73c, 0xe097b512f486c820, 0x299a9b3588c89e13, 0x6320ebde7c31440a, 0x66534adb5c2f5727, 0x9e8dbcef6b5fcf5b, 0x6e4496abc24d8fc8, 0x2dae4d215746f18b, 0x2e9d232bfe73fc06, 0x9dcce7eb164d98c7, 0xa5b279c86537ba93, 0xeab89912e014b2e0, 0x31abe0a744ba269a, 0x8a0f99bd70cc684b, 0x8fada6622b3eaf58, 0x430b3e1593d402e, 0x62f60a9f95453d1e, 0x7ed126656f30997f, 0x37c304cba108484a, 0xb25725d2ef64b96e] := by decide

theorem kstep_hasRole_16 :
    keccakRound 16 [0xd00d735653d9b18a, 0xe69923c2c3dd840c, 0x79d7b670fea58831, 0x3a89a24cb3404519, 0x8515e900114b0109, 0xadf0db67eb8b73c, 0xe097b512f486c820, 0x299a9b3588c89e13, 0x6320ebde7c31440a, 0x66534adb5c2f5727, 0x9e8dbcef6b5fcf5b, 0x6e4496abc24d8fc8, 0x2dae4d215746f18b, 0x2e9d232bfe73fc06, 0x9dcce7eb164d98c7, 0xa5b279c86537ba93, 0xeab89912e014b2e0, 0x31abe0a744ba269a, 0x8a0f99bd70cc684b, 0x8fada6622b3eaf58, 0x430b3e1593d402e, 0x62f60a9f95453d1e, 0x7ed126656f30997f, 0x37c304cba108484a, 0xb25725d2ef64b96e] = [0xb375d3fb8cac3162, 0x7fe9717b92207fd, 0x10a9ac60591a60b5, 0x2810597b27dfd6, 0x741e7af693b5e45a, 0x92520ecf9cff143e, 0xd581815693ad717e, 0x6ee26616a1443189, 0x7e356dc4e3af01fa, 0xc4e00b51c4df2ce9, 0xcceae558f073cd88, 0xfdb85626509a2d9d, 0x19a6702bea37da34, 0x6f8d256ec850ef06, 0x5d220922039a1d32, 0xb32f2f418032ba74, 0x507f7d609a2a7dbb, 0x1bcfbfb1e8b14f3a, 0x4e4b0668e876127b, 0xbcd3eb0576d90b2b, 0x8298a3882cdbdb81, 0x780fee60ac977022, 0x7990b4dc2fcc840b, 0x96fc724d90224f75, 0xf40233b6f8eadb0d] := by decide

theorem kstep_hasRole_17 :
    keccakRound 17 [0xb375d3fb8cac3162, 0x7fe9717b92207fd, 0x10a9ac60591a60b5, 0x2810597b27dfd6, 0x741e7af693b5e45a, 0x92520ecf9cff143e, 0xd581815693ad717e, 0x6ee26616a1443189, 0x7e356dc4e3af01fa, 0xc4e00b51c4df2ce9, 0xcceae558f073cd88, 0xfdb85626509a2d9d, 0x19a6702bea37da34, 0x6f8d256ec850ef06, 0x5d220922039a1d32, 0xb32f2f418032ba74, 0x507f7d609a2a7dbb, 0x1bcfbfb1e8b14f3a, 0x4e4b0668e876127b, 0xbcd3eb0576d90b2b, 0x8298a3882cdbdb81, 0x780fee60ac977022, 0x7990b4dc2fcc840b, 0x96fc724d90224f75, 0xf40233b6f8eadb0d] = [0xa132d141d5b999e3, 0x392d8a0e5591f16, 0x23ad5616b78d869c, 0xe6a45989a78524d5, 0xdb0a9255491a8760, 0x51bb584a93f8361b, 0xa64f5ced289fd5b4, 0xa5473a077d08294b, 0x2eaf48e415c49199, 0x11c923c7ce4cc07c, 0x80c203a67fc6155d, 0xc6552fe83b1ad5bb, 0xf310a168e8c0ea8a, 0x21ac9b41f57350d8, 0xd3f88968cc896348, 0x5915565984bd5979, 0xf677b9738368c46c, 0x9f438fdafc9388ae, 0x4ab97ad008f406e0, 0xa513dca113f03200, 0xe1f5293ae10cfac6, 0x461cde6ece90be23, 0xfef1ea1759aedb19, 0x331b3184a71699f, 0xba4824d52518e1e7] := by decide

theorem kstep_hasRole_18 :
    keccakRound 18 [0xa132d141d5b999e3, 0x392d8a0e5591f16, 0x23ad5616b78d869c, 0xe6a45989a78524d5, 0xdb0a9255491a8760, 0x51bb584a93f8361b, 0xa64f5ced289fd5b4, 0xa5473a077d08294b, 0x2eaf48e415c49199, 0x11c923c7ce4cc07c, 0x80c203a67fc6155d, 0xc6552fe83b1ad5bb, 0xf310a168e8c0ea8a, 0x21ac9b41f57350d8, 0xd3f88968cc896348, 0x5915565984bd5979, 0xf677b9738368c46c, 0x9f438fdafc9388ae, 0x4ab97ad008f406e0, 0xa513dca113f03200, 0xe1f5293ae10cfac6, 0x461cde6ece90be23, 0xfef1ea1759aedb19, 0x331b3184a71699f, 0xba4824d52518e1e7] = [0x4055d3befe9664b7, 0xbd19001ddf0ea3af, 0x5cf119057d14e200, 0x6f9a34f1e50ac23b, 0xbd294271d74e61cc, 0x1da1ef5dba2b9703, 0x6fe339778810933c, 0xa8346eff9cd675b, 0xce146b18a178d835, 0xafff840efd3cbd6b, 0x8650780fc71e5ed1, 0x96f84d5f535ee61d, 0x5313e913bc134a2c, 0x6f3489ae4b948824, 0xfb9bac3f0fa12145, 0x59ab045d85565551, 0xc820b2170dd2193f, 0xaf27a535f3a5b419, 0xef127093b57173e, 0x934b0898b0b76c98, 0xcd60cf18c1f13d8f, 0xe1b17b0823b2cb3, 0xb17ceb775150aa98, 0xe0cccba8e4bed91e, 0x9a02fb06575e6b86] := by decide

theorem kstep_hasRole_19 :
    keccakRound 19 [0x4055d3befe9664b7, 0xbd19001ddf0ea3af, 0x5cf119057d14e200, 0x6f9a34f1e50ac23b, 0xbd294271d74e61cc, 0x1da1ef5dba2b9703, 0x6fe339778810933c, 0xa8346eff9cd675b, 0xce146b18a178d835, 0xafff840efd3cbd6b, 0x8650780fc71e5ed1, 0x96f84d5f535ee61d, 0x5313e913bc134a2c, 0x6f3489ae4b948824, 0xfb9bac3f0fa12145, 0x59ab045d85565551, 0xc820b2170dd2193f, 0xaf27a535f3a5b419, 0xef127093b57173e, 0x934b0898b0b76c98, 0xcd60cf18c1f13d8f, 0xe1b17b0823b2cb3, 0xb17ceb775150aa98, 0xe0cccba8e4bed91e, 0x9a02fb06575e6b86] = [0x24abadc589ff384d, 0x3e329249d06a0ff6, 0x168194d12b6e65bf, 0x81e68aa766fbe815, 0xacf8d27cbb3e0ea6, 0x7fb40a6359c09efe, 0x357f33a1e97134ee, 0xd13a7e6095ffd163, 0x1e591025199b3e1b, 0xce435861af6dfe31, 0x9885ecce198b8774, 0x6e3cac923e1cf35a, 0x942bef5853280ed7, 0x1b2f8068e998ef8d, 0xb2b4525083dcb45d, 0x2c8e45b5821baaa7, 0xf41bd7a6fcebce66, 0x99c495801e796b4a, 0x24f56cbc7786bd0a, 0xc11b450ab39ea4bd, 0x6500a3747528aa45, 0x310ad289176691fe, 0x53ffb822a4c4e639, 0x5d235b3da8d588e4, 0xc40fb539cf563aab] := by decide

theorem kstep_hasRole_20 :
    keccakRound 20 [0x24abadc589ff384d, 0x3e329249d06a0ff6, 0x168194d12b6e65bf, 0x81e68aa766fbe815, 0xacf8d27cbb3e0ea6, 0x7fb40a6359c09efe, 0x357f33a1e97134ee, 0xd13a7e6095ffd163, 0x1e591025199b3e1b, 0xce435861af6dfe31, 0x9885ecce198b8774, 0x6e3cac923e1cf35a, 0x942bef5853280ed7, 0x1b2f8068e998ef8d, 0xb2b4525083dcb45d, 0x2c8e45b5821baaa7, 0xf41bd7a6fcebce66, 0x99c495801e796b4a, 0x24f56cbc7786bd0a, 0xc11b450ab39ea4bd, 0x6500a3747528aa45, 0x310ad289176691fe, 0x53ffb822a4c4e639, 0x5d235b3da8d588e4, 0xc40fb539cf563aab] = [0x317c83241aab55c5, 0xe6e3e9421ce9c39f, 0x948e882e39efdb3f, 0x6e40a7dbee6926, 0x7643163f996369c3, 0x140106fd15ae3f09, 0x7589f5a920625fc6, 0x6bf6948d44eb90cb, 0x8e634b0265579f8c, 0xe0aac5563b334de5, 0x6b0d8ec91cae514, 0xb5a829ffab7d02aa, 0xb6542ab2dc4025b7, 0x7453f183baa29b29, 0x9f8e3dfb74a6dbcc, 0x6c3cdc844a2cad3b, 0xbba7b93e16f6ebe6, 0xfd28b89b47fa2557, 0x6b91f0d6f22140b4, 0xb46c9f592ffa5c4e, 0x3f26c1d313e8e2e, 0x6f1462664ba4c97e, 0x9dfd1f25f8970c51, 0xa4dc762af24365, 0x4d243cfa576778fa] := by decide

theorem kstep_hasRole_21 :
    keccakRound 21 [0x317c83241aab55c5, 0xe6e3e9421ce9c39f, 0x948e882e39efdb3f, 0x6e40a7dbee6926, 0x7643163f996369c3, 0x140106fd15ae3f09, 0x7589f5a920625fc6, 0x6bf6948d44eb90cb, 0x8e634b0265579f8c, 0xe0aac5563b334de5, 0x6b0d8ec91cae514, 0xb5a829ffab7d02aa, 0xb6542ab2dc4025b7, 0x7453f183baa29b29, 0x9f8e3dfb74a6dbcc, 0x6c3cdc844a2cad3b, 0xbba7b93e16f6ebe6, 0xfd28b89b47fa2557, 0x6b91f0d6f22140b4, 0xb46c9f592ffa5c4e, 0x3f26c1d313e8e2e, 0x6f1462664ba4c97e, 0x9dfd1f25f8970c51, 0xa4dc762af24365, 0x4d243cfa576778fa] = [0x8593db9c21c376ad, 0x968c0667bb25fd1a, 0xae228b3681070c7b, 0x42e6197e09952093, 0xde01542681f89880, 0xaaf103adb99cb436, 0xa086f08d0a67156b, 0x53690121464650f8, 0x2924348b827109cb, 0xe9a9af8e933665db, 0xf9e647b18ace2b21, 0xd437f525fffc0767, 0x69b4909595efb1b6, 0xb0c139812a05bd, 0xf2c5987cc3ac5cb5, 0x764b73b9bfbfa76, 0xf4a8c2242e957514, 0xe39c345b50a3be99, 0x7ddd9a47635de68a, 0x75404bd7be6809b2, 0x91de3290c2beecfc, 0x2e2a8690e7919c75, 0x29749049793db634, 0xc156478728a1afa, 0xe9b372726daebce6] := by decide

theorem kstep_hasRole_22 :
    keccakRound 22 [0x8593db9c21c376ad, 0x968c0667bb25fd1a, 0xae228b3681070c7b, 0x42e6197e09952093, 0xde01542681f89880, 0xaaf103adb99cb436, 0xa086f08d0a67156b, 0x53690121464650f8, 0x2924348b827109cb, 0xe9a9af8e933665db, 0xf9e647b18ace2b21, 0xd437f525fffc0767, 0x69b4909595efb1b6, 0xb0c139812a05bd, 0xf2c5987cc3ac5cb5, 0x764b73b9bfbfa76, 0xf4a8c2242e957514, 0xe39c345b50a3be99, 0x7ddd9a47635de68a, 0x75404bd7be6809b2, 0x91de3290c2beecfc, 0x2e2a8690e7919c75, 0x29749049793db634, 0xc156478728a1afa, 0xe9b372726daebce6] = [0xbdd245382a936efa, 0x2416114d793a75ad, 0x61a303615f94812e, 0xaee1a3bd44c13cf2, 0x57314886f5ecddd9, 0xcf7adf5ff2ec5836, 0x92b3f867b6e356b8, 0xaca1e7f4b1e39ba7, 0xcb4a8192564da374, 0x3416de7a9915a4e5, 0xc25cc25a0d2384b4, 0xa899bd1dabd9a93e, 0x8feca81ba15b9786, 0xc34db072d52655eb, 0xb0db109e207e8db8, 0x826a7cb2aee6b794, 0x65e986bc293f11b0, 0x8ec8b76326c11c74, 0xa3693104acc07e2b, 0x5261bc660b15b2fd, 0xa4e35a4acd22c2cc, 0xc22643d474fe17ea, 0x8612a21461cfec74, 0xf7d43c5d8ce67124, 0x5bef83f8584ea5f5] := by decide

theorem kstep_hasRole_23 :
    keccakRound 23 [0xbdd245382a936efa, 0x2416114d793a75ad, 0x61a303615f94812e, 0xaee1a3bd44c13cf2, 0x57314886f5ecddd9, 0xcf7adf5ff2ec5836, 0x92b3f867b6e356b8, 0xaca1e7f4b1e39ba7, 0xcb4a8192564da374, 0x3416de7a9915a4e5, 0xc25cc25a0d2384b4, 0xa899bd1dabd9a93e, 0x8feca81ba15b9786, 0xc34db072d52655eb, 0xb0db109e207e8db8, 0x826a7cb2aee6b794, 0x65e986bc293f11b0, 0x8ec8b76326c11c74, 0xa3693104acc07e2b, 0x5261bc660b15b2fd, 0xa4e35a4acd22c2cc, 0xc22643d474fe17ea, 0x8612a21461cfec74, 0xf7d43c5d8ce67124, 0x5bef83f8584ea5f5] = [0x9c4648efc6e67f21, 0x968a0062e4d49400, 0x84c50211382e6aec, 0x64b1613a83e3a387, 0x5ae5d5bcdaa4a151, 0xd73f682f46825c1b, 0xeec03eb27c7eaa5f, 0x4420c9c3596172db, 0xa184e4b98c70717f, 0x132ad328ea8e5e38, 0xca82ebbb8fd4a826, 0x7948a891ce678274, 0xe3e57fabbc7f1867, 0x88dbd180b1b95ea8, 0x357285f4a6af7103, 0x5b3a0497c44c8372, 0xe720759ee7d4289d, 0x3c1ad2646cb16a3, 0x45e860ad0d24e9d6, 0x92093416760b3d42, 0xcfd8eb2fde5a2137, 0xa3027f950b760a0c, 0x61a5443f3d390287, 0xfda836575d9ce121, 0x30cc3f5f4928615b] := by decide

theorem selector_hasRole : selector "hasRole(address,string)" = [0x21, 0x7f, 0xe6, 0xc6] := by
  unfold selector keccak256
  rw [show keccakBlocks ((strBytes "hasRole(address,string)").length / 136 + 1) (strBytes "hasRole(address,string)")
        = [[104, 97, 115, 82, 111, 108, 101, 40, 97, 100, 100, 114, 101, 115, 115, 44, 115, 116, 114, 105, 110, 103, 41, 1, 0, 0, 0, 0, 0, 0, 0, 0, 0, 0, 0, 0, 0, 0, 0, 0, 0, 0, 0, 0, 0, 0, 0, 0, 0, 0, 0, 0, 0, 0, 0, 0, 0, 0, 0, 0, 0, 0, 0, 0, 0, 0, 0, 0, 0, 0, 0, 0, 0, 0, 0, 0, 0, 0, 0, 0, 0, 0, 0, 0, 0, 0, 0, 0, 0, 0, 0, 0, 0, 0, 0, 0, 0, 0, 0, 0, 0, 0, 0, 0, 0, 0, 0, 0, 0, 0, 0, 0, 0, 0, 0, 0, 0, 0, 0, 0, 0, 0, 0, 0, 0, 0, 0, 0, 0, 0, 0, 0, 0, 0, 0, 128]] by decide]
  simp only [List.foldl_cons, List.foldl_nil, absorbBlock]
  rw [show xorBlock (List.replicate 25 0) [104, 97, 115, 82, 111, 108, 101, 40, 97, 100, 100, 114, 101, 115, 115, 44, 115, 116, 114, 105, 110, 103, 41, 1, 0, 0, 0, 0, 0, 0, 0, 0, 0, 0, 0, 0, 0, 0, 0, 0, 0, 0, 0, 0, 0, 0, 0, 0, 0, 0, 0, 0, 0, 0, 0, 0, 0, 0, 0, 0, 0, 0, 0, 0, 0, 0, 0, 0, 0, 0, 0, 0, 0, 0, 0, 0, 0, 0, 0, 0, 0, 0, 0, 0, 0, 0, 0, 0, 0, 0, 0, 0, 0, 0, 0, 0, 0, 0, 0, 0, 0, 0, 0, 0, 0, 0, 0, 0, 0, 0, 0, 0, 0, 0, 0, 0, 0, 0, 0, 0, 0, 0, 0, 0, 0, 0, 0, 0, 0, 0, 0, 0, 0, 0, 0, 128] = [0x28656c6f52736168, 0x2c73736572646461, 0x129676e69727473, 0x0, 0x0, 0x0, 0x0, 0x0, 0x0, 0x0, 0x0, 0x0, 0x0, 0x0, 0x0, 0x0, 0x8000000000000000, 0x0, 0x0, 0x0, 0x0, 0x0, 0x0, 0x0, 0x0] by decide]
  rw [keccakF_unfold]
  rw [kstep_hasRole_0, kstep_hasRole_1, kstep_hasRole_2, kstep_hasRole_3, kstep_hasRole_4, kstep_hasRole_5, kstep_hasRole_6, kstep_hasRole_7, kstep_hasRole_8, kstep_hasRole_9, kstep_hasRole_10, kstep_hasRole_11, kstep_hasRole_12, kstep_hasRole_13, kstep_hasRole_14, kstep_hasRole_15, kstep_hasRole_16, kstep_hasRole_17, kstep_hasRole_18, kstep_hasRole_19, kstep_hasRole_20, kstep_hasRole_21, kstep_hasRole_22, kstep_hasRole_23]
  decide

theorem kstep_setBase_0 :
    keccakRound 0 [0x2865736142746573, 0x2c73736572646461, 0x622c3436746e6975, 0x1296c6f6f, 0x0, 0x0, 0x0, 0x0, 0x0, 0x0, 0x0, 0x0, 0x0, 0x0, 0x0, 0x0, 0x8000000000000000, 0x0, 0x0, 0x0, 0x0, 0x0, 0x0, 0x0, 0x0] = [0x1407f48bacb78cb4, 0x89739e4ff5949e28, 0xdce59f439ad92935, 0xc6cd9947a830ec06, 0x32c8e12178620638, 0xf6d5067480608153, 0x7cfad1cad9b4bdeb, 0x263b743f62504418, 0x16a32d86a141f555, 0xfda4b666bc829bfb, 0xe0bcd4c37159f7f1, 0x9edadae52b0f2efb, 0x7de1ccd0c9cc3ae3, 0xca72837d14350d30, 0x876b9a2b2d2b6b91, 0xad0c17a66a165426, 0x451f0c61d36ffca7, 0xb02c1a8a80fe4ff0, 0xb1bf915615ddc72f, 0x35e2a425b21c46e1, 0xf3d511743175f430, 0xab30140b93b6a33d, 0xe236acae47512bf0, 0x9292177198d9b559, 0xb8d46a3ca0a8dd63] := by decide

theorem kstep_setBase_1 :
    keccakRound 1 [0x1407f48bacb78cb4, 0x89739e4ff5949e28, 0xdce59f439ad92935, 0xc6cd9947a830ec06, 0x32c8e12178620638, 0xf6d5067480608153, 0x7cfad1cad9b4bdeb, 0x263b743f62504418, 0x16a32d86a141f555, 0xfda4b666bc829bfb, 0xe0bcd4c37159f7f1, 0x9edadae52b0f2efb, 0x7de1ccd0c9cc3ae3, 0xca72837d14350d30, 0x876b9a2b2d2b6b91, 0xad0c17a66a165426, 0x451f0c61d36ffca7, 0xb02c1a8a80fe4ff0, 0xb1bf915615ddc72f, 0x35e2a425b21c46e1, 0xf3d511743175f430, 0xab30140b93b6a33d, 0xe236acae47512bf0, 0x9292177198d9b559, 0xb8d46a3ca0a8dd63] = [0xdeeff9bd4830e8f6, 0xda87c980652bc128, 0xf53f1a1ff2d76d57, 0xdfe39987b03d9f01, 0xe69ecf4ca6de9d2a, 0x53262c56b98880e3, 0xe21303e8df45dbbe, 0x792645122a55cb84, 0x90251678f86bc74a, 0x22b539d26263a9bb, 0xcb17782a8b530d62, 0xc872a0a4492230a1, 0x3c29565acf2a6a68, 0x625e4a4f8bdff3bf, 0x20759719b2305060, 0xa76fa5a12598b02b, 0x2f2f0ca7b161d346, 0x9fe06f00ca4d55e4, 0xfb79f1e505b8131b, 0x7eddcdc282d98c09, 0xa269c5d374ef9bf, 0x9e05d69972d822ab, 0x2cdcdb13f81746d8, 0x3f7e6cb955c0b53, 0xe2303dd1a2ae7881] := by decide

theorem kstep_setBase_2 :
    keccakRound 2 [0xdeeff9bd4830e8f6, 0xda87c980652bc128, 0xf53f1a1ff2d76d57, 0xdfe39987b03d9f01, 0xe69ecf4ca6de9d2a, 0x53262c56b98880e3, 0xe21303e8df45dbbe, 0x792645122a55cb84, 0x90251678f86bc74a, 0x22b539d26263a9bb, 0xcb17782a8b530d62, 0xc872a0a4492230a1, 0x3c29565acf2a6a68, 0x625e4a4f8bdff3bf, 0x20759719b2305060, 0xa76fa5a12598b02b, 0x2f2f0ca7b161d346, 0x9fe06f00ca4d55e4, 0xfb79f1e505b8131b, 0x7eddcdc282d98c09, 0xa269c5d374ef9bf, 0x9e05d69972d822ab, 0x2cdcdb13f81746d8, 0x3f7e6cb955c0b53, 0xe2303dd1a2ae7881] = [0x87f747cb7f296fb1, 0x58491b85314dfcc, 0x267a16bc22223aca, 0xf531b67c96c06574, 0xa1cd785ee46aa8c2, 0x3303e69680c9d54f, 0x1b7f2f4420400aca, 0xd10ec35e63947871, 0xab157e507e5ad267, 0x788ba89b91c537cf, 0x2811ce7a0cc68782, 0x11e4312f549bd9b0, 0x5687b167a4a9efa9, 0xaa3568014a4253f6, 0x2170307a6bd28c55, 0x510e4ebbe525093a, 0xe5dd58fa94ef4868, 0xf3a8d5e3e9917163, 0xfc696db3fc839a09, 0x8e61ac38a7d599b4, 0x87fb8b657d38bcfd, 0x1f93e76c82b13639, 0x5fdd2d906236bb80, 0x12bccffc93979241, 0xd62cc4b14602c719] := by decide

theorem kstep_setBase_3 :
    keccakRound 3 [0x87f747cb7f296fb1, 0x58491b85314dfcc, 0x267a16bc22223aca, 0xf531b67c96c06574, 0xa1cd785ee46aa8c2, 0x3303e69680c9d54f, 0x1b7f2f4420400aca, 0xd10ec35e63947871, 0xab157e507e5ad267, 0x788ba89b91c537cf, 0x2811ce7a0cc68782, 0x11e4312f549bd9b0, 0x5687b167a4a9efa9, 0xaa3568014a4253f6, 0x2170307a6bd28c55, 0x510e4ebbe525093a, 0xe5dd58fa94ef4868, 0xf3a8d5e3e9917163, 0xfc696db3fc839a09, 0x8e61ac38a7d599b4, 0x87fb8b657d38bcfd, 0x1f93e76c82b13639, 0x5fdd2d906236bb80, 0x12bccffc93979241, 0xd62cc4b14602c719] = [0x470e2f67b78b679e, 0x91d43dea29951a68, 0x4ae0f6b0f8afac57, 0xac2b05fd63776295, 0x541947ee46f48e52, 0x7633d986e9b41aae, 0x711ea764b843e6fb, 0x2441b71682737fc0, 0xc1f47e0cfbfde5fc, 0x3368a54a194ca646, 0xa9300d16527539e3, 0xf5b5571241149504, 0x3eb35b1fc8d59940, 0xa4eba9a7e6c46e22, 0xdbaa7460761ff68d, 0x5576a2208b22447c, 0xd426d71330a4fa19, 0xedc6a788407bc745, 0xd411a364651619a8, 0xdb5e98147382d9ef, 0xf9a00d89a80a8075, 0x75b1325940bbd1d4, 0x148116979a123438, 0x9ac2083c8f4e2eaf, 0x3c6ae394961c9e83] := by decide

theorem kstep_setBase_4 :
    keccakRound 4 [0x470e2f67b78b679e, 0x91d43dea29951a68, 0x4ae0f6b0f8afac57, 0xac2b05fd63776295, 0x541947ee46f48e52, 0x7633d986e9b41aae, 0x711ea764b843e6fb, 0x2441b71682737fc0, 0xc1f47e0cfbfde5fc, 0x3368a54a194ca646, 0xa9300d16527539e3, 0xf5b5571241149504, 0x3eb35b1fc8d59940, 0xa4eba9a7e6c46e22, 0xdbaa7460761ff68d, 0x5576a2208b22447c, 0xd426d71330a4fa19, 0xedc6a788407bc745, 0xd411a364651619a8, 0xdb5e98147382d9ef, 0xf9a00d89a80a8075, 0x75b1325940bbd1d4, 0x148116979a123438, 0x9ac2083c8f4e2eaf, 0x3c6ae394961c9e83] = [0x5f198f863e007854, 0x4115e1e4bb563504, 0xafb50b2d2c480685, 0x7842a03e5719592a, 0xcccfd7431019f0ae, 0xb946c8853f3a3345, 0x6e8f69f79bedcb77, 0xccb9a67fffed6503, 0xe930d04e83a23fe0, 0x337dc8f9029999cd, 0xef6cf579e97950df, 0xd69b7773b0e254e3, 0xd0adbfcee1a5ebfb, 0x2501cf68d92ec6b4, 0xd513942474572e5e, 0xf0613a97c8ca6cbb, 0x69d19ae1408757c6, 0xd4540ac2dea67acb, 0x3ec0d6c1d8432b62, 0xec940c19137b4fe0, 0x1c618b86b045dced, 0xdecdff4393a8e536, 0x6b103fba9192e03e, 0x72c372de922ac68c, 0x8d0af12ffde0aa7e] := by decide

theorem kstep_setBase_5 :
    keccakRound 5 [0x5f198f863e007854, 0x4115e1e4bb563504, 0xafb50b2d2c480685, 0x7842a03e5719592a, 0xcccfd7431019f0ae, 0xb946c8853f3a3345, 0x6e8f69f79bedcb77, 0xccb9a67fffed6503, 0xe930d04e83a23fe0, 0x337dc8f9029999cd, 0xef6cf579e97950df, 0xd69b7773b0e254e3, 0xd0adbfcee1a5ebfb, 0x2501cf68d92ec6b4, 0xd513942474572e5e, 0xf0613a97c8ca6cbb, 0x69d19ae1408757c6, 0xd4540ac2dea67acb, 0x3ec0d6c1d8432b62, 0xec940c19137b4fe0, 0x1c618b86b045dced, 0xdecdff4393a8e536, 0x6b103fba9192e03e, 0x72c372de922ac68c, 0x8d0af12ffde0aa7e] = [0xc31dcefa3028fa5f, 0x10cdd5aa7751c516, 0x6a6c9152e8bb75ed, 0xe96b5c585148b53, 0x2f7dd7e42e62eac7, 0x32eaf0c9462397e8, 0x6abe0fc836c056b9, 0x43d192e5ffed9dca, 0x7a2b92251ec457c4, 0xbaa9bd6efb638c7a, 0x51b059ad86e3531a, 0x91126499d2f9d148, 0x9bc335a2d555180a, 0xdb40c97f9f9113d6, 0xa2a85fd56223ad13, 0x1bf6a65964b7ca7c, 0x4aaa1a7280acabc7, 0x880713c118532e28, 0x4a14ae5468c57d10, 0x42e0489eebf7b712, 0xc50038afa315978, 0xd3dc558135c40230, 0x11183072a6c47279, 0xd1fd9036d2f3768d, 0x9bfb1b86e1f7a87c] := by decide

theorem kstep_setBase_6 :
    keccakRound 6 [0xc31dcefa3028fa5f, 0x10cdd5aa7751c516, 0x6a6c9152e8bb75ed, 0xe96b5c585148b53, 0x2f7dd7e42e62eac7, 0x32eaf0c9462397e8, 0x6abe0fc836c056b9, 0x43d192e5ffed9dca, 0x7a2b92251ec457c4, 0xbaa9bd6efb638c7a, 0x51b059ad86e3531a, 0x91126499d2f9d148, 0x9bc335a2d555180a, 0xdb40c97f9f9113d6, 0xa2a85fd56223ad13, 0x1bf6a65964b7ca7c, 0x4aaa1a7280acabc7, 0x880713c118532e28, 0x4a14ae5468c57d10, 0x42e0489eebf7b712, 0xc50038afa315978, 0xd3dc558135c40230, 0x11183072a6c47279, 0xd1fd9036d2f3768d, 0x9bfb1b86e1f7a87c] = [0xc8945eab60097c5b, 0x56164a39caf9a91a, 0xc385345fab62cc7c, 0x27a8c8a79db4bfda, 0x21d2e0c75398f20b, 0x877a3ba86f931ede, 0xb0898cb13f3277c3, 0xdfe2e7d3bf838fd0, 0xa3cac59bfe7cf639, 0x31e548012fc9633a, 0x67de7953d66c66af, 0x69fcfc28499fd98f, 0xa552846c7419de42, 0xd794a89fdd24fd94, 0x754a8e16ef38072, 0x9c5062be3335701c, 0x518050cb8c6741f7, 0x96103317e10447a3, 0xabd920fc66611d10, 0x102f424897d62b90, 0x1c0dbc305514d4d1, 0x35c6f226c64c0e82, 0x86f78c7c3d8e1984, 0x3d91384b18d41d7a, 0xcb3cb0070807d7ac] := by decide

theorem kstep_setBase_7 :
    keccakRound 7 [0xc8945eab60097c5b, 0x56164a39caf9a91a, 0xc385345fab62cc7c, 0x27a8c8a79db4bfda, 0x21d2e0c75398f20b, 0x877a3ba86f931ede, 0xb0898cb13f3277c3, 0xdfe2e7d3bf838fd0, 0xa3cac59bfe7cf639, 0x31e548012fc9633a, 0x67de7953d66c66af, 0x69fcfc28499fd98f, 0xa552846c7419de42, 0xd794a89fdd24fd94, 0x754a8e16ef38072, 0x9c5062be3335701c, 0x518050cb8c6741f7, 0x96103317e10447a3, 0xabd920fc66611d10, 0x102f424897d62b90, 0x1c0dbc305514d4d1, 0x35c6f226c64c0e82, 0x86f78c7c3d8e1984, 0x3d91384b18d41d7a, 0xcb3cb0070807d7ac] = [0xf85f1e504384c17c, 0x15037c349d3492c1, 0xcdd177541b3cc284, 0x45c0e8085d35d24, 0x672bcd5850ec1916, 0x3696c66a506928f7, 0xa5923b16eea4947, 0xff285587be00daaa, 0xeff26765c861f126, 0x94dcec5227ea0733, 0x5bcab1e91f93119d, 0xae89edd273f9f2ab, 0x3bf3718fc2ed5711, 0x4acac0a838cd4681, 0x5f0d9e74e7ccfafb, 0x657af02cee45d48b, 0xc9e677add41b8494, 0xd7bba62ab7d9ee48, 0x5bda9beeffdc45e7, 0xcc88ac7501a44034, 0x28c5f587ef2bbb11, 0xf7c975e027acee72, 0x8a9b56f918700132, 0x70de390e254382a5, 0xbf338fdc057ce33d] := by decide

theorem kstep_setBase_8 :
    keccakRound 8 [0xf85f1e504384c17c, 0x15037c349d3492c1, 0xcdd177541b3cc284, 0x45c0e8085d35d24, 0x672bcd5850ec1916, 0x3696c66a506928f7, 0xa5923b16eea4947, 0xff285587be00daaa, 0xeff26765c861f126, 0x94dcec5227ea0733, 0x5bcab1e91f93119d, 0xae89edd273f9f2ab, 0x3bf3718fc2ed5711, 0x4acac0a838cd4681, 0x5f0d9e74e7ccfafb, 0x657af02cee45d48b, 0xc9e677add41b8494, 0xd7bba62ab7d9ee48, 0x5bda9beeffdc45e7, 0xcc88ac7501a44034, 0x28c5f587ef2bbb11, 0xf7c975e027acee72, 0x8a9b56f918700132, 0x70de390e254382a5, 0xbf338fdc057ce33d] = [0x7afd2ab74e8411f3, 0xa86527a2018d6730, 0x2c5ac12446ff367f, 0x1104729d41302e54, 0x5620792778700f0a, 0xd5abf6fcfeb5be6, 0xf0993590d42bbd50, 0xdb96c045610a8cec, 0x4e3a562903f2117f, 0xb295fea71694a72e, 0xdb55acf442eacdaa, 0x8572b980b43290db, 0x343172935f45c7b5, 0x5a3ba63665eae6fd, 0x21ba6165795791e5, 0xad293c5e72f58f99, 0x351b833bf9e3a890, 0xcc10e59b6453aed5, 0xa094c598ab20a613, 0x5f0cf4822ec73faf, 0x1547640545f9b6b3, 0x8e032bb7268d15fd, 0x167c79a66382f469, 0xef13934a80d28d1b, 0x7e81f3e44b30ed9e] := by decide

theorem kstep_setBase_9 :
    keccakRound 9 [0x7afd2ab74e8411f3, 0xa86527a2018d6730, 0x2c5ac12446ff367f, 0x1104729d41302e54, 0x5620792778700f0a, 0xd5abf6fcfeb5be6, 0xf0993590d42bbd50, 0xdb96c045610a8cec, 0x4e3a562903f2117f, 0xb295fea71694a72e, 0xdb55acf442eacdaa, 0x8572b980b43290db, 0x343172935f45c7b5, 0x5a3ba63665eae6fd, 0x21ba6165795791e5, 0xad293c5e72f58f99, 0x351b833bf9e3a890, 0xcc10e59b6453aed5, 0xa094c598ab20a613, 0x5f0cf4822ec73faf, 0x1547640545f9b6b3, 0x8e032bb7268d15fd, 0x167c79a66382f469, 0xef13934a80d28d1b, 0x7e81f3e44b30ed9e] = [0x1732f44577d7727, 0x2ccf1c70a1b19dfb, 0x87fe1c890658e882, 0x28271d4bcc2b10bc, 0xfddafb8c70180f0e, 0x5bfdc5e29e4b48e4, 0x89ab17d6088d02be, 0xe343805172dfef37, 0xa2627f463ba5f50, 0xfcbfca57193daeda, 0xe111329a1b9d7336, 0x158cf3393c7a1a2, 0xf6f1040dcc19ff97, 0xa6f22f5f1ab1573d, 0xfa7ed434bde732e, 0xf4f5c85e512cb1ff, 0x86a7baa4551f9c5c, 0x7420a0c86485cab7, 0x23c2a98e2efb5ec1, 0x613fb41f8d5a327d, 0x3af2522eb85fe90b, 0x25fd4357fc80dc0, 0x69ef5cd1b0337c4e, 0xd817818f07d348ff, 0x26ff5069f31b9502] := by decide

theorem kstep_setBase_10 :
    keccakRound 10 [0x1732f44577d7727, 0x2ccf1c70a1b19dfb, 0x87fe1c890658e882, 0x28271d4bcc2b10bc, 0xfddafb8c70180f0e, 0x5bfdc5e29e4b48e4, 0x89ab17d6088d02be, 0xe343805172dfef37, 0xa2627f463ba5f50, 0xfcbfca57193daeda, 0xe111329a1b9d7336, 0x158cf3393c7a1a2, 0xf6f1040dcc19ff97, 0xa6f22f5f1ab1573d, 0xfa7ed434bde732e, 0xf4f5c85e512cb1ff, 0x86a7baa4551f9c5c, 0x7420a0c86485cab7, 0x23c2a98e2efb5ec1, 0x613fb41f8d5a327d, 0x3af2522eb85fe90b, 0x25fd4357fc80dc0, 0x69ef5cd1b0337c4e, 0xd817818f07d348ff, 0x26ff5069f31b9502] = [0x2bb152e22db08d5c, 0xc926ea8f79c1a626, 0x4269934342567329, 0x9267357d6103d8f3, 0x2a448a39bcbbce1a, 0xfd87a8f5ebda40ad, 0x90c2245c877a9e47, 0x589253c3eaf32b22, 0x63ae57d3267416d2, 0x7484f1aad32573cf, 0x1a8b529c552a2ea, 0x52d441949ad7740e, 0x4dbdcb74d096a374, 0x2d8d4b6e6606b0ef, 0x8977526531658de1, 0xbdcc85cf13ce23b6, 0xa021b69b763941e, 0x1f538d413f72db06, 0xb89fa717bc053546, 0x2cc7a8a4bbf21fa5, 0xe57d921703391a89, 0xcc9ec8a9571a1376, 0x132a87cbd8a81cd0, 0xcb6d99a977d0765b, 0xa3873f0e014070ad] := by decide

theorem kstep_setBase_11 :
    keccakRound 11 [0x2bb152e22db08d5c, 0xc926ea8f79c1a626, 0x4269934342567329, 0x9267357d6103d8f3, 0x2a448a39bcbbce1a, 0xfd87a8f5ebda40ad, 0x90c2245c877a9e47, 0x589253c3eaf32b22, 0x63ae57d3267416d2, 0x7484f1aad32573cf, 0x1a8b529c552a2ea, 0x52d441949ad7740e, 0x4dbdcb74d096a374, 0x2d8d4b6e6606b0ef, 0x8977526531658de1, 0xbdcc85cf13ce23b6, 0xa021b69b763941e, 0x1f538d413f72db06, 0xb89fa717bc053546, 0x2cc7a8a4bbf21fa5, 0xe57d921703391a89, 0xcc9ec8a9571a1376, 0x132a87cbd8a81cd0, 0xcb6d99a977d0765b, 0xa3873f0e014070ad] = [0xe892f1d389da406d, 0x7912539d25c67347, 0xfcfcb6f3e5cdf00e, 0x520d2b77b378499f, 0xf56e39168e69fe0b, 0xa35b97a36f087c81, 0xb6c1e5d4057057e4, 0x102dcb455893fa4e, 0x742f876a6eaf136e, 0x40bd3eea316ab7ca, 0xa28df128bfb108ec, 0xb9846a7c6ba6e522, 0x273536d7bee3a2f, 0x8fe25676699f3f3c, 0x4113b3290eee7b58, 0x5fea2ce40db860ea, 0x901918e77618fc21, 0x144e363b634d489a, 0xae11b50fb50e06c9, 0xaa212ce78c2231f4, 0x5a2078c6010098d6, 0x5195bd758a3d97cb, 0xa9a47d9d67e2abfe, 0x79d53afac7c7391f, 0xd6facdd8e624f70b] := by decide

theorem kstep_setBase_12 :
    keccakRound 12 [0xe892f1d389da406d, 0x7912539d25c67347, 0xfcfcb6f3e5cdf00e, 0x520d2b77b378499f, 0xf56e39168e69fe0b, 0xa35b97a36f087c81, 0xb6c1e5d4057057e4, 0x102dcb455893fa4e, 0x742f876a6eaf136e, 0x40bd3eea316ab7ca, 0xa28df128bfb108ec, 0xb9846a7c6ba6e522, 0x273536d7bee3a2f, 0x8fe25676699f3f3c, 0x4113b3290eee7b58, 0x5fea2ce40db860ea, 0x901918e77618fc21, 0x144e363b634d489a, 0xae11b50fb50e06c9, 0xaa212ce78c2231f4, 0x5a2078c6010098d6, 0x5195bd758a3d97cb, 0xa9a47d9d67e2abfe, 0x79d53afac7c7391f, 0xd6facdd8e624f70b] = [0x871c4776bc50c251, 0x7704e74f5f3558a8, 0x4227304d0a0dea1e, 0x74eb4df591fd0d6b, 0x8f6c0a4d4fdf4179, 0xdd693f0d90163eff, 0x4ac486c7f8aeee59, 0x450c38c8581f60ea, 0x12e07945f229dcb6, 0x7c4a3d22a132f6b4, 0x66303c38bcc40bfb, 0xff517638a95b82da, 0xfd38fc0914955903, 0x3ecfa9d81cb396c5, 0xe00891c0e0a7f233, 0xa618cd0a4a8f9dd1, 0x3addcb106e209c6d, 0x60a5f5a95aac23ce, 0xf450fcbe23621f9f, 0xd1bfa9f057d20f2e, 0x458fdc4973debbb5, 0x459b8aa46b1931d4, 0xe272ddf265435535, 0xf041bf7a9f8c8b60, 0x7e3ef375ef66f784] := by decide

theorem kstep_setBase_13 :
    keccakRound 13 [0x871c4776bc50c251, 0x7704e74f5f3558a8, 0x4227304d0a0dea1e, 0x74eb4df591fd0d6b, 0x8f6c0a4d4fdf4179, 0xdd693f0d90163eff, 0x4ac486c7f8aeee59, 0x450c38c8581f60ea, 0x12e07945f229dcb6, 0x7c4a3d22a132f6b4, 0x66303c38bcc40bfb, 0xff517638a95b82da, 0xfd38fc0914955903, 0x3ecfa9d81cb396c5, 0xe00891c0e0a7f233, 0xa618cd0a4a8f9dd1, 0x3addcb106e209c6d, 0x60a5f5a95aac23ce, 0xf450fcbe23621f9f, 0xd1bfa9f057d20f2e, 0x458fdc4973debbb5, 0x459b8aa46b1931d4, 0xe272ddf265435535, 0xf041bf7a9f8c8b60, 0x7e3ef375ef66f784] = [0xf835eed61d45686a, 0xc3d30679f1e28302, 0x1b4afec8003aa2c3, 0x78ffefc1b03f15b, 0x66b41fdbc322b549, 0x795eed3c6b130ad6, 0xd89393c873ba3114, 0x358a2495d74c051c, 0xfe8bb8c6b5c436, 0xbc60d615ed3ddc4d, 0x12be1f40c8478708, 0x16f9f4300157afb0, 0x85324e9ac37ea912, 0x4ccd4945f4132f32, 0x7dafab79e20222aa, 0x2cbfda8fab01e6f3, 0x94ab28c3ac0ec2db, 0x6aebcb519465c654, 0x8d746a270da9d0cf, 0xd4f1dafbfc0d0954, 0xd5d6b4c53db955a8, 0x89afbdece0fb1f46, 0xefc143a97cb61c98, 0x14b1260612ab05d7, 0xa7089102022ca1f4] := by decide

theorem kstep_setBase_14 :
    keccakRound 14 [0xf835eed61d45686a, 0xc3d30679f1e28302, 0x1b4afec8003aa2c3, 0x78ffefc1b03f15b, 0x66b41fdbc322b549, 0x795eed3c6b130ad6, 0xd89393c873ba3114, 0x358a2495d74c051c, 0xfe8bb8c6b5c436, 0xbc60d615ed3ddc4d, 0x12be1f40c8478708, 0x16f9f4300157afb0, 0x85324e9ac37ea912, 0x4ccd4945f4132f32, 0x7dafab79e20222aa, 0x2cbfda8fab01e6f3, 0x94ab28c3ac0ec2db, 0x6aebcb519465c654, 0x8d746a270da9d0cf, 0xd4f1dafbfc0d0954, 0xd5d6b4c53db955a8, 0x89afbdece0fb1f46, 0xefc143a97cb61c98, 0x14b1260612ab05d7, 0xa7089102022ca1f4] = [0x9ecc0fc7b2ce0a9f, 0xccfd1e89edb52e2a, 0x1e95298dca498b0c, 0x9c5687f9da655614, 0x10b094e3dca182a, 0xf81c4c2478313a86, 0x3ad8a8ef2d433a34, 0xb24ff0133ff743c2, 0x778cc060ec4e9ca2, 0x8c316a637e8aec55, 0x652ff9ee4078fbd0, 0x414a075cde3f27f0, 0xcfc9223a5e962223, 0xd8eb8397f8d3b691, 0xc31a47d1e546809d, 0x4f7e9bbfa6088852, 0x44a39ac08242d9ac, 0x56fadb4184cf7482, 0x7bfb09fe4e75cb12, 0xeb136d28edf85bbb, 0x1617214fab3bb1d, 0x15489760058f3be6, 0x9124d1f1149dca60, 0x904b35b3a415411c, 0xee8d5caec29b864c] := by decide

theorem kstep_setBase_15 :
    keccakRound 15 [0x9ecc0fc7b2ce0a9f, 0xccfd1e89edb52e2a, 0x1e95298dca498b0c, 0x9c5687f9da655614, 0x10b094e3dca182a, 0xf81c4c2478313a86, 0x3ad8a8ef2d433a34, 0xb24ff0133ff743c2, 0x778cc060ec4e9ca2, 0x8c316a637e8aec55, 0x652ff9ee4078fbd0, 0x414a075cde3f27f0, 0xcfc9223a5e962223, 0xd8eb8397f8d3b691, 0xc31a47d1e546809d, 0x4f7e9bbfa6088852, 0x44a39ac08242d9ac, 0x56fadb4184cf7482, 0x7bfb09fe4e75cb12, 0xeb136d28edf85bbb, 0x1617214fab3bb1d, 0x15489760058f3be6, 0x9124d1f1149dca60, 0x904b35b3a415411c, 0xee8d5caec29b864c] = [0x902f47884bc3a4e5, 0xf5aa8bf3b51e11d2, 0x18fea6c473635654, 0x5bff9999af4909da, 0xa66882fc904e736b, 0x873dcc02525d7da5, 0x17fd66aeb244b713, 0xb414feab603396c5, 0x560fac190703a550, 0xa81651011d959cf0, 0x1c8d9a0e93bacde7, 0x603f21ffe0978771, 0xc4efc47badd4b5e0, 0xd2327e6503a47e8f, 0x1b4f068fa5031f40, 0xc7a118a06f5ff3b2, 0x3cf7afa3ca900616, 0xf6da19798fd88155, 0xcfa6aa6d0ca8d20e, 0x9f1ffe9d22da04b, 0x420559246b932d8c, 0x4ba61f1e52817fc5, 0xd70b5e68299c6272, 0x5b041dd7d16de038, 0x456e9d33157d7fbd] := by decide

theorem kstep_setBase_16 :
    keccakRound 16 [0x902f47884bc3a4e5, 0xf5aa8bf3b51e11d2, 0x18fea6c473635654, 0x5bff9999af4909da, 0xa66882fc904e736b, 0x873dcc02525d7da5, 0x17fd66aeb244b713, 0xb414feab603396c5, 0x560fac190703a550, 0xa81651011d959cf0, 0x1c8d9a0e93bacde7, 0x603f21ffe0978771, 0xc4efc47badd4b5e0, 0xd2327e6503a47e8f, 0x1b4f068fa5031f40, 0xc7a118a06f5ff3b2, 0x3cf7afa3ca900616, 0xf6da19798fd88155, 0xcfa6aa6d0ca8d20e, 0x9f1ffe9d22da04b, 0x420559246b932d8c, 0x4ba61f1e52817fc5, 0xd70b5e68299c6272, 0x5b041dd7d16de038, 0x456e9d33157d7fbd] = [0x8b9e050659f72a2d, 0xd30222a5b84a64d3, 0xc92d3d9838af91ee, 0xc4996f1d59169ee2, 0xe45b3f0162a7044e, 0xfc81141d6a4762b1, 0xd1f726d63e2ade92, 0xb814b7950a10412d, 0x3c05e028e1202e2f, 0xf7e819bba24a6f4e, 0xd0f0b2b314bfa84f, 0x7f3d942c3f87b87f, 0x7bc0a16b0e5bf3b4, 0x6793a6c9c3b163d5, 0x71c7ee82239bd754, 0x86dc713fee0ef647, 0x6e3e2ef34a307345, 0x871e54fffa93a4de, 0x4db02e3bd0210844, 0x14a389698306b428, 0xe60a8bb703733d5, 0x2c1ed3c4f4e26dae, 0x7cb6643529ad6be6, 0xd8d8b860b2b67cea, 0xf8c5a757b1622fe3] := by decide

theorem kstep_setBase_17 :
    keccakRound 17 [0x8b9e050659f72a2d, 0xd30222a5b84a64d3, 0xc92d3d9838af91ee, 0xc4996f1d59169ee2, 0xe45b3f0162a7044e, 0xfc81141d6a4762b1, 0xd1f726d63e2ade92, 0xb814b7950a10412d, 0x3c05e028e1202e2f, 0xf7e819bba24a6f4e, 0xd0f0b2b314bfa84f, 0x7f3d942c3f87b87f, 0x7bc0a16b0e5bf3b4, 0x6793a6c9c3b163d5, 0x71c7ee82239bd754, 0x86dc713fee0ef647, 0x6e3e2ef34a307345, 0x871e54fffa93a4de, 0x4db02e3bd0210844, 0x14a389698306b428, 0xe60a8bb703733d5, 0x2c1ed3c4f4e26dae, 0x7cb6643529ad6be6, 0xd8d8b860b2b67cea, 0xf8c5a757b1622fe3] = [0x975c13d79f8f7cc8, 0x906750b024be258f, 0x75282e85adbb8ada, 0x7307b2a5609e0c87, 0xbb0ab687d085ea83, 0xc8cee3df7a8b5acb, 0x541f973987ea7693, 0x83b479ac5dba91d8, 0x70dff560ec781d16, 0xcee23ee266b7071f, 0x2cf24ca1b78278d8, 0xee2b6ca7f14cb524, 0xc028b795ce972c68, 0x4e82d56972491c50, 0x91bf9d72f7877bae, 0xd84efa6fd480d1e7, 0xd3ff4ac33e93dcaf, 0x2b746d48115a8e08, 0xc326b4c3efb3453c, 0x9984ac6fc1cd44c7, 0xa8978bef806e60b5, 0x23a87c77f85f2f04, 0x71b32a12c256bfa5, 0x95d065c7bef36276, 0x80d64ad60d164e81] := by decide

theorem kstep_setBase_18 :
    keccakRound 18 [0x975c13d79f8f7cc8, 0x906750b024be258f, 0x75282e85adbb8ada, 0x7307b2a5609e0c87, 0xbb0ab687d085ea83, 0xc8cee3df7a8b5acb, 0x541f973987ea7693, 0x83b479ac5dba91d8, 0x70dff560ec781d16, 0xcee23ee266b7071f, 0x2cf24ca1b78278d8, 0xee2b6ca7f14cb524, 0xc028b795ce972c68, 0x4e82d56972491c50, 0x91bf9d72f7877bae, 0xd84efa6fd480d1e7, 0xd3ff4ac33e93dcaf, 0x2b746d48115a8e08, 0xc326b4c3efb3453c, 0x9984ac6fc1cd44c7, 0xa8978bef806e60b5, 0x23a87c77f85f2f04, 0x71b32a12c256bfa5, 0x95d065c7bef36276, 0x80d64ad60d164e81] = [0x5c76fa479f6b6b95, 0x6d495e70535dde79, 0x8baf486ba9eef42c, 0x1513cecb73436347, 0x45c22b3a2ed23322, 0xe70db26a0c55a320, 0xb18d589b096da3fe, 0x3ffcc7db9a0d7fdf, 0xfb51034a7509c78, 0x31dae8e01039f3a, 0x9371a0a9a2442f30, 0xe06d58c7ae345ddf, 0xa18a1ec5f1bb7543, 0xc956b16a53f55795, 0x25d8cbe753abd626, 0xf8bcdcc89462a3eb, 0xcc9e38803a20d74d, 0x97bb0cb55955989d, 0x985dbdf0e670e837, 0x5c41a9257449a058, 0xa6990517898e32bd, 0x1c7b33fae9c83751, 0x3fd5898aa0285025, 0x88c96c318dc5aa70, 0xfbb9a884f00eb90f] := by decide

theorem kstep_setBase_19 :
    keccakRound 19 [0x5c76fa479f6b6b95, 0x6d495e70535dde79, 0x8baf486ba9eef42c, 0x1513cecb73436347, 0x45c22b3a2ed23322, 0xe70db26a0c55a320, 0xb18d589b096da3fe, 0x3ffcc7db9a0d7fdf, 0xfb51034a7509c78, 0x31dae8e01039f3a, 0x9371a0a9a2442f30, 0xe06d58c7ae345ddf, 0xa18a1ec5f1bb7543, 0xc956b16a53f55795, 0x25d8cbe753abd626, 0xf8bcdcc89462a3eb, 0xcc9e38803a20d74d, 0x97bb0cb55955989d, 0x985dbdf0e670e837, 0x5c41a9257449a058, 0xa6990517898e32bd, 0x1c7b33fae9c83751, 0x3fd5898aa0285025, 0x88c96c318dc5aa70, 0xfbb9a884f00eb90f] = [0x40153b099127183b, 0x5372ca6fc01147bb, 0x971ef6441bb9e557, 0xcbe5abe21d9b0ad3, 0xc69b5198ab81702a, 0x13b1e109ea1180d6, 0xa7ca97cac73b4a6c, 0x3ab82bbca6c26624, 0x98b0310aa438685f, 0x6ee012ceaeee2a96, 0x4110db389f63a716, 0x2e3f0b98739f9117, 0xb316d64dcaad6fd, 0x3b65c19524a61377, 0x9f4ff9aa05eefbfa, 0xc4dd4a734a4fc30a, 0xb9b55c03f0247b40, 0x181ca333395af7f4, 0x56e43a0f07903b3b, 0x90bc84eb2ae6aa1b, 0xd22a98e525a0f82d, 0x551dff054bc62bb2, 0x2a001e93390b10fb, 0xb48207e8a7da6467, 0x457dcede0446b1de] := by decide

theorem kstep_setBase_20 :
    keccakRound 20 [0x40153b099127183b, 0x5372ca6fc01147bb, 0x971ef6441bb9e557, 0xcbe5abe21d9b0ad3, 0xc69b5198ab81702a, 0x13b1e109ea1180d6, 0xa7ca97cac73b4a6c, 0x3ab82bbca6c26624, 0x98b0310aa438685f, 0x6ee012ceaeee2a96, 0x4110db389f63a716, 0x2e3f0b98739f9117, 0xb316d64dcaad6fd, 0x3b65c19524a61377, 0x9f4ff9aa05eefbfa, 0xc4dd4a734a4fc30a, 0xb9b55c03f0247b40, 0x181ca333395af7f4, 0x56e43a0f07903b3b, 0x90bc84eb2ae6aa1b, 0xd22a98e525a0f82d, 0x551dff054bc62bb2, 0x2a001e93390b10fb, 0xb48207e8a7da6467, 0x457dcede0446b1de] = [0x56bb20f3a3a3a95e, 0xc6b8729bf0e16868, 0x19fc00cdf2bb5a2a, 0x181e6a5f97a9fa8e, 0x3c65397b1f0b1cb, 0x8f438cf47ec878f6, 0xb299bfdcd80c530c, 0x7dd60872fe6c6fae, 0xe1567a985a9ab357, 0xf18825d3118ed339, 0x8c7c045a315444d0, 0x781c8c4dff4d246, 0x76189b12c0f4785a, 0x99452f40cdd908da, 0xbeebc3fa980e004, 0xfe0cca5da862548a, 0xed6c6518f1bb2637, 0x8b68984ed75920ad, 0xd19656591b64d94f, 0xe017c3eb1707b2d6, 0xaf6d6112e68c1f0a, 0xede5607ef2ed74b7, 0x8ace73c6ce481697, 0x8f84fa060ca98fff, 0xa1a053201db5c960] := by decide

theorem kstep_setBase_21 :
    keccakRound 21 [0x56bb20f3a3a3a95e, 0xc6b8729bf0e16868, 0x19fc00cdf2bb5a2a, 0x181e6a5f97a9fa8e, 0x3c65397b1f0b1cb, 0x8f438cf47ec878f6, 0xb299bfdcd80c530c, 0x7dd60872fe6c6fae, 0xe1567a985a9ab357, 0xf18825d3118ed339, 0x8c7c045a315444d0, 0x781c8c4dff4d246, 0x76189b12c0f4785a, 0x99452f40cdd908da, 0xbeebc3fa980e004, 0xfe0cca5da862548a, 0xed6c6518f1bb2637, 0x8b68984ed75920ad, 0xd19656591b64d94f, 0xe017c3eb1707b2d6, 0xaf6d6112e68c1f0a, 0xede5607ef2ed74b7, 0x8ace73c6ce481697, 0x8f84fa060ca98fff, 0xa1a053201db5c960] = [0xa0ba49407952870e, 0xd73ac13744dc180b, 0xbf42b1cc2d6a98db, 0x6bd131ea056647d1, 0xe6b6d3d95c40bd9c, 0x354aee36f7a85855, 0x42c43077b56c4cda, 0xa1d1fb0c943f56ec, 0x45a0dcf8a7fa7510, 0x721f1a13628d15c0, 0xc0df27879429a7f1, 0x7049db8d9b76da8f, 0x239cc4393bd6bfe4, 0xc01d14c4339897c6, 0xd9a4fd364f6d9cac, 0x775bb08c46201e33, 0x1ebeef8d487d7ad7, 0xb08e4f4e0626d891, 0x1a9e06645a145e0e, 0x9a487116539262ce, 0x79e88621b3ed2db, 0x78d16a1b6ce6941f, 0x9a27630175d5d365, 0xe6ad9c20912ccd27, 0x20e33a860da17e1b] := by decide

theorem kstep_setBase_22 :
    keccakRound 22 [0xa0ba49407952870e, 0xd73ac13744dc180b, 0xbf42b1cc2d6a98db, 0x6bd131ea056647d1, 0xe6b6d3d95c40bd9c, 0x354aee36f7a85855, 0x42c43077b56c4cda, 0xa1d1fb0c943f56ec, 0x45a0dcf8a7fa7510, 0x721f1a13628d15c0, 0xc0df27879429a7f1, 0x7049db8d9b76da8f, 0x239cc4393bd6bfe4, 0xc01d14c4339897c6, 0xd9a4fd364f6d9cac, 0x775bb08c46201e33, 0x1ebeef8d487d7ad7, 0xb08e4f4e0626d891, 0x1a9e06645a145e0e, 0x9a487116539262ce, 0x79e88621b3ed2db, 0x78d16a1b6ce6941f, 0x9a27630175d5d365, 0xe6ad9c20912ccd27, 0x20e33a860da17e1b] = [0xddbd78bb8b59480c, 0x508becce34cc1984, 0x97994226d542265f, 0x51fbc0d4ce0f6e8f, 0x4a0ab205bcac4f5a, 0x4eb30692d133f051, 0x9ae032a6b4ff3172, 0x66e03385e9a2759c, 0xf4864132a5e59a2, 0x76e0514bf77e12f5, 0xeb2179ab9383d61f, 0x2fa4fe5fa79a89c3, 0x71bb9d239e3274b5, 0xdb7ae205359c44ca, 0xa226240ceb5bd7a6, 0x1ccfd7389fdbe728, 0x4b1b17dcd5d97cd0, 0xf09dfd396a787de8, 0xb7d9c6185bed0ff4, 0xb0e47040e3b6223, 0x728346ce1a0ec44, 0xacd0d14ec304768d, 0xad710be1317a1d48, 0x15ef554649f208ea, 0x718cdca72d2b4266] := by decide

theorem kstep_setBase_23 :
    keccakRound 23 [0xddbd78bb8b59480c, 0x508becce34cc1984, 0x97994226d542265f, 0x51fbc0d4ce0f6e8f, 0x4a0ab205bcac4f5a, 0x4eb30692d133f051, 0x9ae032a6b4ff3172, 0x66e03385e9a2759c, 0xf4864132a5e59a2, 0x76e0514bf77e12f5, 0xeb2179ab9383d61f, 0x2fa4fe5fa79a89c3, 0x71bb9d239e3274b5, 0xdb7ae205359c44ca, 0xa226240ceb5bd7a6, 0x1ccfd7389fdbe728, 0x4b1b17dcd5d97cd0, 0xf09dfd396a787de8, 0xb7d9c6185bed0ff4, 0xb0e47040e3b6223, 0x728346ce1a0ec44, 0xacd0d14ec304768d, 0xad710be1317a1d48, 0x15ef554649f208ea, 0x718cdca72d2b4266] = [0xbdfa80d0eaa8d4db, 0x7dfb9436df5c1b24, 0x11b079d66e855957, 0xbdaee8c3977d5dec, 0x7020b4507b34ef74, 0xfb1c87dd16d4822c, 0xf76d8adaad6f4ac1, 0x5726488d97995dda, 0xd1c4f541fcf7e639, 0x58b070cd71fc233a, 0x2b3e01fae2edf60e, 0x8696875718cdc7e2, 0xaa92fcef09be8997, 0x60794db06d40e4ea, 0x53dd85455f639c3e, 0x600af48bfdd72539, 0x1c72c08af1792fb0, 0x65b8f22c618b02d0, 0x58d06c5d3ff97ad3, 0xa13055a6dfbf4399, 0xf6a8036eb8f09933, 0x768e153bd4eb7ef9, 0x57b485a7284e4ea3, 0x74bfeab190a9affd, 0xd51578a758d036bd] := by decide

theorem selector_setBase : selector "setBase(address,uint64,bool)" = [0xdb, 0xd4, 0xa8, 0xea] := by
  unfold selector keccak256
  rw [show keccakBlocks ((strBytes "setBase(address,uint64,bool)").length / 136 + 1) (strBytes "setBase(address,uint64,bool)")
        = [[115, 101, 116, 66, 97, 115, 101, 40, 97, 100, 100, 114, 101, 115, 115, 44, 117, 105, 110, 116, 54, 52, 44, 98, 111, 111, 108, 41, 1, 0, 0, 0, 0, 0, 0, 0, 0, 0, 0, 0, 0, 0, 0, 0, 0, 0, 0, 0, 0, 0, 0, 0, 0, 0, 0, 0, 0, 0, 0, 0, 0, 0, 0, 0, 0, 0, 0, 0, 0, 0, 0, 0, 0, 0, 0, 0, 0, 0, 0, 0, 0, 0, 0, 0, 0, 0, 0, 0, 0, 0, 0, 0, 0, 0, 0, 0, 0, 0, 0, 0, 0, 0, 0, 0, 0, 0, 0, 0, 0, 0, 0, 0, 0, 0, 0, 0, 0, 0, 0, 0, 0, 0, 0, 0, 0, 0, 0, 0, 0, 0, 0, 0, 0, 0, 0, 128]] by decide]
  simp only [List.foldl_cons, List.foldl_nil, absorbBlock]
  rw [show xorBlock (List.replicate 25 0) [115, 101, 116, 66, 97, 115, 101, 40, 97, 100, 100, 114, 101, 115, 115, 44, 117, 105, 110, 116, 54, 52, 44, 98, 111, 111, 108, 41, 1, 0, 0, 0, 0, 0, 0, 0, 0, 0, 0, 0, 0, 0, 0, 0, 0, 0, 0, 0, 0, 0, 0, 0, 0, 0, 0, 0, 0, 0, 0, 0, 0, 0, 0, 0, 0, 0, 0, 0, 0, 0, 0, 0, 0, 0, 0, 0, 0, 0, 0, 0, 0, 0, 0, 0, 0, 0, 0, 0, 0, 0, 0, 0, 0, 0, 0, 0, 0, 0, 0, 0, 0, 0, 0, 0, 0, 0, 0, 0, 0, 0, 0, 0, 0, 0, 0, 0, 0, 0, 0, 0, 0, 0, 0, 0, 0, 0, 0, 0, 0, 0, 0, 0, 0, 0, 0, 128] = [0x2865736142746573, 0x2c73736572646461, 0x622c3436746e6975, 0x1296c6f6f, 0x0, 0x0, 0x0, 0x0, 0x0, 0x0, 0x0, 0x0, 0x0, 0x0, 0x0, 0x0, 0x8000000000000000, 0x0, 0x0, 0x0, 0x0, 0x0, 0x0, 0x0, 0x0] by decide]
  rw [keccakF_unfold]
  rw [kstep_setBase_0, kstep_setBase_1, kstep_setBase_2, kstep_setBase_3, kstep_setBase_4, kstep_setBase_5, kstep_setBase_6, kstep_setBase_7, kstep_setBase_8, kstep_setBase_9, kstep_setBase_10, kstep_setBase_11, kstep_setBase_12, kstep_setBase_13, kstep_setBase_14, kstep_setBase_15, kstep_setBase_16, kstep_setBase_17, kstep_setBase_18, kstep_setBase_19, kstep_setBase_20, kstep_setBase_21, kstep_setBase_22, kstep_setBase_23]
  decide

theorem kstep_unsetBase_0 :
    keccakRound 0 [0x7361427465736e75, 0x7365726464612865, 0x3436746e69752c73, 0x129, 0x0, 0x0, 0x0, 0x0, 0x0, 0x0, 0x0, 0x0, 0x0, 0x0, 0x0, 0x0, 0x8000000000000000, 0x0, 0x0, 0x0, 0x0, 0x0, 0x0, 0x0, 0x0] = [0x9dbb28b78ca01ebd, 0x17e531945ece0fb5, 0x2963af831a835a13, 0x994caaa186e780c0, 0xa37a23b9e57a78f1, 0xd6c452d7a143e511, 0x4e0cff4c6d7b7c88, 0xee7baa4a4e9aa75b, 0x264123f0961654f3, 0xf6640264d0b02d6e, 0xd453d3d941d05dec, 0xdb58999b18df0efa, 0xcdf1e959e74a74e1, 0x8254785a420de722, 0x9a2f2b095b251b3b, 0x74dd94ae1f661447, 0x5351c9efdaffd1e, 0x74aea69a0eba4860, 0xbd7132ba840df9b1, 0xfb143e640ee13da4, 0x73b02143c30745f0, 0xbd1b0d36a3bd3b06, 0x1b78c9d12b663e29, 0x9561d6cd94c89000, 0x643cb09aea54604a] := by decide

theorem kstep_unsetBase_1 :
    keccakRound 1 [0x9dbb28b78ca01ebd, 0x17e531945ece0fb5, 0x2963af831a835a13, 0x994caaa186e780c0, 0xa37a23b9e57a78f1, 0xd6c452d7a143e511, 0x4e0cff4c6d7b7c88, 0xee7baa4a4e9aa75b, 0x264123f0961654f3, 0xf6640264d0b02d6e, 0xd453d3d941d05dec, 0xdb58999b18df0efa, 0xcdf1e959e74a74e1, 0x8254785a420de722, 0x9a2f2b095b251b3b, 0x74dd94ae1f661447, 0x5351c9efdaffd1e, 0x74aea69a0eba4860, 0xbd7132ba840df9b1, 0xfb143e640ee13da4, 0x73b02143c30745f0, 0xbd1b0d36a3bd3b06, 0x1b78c9d12b663e29, 0x9561d6cd94c89000, 0x643cb09aea54604a] = [0xb80c27672c2bfa7b, 0x434bf1c336cff006, 0xc280c6ddc16a00fa, 0x3e0cc78dd0a525b7, 0xa01022b23701d57f, 0xf0ed14bb4c04c217, 0xaf1e0809e23b1eea, 0xaec453110d9cac5, 0x6ea46be2646fac1c, 0xca7c96f8d954bef6, 0xabb63cff8f828fc4, 0xcba2076fb52a3b27, 0x896c62ec2c9fa1e7, 0xd613e1637e8eeede, 0xb6ff0cb0e4392a67, 0xe63ed66db43f8c72, 0x7bcc03971d5132ec, 0x8a19e213081b772d, 0xe76bedf8975eba63, 0x6cd0654f4916c1c5, 0x125da8effae33d1b, 0xc1d1e2743a329605, 0xf8c3230bf8c3263c, 0x98aac603f518b5df, 0x7d345d44fec8ce03] := by decide

theorem kstep_unsetBase_2 :
    keccakRound 2 [0xb80c27672c2bfa7b, 0x434bf1c336cff006, 0xc280c6ddc16a00fa, 0x3e0cc78dd0a525b7, 0xa01022b23701d57f, 0xf0ed14bb4c04c217, 0xaf1e0809e23b1eea, 0xaec453110d9cac5, 0x6ea46be2646fac1c, 0xca7c96f8d954bef6, 0xabb63cff8f828fc4, 0xcba2076fb52a3b27, 0x896c62ec2c9fa1e7, 0xd613e1637e8eeede, 0xb6ff0cb0e4392a67, 0xe63ed66db43f8c72, 0x7bcc03971d5132ec, 0x8a19e213081b772d, 0xe76bedf8975eba63, 0x6cd0654f4916c1c5, 0x125da8effae33d1b, 0xc1d1e2743a329605, 0xf8c3230bf8c3263c, 0x98aac603f518b5df, 0x7d345d44fec8ce03] = [0xdeafbb1808e1fecd, 0xa6af9539e9f04782, 0x60ab33bb51009d1, 0xc8ffa1d38b489fcf, 0x966c01ebc9caab01, 0xa24f5c22b973976d, 0x34d0da25bfd11650, 0x5a640a01a3de1d4a, 0x4037a16b26705adf, 0xa67b9d795f4f1051, 0x678798351c49462a, 0xbe452522ea1a1f23, 0x281b3c9c8da55cc1, 0xe7747ba2ee808ab9, 0x426b4eaec5c90ae9, 0x36f6159f2ab947b0, 0xdcc2e0e146248c64, 0xcffb68985d205afc, 0xa8930f5168f667ab, 0x8f317dc7bcc12054, 0xc7e3930dc7b06810, 0xc023e0a404995e8d, 0x6da0d7a6f6eb1655, 0xc460be280f804909, 0xc54707360aa682df] := by decide

theorem kstep_unsetBase_3 :
    keccakRound 3 [0xdeafbb1808e1fecd, 0xa6af9539e9f04782, 0x60ab33bb51009d1, 0xc8ffa1d38b489fcf, 0x966c01ebc9caab01, 0xa24f5c22b973976d, 0x34d0da25bfd11650, 0x5a640a01a3de1d4a, 0x4037a16b26705adf, 0xa67b9d795f4f1051, 0x678798351c49462a, 0xbe452522ea1a1f23, 0x281b3c9c8da55cc1, 0xe7747ba2ee808ab9, 0x426b4eaec5c90ae9, 0x36f6159f2ab947b0, 0xdcc2e0e146248c64, 0xcffb68985d205afc, 0xa8930f5168f667ab, 0x8f317dc7bcc12054, 0xc7e3930dc7b06810, 0xc023e0a404995e8d, 0x6da0d7a6f6eb1655, 0xc460be280f804909, 0xc54707360aa682df] = [0xcf15eff28ad655de, 0x33b9d727e4e85dec, 0xbd9fd301e6710966, 0xa524408a7864448, 0x7f73fbfeddc84c9b, 0xb6cbebfda5e42cec, 0x422fb1529c7799ac, 0xda97a45a434d4848, 0xd4b659890b49c852, 0x2b788521782d3819, 0x8302f379dc4692bf, 0x91793d0c9251d143, 0x66b38d105888ef06, 0xda449f393bc58ed8, 0xb4e2725d2d5a387f, 0x39c13f52fa478ba4, 0x544b06eebd124594, 0xbac635ee09dfb9c1, 0xca17f11fd2737d5b, 0x9a789b782ec57661, 0x9d974aeb40132d77, 0xa3b2271202e4379, 0x51914beae097eeb2, 0xfadb679f9451ca90, 0x3855b420a0411f0a] := by decide

theorem kstep_unsetBase_4 :
    keccakRound 4 [0xcf15eff28ad655de, 0x33b9d727e4e85dec, 0xbd9fd301e6710966, 0xa524408a7864448, 0x7f73fbfeddc84c9b, 0xb6cbebfda5e42cec, 0x422fb1529c7799ac, 0xda97a45a434d4848, 0xd4b659890b49c852, 0x2b788521782d3819, 0x8302f379dc4692bf, 0x91793d0c9251d143, 0x66b38d105888ef06, 0xda449f393bc58ed8, 0xb4e2725d2d5a387f, 0x39c13f52fa478ba4, 0x544b06eebd124594, 0xbac635ee09dfb9c1, 0xca17f11fd2737d5b, 0x9a789b782ec57661, 0x9d974aeb40132d77, 0xa3b2271202e4379, 0x51914beae097eeb2, 0xfadb679f9451ca90, 0x3855b420a0411f0a] = [0xec7cb2e4474dd73f, 0xe26c56af82b0bdcc, 0x7dd77545aeff7c60, 0x8c175c1dc694bdf2, 0x2b61f4d9cc9fc401, 0x9c70844b7257efdb, 0x507d34d36bd95801, 0x67713b750aec87e5, 0x544fb78341c693af, 0x90f9f39fae2e92e9, 0xf196b6f54c01c4b3, 0x35b4b3611b9df901, 0xde32bf694fc8491d, 0x218ac6a0ad58901a, 0x5fdee6300f7ea0b6, 0xecb8169b5718d71a, 0xd292624cd31768b4, 0xec5c664a253ae150, 0xb15cee27732eb242, 0xe49757c4e48ff3dc, 0x93f4253748448024, 0x32cdf34d0b4fe1bd, 0x1dabc59fcda88ff7, 0xab47df28fbe68403, 0x5ab68c932d693db] := by decide

theorem kstep_unsetBase_5 :
    keccakRound 5 [0xec7cb2e4474dd73f, 0xe26c56af82b0bdcc, 0x7dd77545aeff7c60, 0x8c175c1dc694bdf2, 0x2b61f4d9cc9fc401, 0x9c70844b7257efdb, 0x507d34d36bd95801, 0x67713b750aec87e5, 0x544fb78341c693af, 0x90f9f39fae2e92e9, 0xf196b6f54c01c4b3, 0x35b4b3611b9df901, 0xde32bf694fc8491d, 0x218ac6a0ad58901a, 0x5fdee6300f7ea0b6, 0xecb8169b5718d71a, 0xd292624cd31768b4, 0xec5c664a253ae150, 0xb15cee27732eb242, 0xe49757c4e48ff3dc, 0x93f4253748448024, 0x32cdf34d0b4fe1bd, 0x1dabc59fcda88ff7, 0xab47df28fbe68403, 0x5ab68c932d693db] = [0x2cb46f172d9a4bea, 0xd5312c4edbe298f0, 0xca23bdd4543ab7b4, 0x29b201c97171b14c, 0x14c41766816216e3, 0x33ec4556ef0b1927, 0xa31c2e748b4cfda0, 0x484f52990633ea06, 0x67736893a5bc4c58, 0x73b8759c1490c19f, 0xdd5ab8c3caf56db6, 0x865cc393b1418adb, 0xbb60fae51bec5c50, 0xf3041909c22d11ec, 0xefd2d834c6dde7a8, 0x37048dbea1a8767e, 0xc48da085ffa98491, 0x12126ddd662bdae2, 0x2e18a5cf126c0a12, 0x4615f1301dca02f5, 0x3fe5d24eb13198ea, 0xb7756ee0dc8bd072, 0x889d35215f20bc38, 0x8addd30e7c818533, 0x1b67ba2de2658bbb] := by decide

theorem kstep_unsetBase_6 :
    keccakRound 6 [0x2cb46f172d9a4bea, 0xd5312c4edbe298f0, 0xca23bdd4543ab7b4, 0x29b201c97171b14c, 0x14c41766816216e3, 0x33ec4556ef0b1927, 0xa31c2e748b4cfda0, 0x484f52990633ea06, 0x67736893a5bc4c58, 0x73b8759c1490c19f, 0xdd5ab8c3caf56db6, 0x865cc393b1418adb, 0xbb60fae51bec5c50, 0xf3041909c22d11ec, 0xefd2d834c6dde7a8, 0x37048dbea1a8767e, 0xc48da085ffa98491, 0x12126ddd662bdae2, 0x2e18a5cf126c0a12, 0x4615f1301dca02f5, 0x3fe5d24eb13198ea, 0xb7756ee0dc8bd072, 0x889d35215f20bc38, 0x8addd30e7c818533, 0x1b67ba2de2658bbb] = [0x7f7e914dccc10c69, 0xf8a0c2cf17be6326, 0xd114dad35fcb48e1, 0x91ef717ac7e44440, 0x997884641f506ee, 0xc58bca5b14788af3, 0x9de49f40191517ef, 0x38a0b29f3e610fe4, 0xb3e881290cebe232, 0x5d0692d924398d10, 0x35eb772a8755469d, 0x73bc5e19052535be, 0xd5c5a4a281f3794b, 0xd3c5d1543dc2f99a, 0xb00668ec66a7058e, 0x14a796ac95187a, 0x7087ec904322f00d, 0xee5160202e143a3e, 0x37deaafc539c4185, 0x5f8ba735ef7fcf15, 0xbeafcdf931b7298, 0x48d78c292403e1bc, 0x1d935311888a37e7, 0x73d860cc9dd7a95a, 0xca55e4c8b6ef3694] := by decide

theorem kstep_unsetBase_7 :
    keccakRound 7 [0x7f7e914dccc10c69, 0xf8a0c2cf17be6326, 0xd114dad35fcb48e1, 0x91ef717ac7e44440, 0x997884641f506ee, 0xc58bca5b14788af3, 0x9de49f40191517ef, 0x38a0b29f3e610fe4, 0xb3e881290cebe232, 0x5d0692d924398d10, 0x35eb772a8755469d, 0x73bc5e19052535be, 0xd5c5a4a281f3794b, 0xd3c5d1543dc2f99a, 0xb00668ec66a7058e, 0x14a796ac95187a, 0x7087ec904322f00d, 0xee5160202e143a3e, 0x37deaafc539c4185, 0x5f8ba735ef7fcf15, 0xbeafcdf931b7298, 0x48d78c292403e1bc, 0x1d935311888a37e7, 0x73d860cc9dd7a95a, 0xca55e4c8b6ef3694] = [0xd17a621c4fe35abd, 0xd8625956af78fc4b, 0xb23e568f21971cf2, 0xc4d631a7f4679de6, 0xf4c54bc9050238df, 0x1cdd59d35acc69db, 0x70652f86f6c560f0, 0xc792175a35a08720, 0xd7f1ec6145c39b0b, 0xab16daeeb6a71109, 0xc9d2944afb94d559, 0xe063ff9cd0cc723f, 0xf81e4a35c6dde97, 0x4de07c16580ca9f2, 0xc3d217a93dc9dca, 0x5fc7b421b36c9d6c, 0x7d7558b69929dca1, 0xea152b872ac5f3e5, 0xba319fdb92cbcdb0, 0xf4eb132076da6e4, 0x753dc2e4909a4d52, 0x224362d6efffe90f, 0x7e33a885242aa94e, 0x4191463c8aa2c05c, 0x4f82378142d911d4] := by decide

theorem kstep_unsetBase_8 :
    keccakRound 8 [0xd17a621c4fe35abd, 0xd8625956af78fc4b, 0xb23e568f21971cf2, 0xc4d631a7f4679de6, 0xf4c54bc9050238df, 0x1cdd59d35acc69db, 0x70652f86f6c560f0, 0xc792175a35a08720, 0xd7f1ec6145c39b0b, 0xab16daeeb6a71109, 0xc9d2944afb94d559, 0xe063ff9cd0cc723f, 0xf81e4a35c6dde97, 0x4de07c16580ca9f2, 0xc3d217a93dc9dca, 0x5fc7b421b36c9d6c, 0x7d7558b69929dca1, 0xea152b872ac5f3e5, 0xba319fdb92cbcdb0, 0xf4eb132076da6e4, 0x753dc2e4909a4d52, 0x224362d6efffe90f, 0x7e33a885242aa94e, 0x4191463c8aa2c05c, 0x4f82378142d911d4] = [0xa4fd203bf17cef4f, 0xa2f3e425cb62a6b6, 0x7b0ed0f0da3e2226, 0xced3cc11c0eecddb, 0xbd4f0264bd4b6dd4, 0x55b6a86700fb96ae, 0x5d8c4fd96e85ecc1, 0x86fe6beb4eb305df, 0x492fb1f8996bca21, 0x647caaf03805e6b1, 0x29ddd8dd56b6ef27, 0x81c4864657667af6, 0x34ae6f63498a7c67, 0x22c815f0287edcf3, 0xcb4c2e61c1a932aa, 0x1272dff0d82ae408, 0x10afc30207b0c5c8, 0xa321164eadec0852, 0xa5101ac0d6f43bc6, 0xee04de0f91879f9d, 0xfac885db0d7d60b3, 0xc2dfff5765ec7e42, 0x408248c01cd76570, 0x64d028c581c54cd3, 0x476c87fa5fe3950f] := by decide

theorem kstep_unsetBase_9 :
    keccakRound 9 [0xa4fd203bf17cef4f, 0xa2f3e425cb62a6b6, 0x7b0ed0f0da3e2226, 0xced3cc11c0eecddb, 0xbd4f0264bd4b6dd4, 0x55b6a86700fb96ae, 0x5d8c4fd96e85ecc1, 0x86fe6beb4eb305df, 0x492fb1f8996bca21, 0x647caaf03805e6b1, 0x29ddd8dd56b6ef27, 0x81c4864657667af6, 0x34ae6f63498a7c67, 0x22c815f0287edcf3, 0xcb4c2e61c1a932aa, 0x1272dff0d82ae408, 0x10afc30207b0c5c8, 0xa321164eadec0852, 0xa5101ac0d6f43bc6, 0xee04de0f91879f9d, 0xfac885db0d7d60b3, 0xc2dfff5765ec7e42, 0x408248c01cd76570, 0x64d028c581c54cd3, 0x476c87fa5fe3950f] = [0x423e7cec10104a2b, 0x7bb91ae4a523e408, 0x2572a49c6915e416, 0x82a5a169603b3240, 0x8b2ca478e273e4b8, 0x6bfd59dcc1204dee, 0xde972e9ef6fe899f, 0x7a4531170c413126, 0xdc50eef21a889cb3, 0x74b69d80dc65f6c8, 0x86c9f6dfc2f1b725, 0x5762cb66fff6f090, 0x4aa0131dfe1c3447, 0xa2d82193410ee9a8, 0x952090372be0693d, 0x21be6e9d15cd9e79, 0xadbb86497ed56b8b, 0xca5401f9f25fd38c, 0x7a0ed573e8b7e360, 0x4839125e50c8bf9e, 0x835e5d6cb1dd28c5, 0x33087f4281b6622b, 0x4ffc2661e9b89599, 0x670ad8e92653e6a7, 0x8c2322c539e80516] := by decide

theorem kstep_unsetBase_10 :
    keccakRound 10 [0x423e7cec10104a2b, 0x7bb91ae4a523e408, 0x2572a49c6915e416, 0x82a5a169603b3240, 0x8b2ca478e273e4b8, 0x6bfd59dcc1204dee, 0xde972e9ef6fe899f, 0x7a4531170c413126, 0xdc50eef21a889cb3, 0x74b69d80dc65f6c8, 0x86c9f6dfc2f1b725, 0x5762cb66fff6f090, 0x4aa0131dfe1c3447, 0xa2d82193410ee9a8, 0x952090372be0693d, 0x21be6e9d15cd9e79, 0xadbb86497ed56b8b, 0xca5401f9f25fd38c, 0x7a0ed573e8b7e360, 0x4839125e50c8bf9e, 0x835e5d6cb1dd28c5, 0x33087f4281b6622b, 0x4ffc2661e9b89599, 0x670ad8e92653e6a7, 0x8c2322c539e80516] = [0x44e69960c470891, 0xc6805fa8b9ef5007, 0x116647646c596b88, 0xcf9277aaf925cc08, 0xe84aaee4f244c9b0, 0xfd98856ad5cfaa78, 0x82b429ee8ec1e4ab, 0x14b331c2efb2fdf7, 0x65f3d105507cfa27, 0xfe4e546b60081403, 0xec19615ca74c1862, 0xbfbde92d5fe89ca7, 0x4a3817bb82d50d65, 0x49b1a04e15b1b392, 0x327da64a49bbf616, 0xf241c470c34ea5b4, 0x963a7683cb35d875, 0xd32fc52cecb66469, 0x5121a4c64189b240, 0x4a90664a476f1b83, 0xa264d1eaf033f562, 0x3d64f736abd7c6db, 0xe7819db7f219ec18, 0x146d6cc6e1ec9abd, 0x777f7310d6e0aad4] := by decide

theorem kstep_unsetBase_11 :
    keccakRound 11 [0x44e69960c470891, 0xc6805fa8b9ef5007, 0x116647646c596b88, 0xcf9277aaf925cc08, 0xe84aaee4f244c9b0, 0xfd98856ad5cfaa78, 0x82b429ee8ec1e4ab, 0x14b331c2efb2fdf7, 0x65f3d105507cfa27, 0xfe4e546b60081403, 0xec19615ca74c1862, 0xbfbde92d5fe89ca7, 0x4a3817bb82d50d65, 0x49b1a04e15b1b392, 0x327da64a49bbf616, 0xf241c470c34ea5b4, 0x963a7683cb35d875, 0xd32fc52cecb66469, 0x5121a4c64189b240, 0x4a90664a476f1b83, 0xa264d1eaf033f562, 0x3d64f736abd7c6db, 0xe7819db7f219ec18, 0x146d6cc6e1ec9abd, 0x777f7310d6e0aad4] = [0xed7e1517e6f7cf39, 0x2e53561d856f8f85, 0x732a0afb90adab93, 0xd3cf5482dbd740e1, 0xa1e1564f3cc39649, 0x2724de31581d9351, 0xed793b66cf8db15f, 0xbc4888aac3a73ed0, 0xe2bfd882d3adbae5, 0x1787c293ffe4f02d, 0x43c869358eeab10d, 0x47eceb77220435a0, 0xeb1b8326300bbc05, 0xb1419ef105e3696f, 0x83023e8e2a6c2db0, 0x8ba5f533d368baa0, 0x5ce5de445a2953d8, 0x544c6cb7b708b8af, 0x2ab9bbc48426f563, 0x460c0ac2766d88a4, 0x21e3011c1759e06a, 0x8836c6adbfad0e7e, 0x22c7960c9e3c67a7, 0xffa61988e129279b, 0x6c34be22ad942746] := by decide

theorem kstep_unsetBase_12 :
    keccakRound 12 [0xed7e1517e6f7cf39, 0x2e53561d856f8f85, 0x732a0afb90adab93, 0xd3cf5482dbd740e1, 0xa1e1564f3cc39649, 0x2724de31581d9351, 0xed793b66cf8db15f, 0xbc4888aac3a73ed0, 0xe2bfd882d3adbae5, 0x1787c293ffe4f02d, 0x43c869358eeab10d, 0x47eceb77220435a0, 0xeb1b8326300bbc05, 0xb1419ef105e3696f, 0x83023e8e2a6c2db0, 0x8ba5f533d368baa0, 0x5ce5de445a2953d8, 0x544c6cb7b708b8af, 0x2ab9bbc48426f563, 0x460c0ac2766d88a4, 0x21e3011c1759e06a, 0x8836c6adbfad0e7e, 0x22c7960c9e3c67a7, 0xffa61988e129279b, 0x6c34be22ad942746] = [0x53400e645cc0c73e, 0xfa36c0e5e9a43ef0, 0x2b67798a99a7cae2, 0xff955affe4a9de7c, 0x841f4bc8434ef7e4, 0xafc0758c2b1fdd20, 0xe572d8076518535d, 0x7ffad64544e5941e, 0x655569968c4c0e6e, 0xfb266d23bc4e5656, 0x6285cdfbcbebbd4d, 0x881fcd37fa7ea3d5, 0xb3d59ea6bcaa04b0, 0xda5705b7d0cfe879, 0x98cfcba978238c0, 0x2ce3f5c45d1b3154, 0xe299d5b833f4487, 0xc528c55579fe671e, 0xdf464a333bbd546, 0xbb8fe4e6a0eabd9a, 0x6e583919f139de8f, 0x52a13aae30d2ee60, 0x4c983ece98406555, 0x7fa67d31a58c1f7c, 0x399adea17b9b7574] := by decide

theorem kstep_unsetBase_13 :
    keccakRound 13 [0x53400e645cc0c73e, 0xfa36c0e5e9a43ef0, 0x2b67798a99a7cae2, 0xff955affe4a9de7c, 0x841f4bc8434ef7e4, 0xafc0758c2b1fdd20, 0xe572d8076518535d, 0x7ffad64544e5941e, 0x655569968c4c0e6e, 0xfb266d23bc4e5656, 0x6285cdfbcbebbd4d, 0x881fcd37fa7ea3d5, 0xb3d59ea6bcaa04b0, 0xda5705b7d0cfe879, 0x98cfcba978238c0, 0x2ce3f5c45d1b3154, 0xe299d5b833f4487, 0xc528c55579fe671e, 0xdf464a333bbd546, 0xbb8fe4e6a0eabd9a, 0x6e583919f139de8f, 0x52a13aae30d2ee60, 0x4c983ece98406555, 0x7fa67d31a58c1f7c, 0x399adea17b9b7574] = [0x64464a9f41ed6f33, 0x21273f425973cfda, 0xf42034e6651cd52d, 0xffd88374af711ab8, 0xcba5e92a179facca, 0x35da50a592e302, 0xccbb077b1d2919fb, 0x4464f659211a3fd, 0xb7a1b1fce9ce5372, 0x635207ed904f9454, 0x66f21f9d708758e7, 0x4eeebfff2d010ad4, 0x116ffe778e9bf956, 0x34fe6b2239d352b5, 0xfd37823314f03568, 0x82e3df263175768c, 0x9f52d868aef7ac29, 0x42807ca99d2f4661, 0x74f510f573acb5b0, 0x6bfc1f6f224035d5, 0xb0c3150c9a2ed3b3, 0x8c2358af65d5fcfb, 0xdb05d0411a936c5c, 0xcd176fd7cbefa6ef, 0x478b3425a53177d1] := by decide

theorem kstep_unsetBase_14 :
    keccakRound 14 [0x64464a9f41ed6f33, 0x21273f425973cfda, 0xf42034e6651cd52d, 0xffd88374af711ab8, 0xcba5e92a179facca, 0x35da50a592e302, 0xccbb077b1d2919fb, 0x4464f659211a3fd, 0xb7a1b1fce9ce5372, 0x635207ed904f9454, 0x66f21f9d708758e7, 0x4eeebfff2d010ad4, 0x116ffe778e9bf956, 0x34fe6b2239d352b5, 0xfd37823314f03568, 0x82e3df263175768c, 0x9f52d868aef7ac29, 0x42807ca99d2f4661, 0x74f510f573acb5b0, 0x6bfc1f6f224035d5, 0xb0c3150c9a2ed3b3, 0x8c2358af65d5fcfb, 0xdb05d0411a936c5c, 0xcd176fd7cbefa6ef, 0x478b3425a53177d1] = [0xfcfe822f05efa817, 0xe2a26450e95f6f0f, 0xc72ac21b37a3251c, 0x8b54a4b1edb8e2f2, 0xa417078607087d8a, 0x597a30e7643aad0, 0xb996c8bb82a9727a, 0xb633a103073ae8d4, 0x3150cbd928e40df0, 0xe479932baefacb0d, 0xc522f297657bf39b, 0xf9e05c65a50fe08a, 0xa59a9ef1c55eb99a, 0x5a8b479f0cdf6dcd, 0x5006275a98bea18d, 0x99df023387fc120a, 0xd2574bf5b94baedf, 0x7ea0def24edd6da5, 0x9e65dab42d63ac06, 0xf246bc09af1c4b49, 0xbbdb1399924ed690, 0x349e0399eb37b135, 0x5cc651a490952cc6, 0x6fd02333a76df481, 0x326d1fb8d49e38b5] := by decide

theorem kstep_unsetBase_15 :
    keccakRound 15 [0xfcfe822f05efa817, 0xe2a26450e95f6f0f, 0xc72ac21b37a3251c, 0x8b54a4b1edb8e2f2, 0xa417078607087d8a, 0x597a30e7643aad0, 0xb996c8bb82a9727a, 0xb633a103073ae8d4, 0x3150cbd928e40df0, 0xe479932baefacb0d, 0xc522f297657bf39b, 0xf9e05c65a50fe08a, 0xa59a9ef1c55eb99a, 0x5a8b479f0cdf6dcd, 0x5006275a98bea18d, 0x99df023387fc120a, 0xd2574bf5b94baedf, 0x7ea0def24edd6da5, 0x9e65dab42d63ac06, 0xf246bc09af1c4b49, 0xbbdb1399924ed690, 0x349e0399eb37b135, 0x5cc651a490952cc6, 0x6fd02333a76df481, 0x326d1fb8d49e38b5] = [0x21a6e9b2f6288a5a, 0x325ff4a135a59d6c, 0x574fe6bf423d9d4, 0xb4f0ad820f7b08d8, 0x10e530776a89d2d6, 0xadfab1c2fcb17d58, 0x7215ffcde49cf84e, 0x8b8411e425939874, 0x1e0574b86100ed86, 0x2551c361d16defcc, 0x6b4f9f457858215f, 0xb466808f70cd99a0, 0x51671f27a218d22b, 0xc1ed41aa79b2ec8f, 0xdccbc62fd8141aad, 0xf79e6162744d06bf, 0x3a7080e5d3fc2894, 0x88ed8e95d2f5ce21, 0x407a66a3e9d48cf2, 0x555933f48aa95648, 0xd892344bbf5ce0, 0x955610cdfb0d1b78, 0xf08036d26089936d, 0x137589834ccb254c, 0x8a4f9a264973995b] := by decide

theorem kstep_unsetBase_16 :
    keccakRound 16 [0x21a6e9b2f6288a5a, 0x325ff4a135a59d6c, 0x574fe6bf423d9d4, 0xb4f0ad820f7b08d8, 0x10e530776a89d2d6, 0xadfab1c2fcb17d58, 0x7215ffcde49cf84e, 0x8b8411e425939874, 0x1e0574b86100ed86, 0x2551c361d16defcc, 0x6b4f9f457858215f, 0xb466808f70cd99a0, 0x51671f27a218d22b, 0xc1ed41aa79b2ec8f, 0xdccbc62fd8141aad, 0xf79e6162744d06bf, 0x3a7080e5d3fc2894, 0x88ed8e95d2f5ce21, 0x407a66a3e9d48cf2, 0x555933f48aa95648, 0xd892344bbf5ce0, 0x955610cdfb0d1b78, 0xf08036d26089936d, 0x137589834ccb254c, 0x8a4f9a264973995b] = [0xa1bb8bce5e511475, 0x1f9d32fb250612a2, 0x82fccb929f106ee9, 0xf3e6483c2bb0b260, 0xef50286189ea263c, 0xb06f817f7675bcf9, 0x475d91f55e52dc4d, 0x61c5318b42ceb92c, 0xc7a80d8a42d2bfec, 0xfa6484cf1986619f, 0xde3c867ff66f1183, 0xe835d3b2562fd224, 0x24f303bea21588f1, 0xfef082a14cf33a0f, 0xc522b7f8a2e2e2bc, 0x1e858facee42d573, 0x480ba30478b9eba4, 0x5e548e294525bdb5, 0xb51e1c2be0ca50a4, 0x22d86cfaabfc60be, 0x598563d07d2e7999, 0x8cca1a8f04e051fd, 0x71cf32622b24aeab, 0xd8e18cdfc7b6e984, 0x2fb441c6560c2bb7] := by decide

theorem kstep_unsetBase_17 :
    keccakRound 17 [0xa1bb8bce5e511475, 0x1f9d32fb250612a2, 0x82fccb929f106ee9, 0xf3e6483c2bb0b260, 0xef50286189ea263c, 0xb06f817f7675bcf9, 0x475d91f55e52dc4d, 0x61c5318b42ceb92c, 0xc7a80d8a42d2bfec, 0xfa6484cf1986619f, 0xde3c867ff66f1183, 0xe835d3b2562fd224, 0x24f303bea21588f1, 0xfef082a14cf33a0f, 0xc522b7f8a2e2e2bc, 0x1e858facee42d573, 0x480ba30478b9eba4, 0x5e548e294525bdb5, 0xb51e1c2be0ca50a4, 0x22d86cfaabfc60be, 0x598563d07d2e7999, 0x8cca1a8f04e051fd, 0x71cf32622b24aeab, 0xd8e18cdfc7b6e984, 0x2fb441c6560c2bb7] = [0x74280fc83b68bb76, 0x975b0ef963fd734e, 0x340920f1c8a97fbe, 0x2265f3f80434e660, 0x74c7a39aa736a641, 0x33973a6ea95269e, 0x200a925c6e7c8d11, 0xd8543b4e9c57b5a1, 0x5ec2d22c3909d6d1, 0xedef2aca6a9b6bee, 0xaeadb27287733f25, 0x94adaaa6c345ead6, 0x2787891031708b1c, 0xc955ce13ca87dab0, 0x4f000cd2622d3209, 0x78884c5882f20db7, 0xb4edf4b455c27781, 0x7f6124e39536d3c9, 0x446c00f403b63ef7, 0x7ebf405b348d379, 0x2e33c37172ea7847, 0x278686d47da1b295, 0x20a0afb958989fac, 0xdefcaa1f7ee7554e, 0x83cbc317a04bf3a7] := by decide

theorem kstep_unsetBase_18 :
    keccakRound 18 [0x74280fc83b68bb76, 0x975b0ef963fd734e, 0x340920f1c8a97fbe, 0x2265f3f80434e660, 0x74c7a39aa736a641, 0x33973a6ea95269e, 0x200a925c6e7c8d11, 0xd8543b4e9c57b5a1, 0x5ec2d22c3909d6d1, 0xedef2aca6a9b6bee, 0xaeadb27287733f25, 0x94adaaa6c345ead6, 0x2787891031708b1c, 0xc955ce13ca87dab0, 0x4f000cd2622d3209, 0x78884c5882f20db7, 0xb4edf4b455c27781, 0x7f6124e39536d3c9, 0x446c00f403b63ef7, 0x7ebf405b348d379, 0x2e33c37172ea7847, 0x278686d47da1b295, 0x20a0afb958989fac, 0xdefcaa1f7ee7554e, 0x83cbc317a04bf3a7] = [0x45cfb3934a95112f, 0x201e4842b20ea145, 0x43cb878cf1287630, 0x8210762da48a4fdb, 0x61141183c3110423, 0xe9553574d404ebf2, 0xcbd8f78442d88c7c, 0xc4cc0d2fd0ca12bc, 0x534f333490cfa430, 0x2954acb077a409a4, 0x6ed6f88f2e75511c, 0x80fd5f3f4bd5d31f, 0xeebf4c5a5df2fb24, 0x8777b233a4bbb31e, 0x65b10988d198f656, 0xa967c4485e255be0, 0xb199bef201f6df08, 0xfbe3a40287b118a8, 0x566db32b10925399, 0xcc7edf45ca7f44ff, 0xa29e3a9accf7a394, 0xabd66cd734fc0216, 0xf792f51717742ac2, 0x88e3c3079ece1da6, 0x3fe946f1ddde9b4] := by decide

theorem kstep_unsetBase_19 :
    keccakRound 19 [0x45cfb3934a95112f, 0x201e4842b20ea145, 0x43cb878cf1287630, 0x8210762da48a4fdb, 0x61141183c3110423, 0xe9553574d404ebf2, 0xcbd8f78442d88c7c, 0xc4cc0d2fd0ca12bc, 0x534f333490cfa430, 0x2954acb077a409a4, 0x6ed6f88f2e75511c, 0x80fd5f3f4bd5d31f, 0xeebf4c5a5df2fb24, 0x8777b233a4bbb31e, 0x65b10988d198f656, 0xa967c4485e255be0, 0xb199bef201f6df08, 0xfbe3a40287b118a8, 0x566db32b10925399, 0xcc7edf45ca7f44ff, 0xa29e3a9accf7a394, 0xabd66cd734fc0216, 0xf792f51717742ac2, 0x88e3c3079ece1da6, 0x3fe946f1ddde9b4] = [0x62fe29db760805ae, 0x5857ff95a9d4d31e, 0x7fa81cb0a1855171, 0x7dc303114dd6e93a, 0xdc8785c0d7833c1c, 0x708d15e6c533a7cf, 0xa4a6f4e8606319de, 0xf26b5c3413c70f33, 0x7ae732b5e002be2f, 0x7ed7bb31f4c72c9d, 0x84634e65812fe97c, 0x3e4d6948c076402b, 0xf8da694d9e463bbd, 0xf76971d0a3f00c37, 0xbbc5b832ad3a8c1f, 0xca8ebfed30f2c6b7, 0xa9b7b9b094c8b023, 0x7ec1b340e379ba1b, 0xc0af2e7a18c2054f, 0x7038c9a9441f345d, 0xc0fe67c512da2322, 0x336d36ed3d3482f2, 0x2c62f13f3f47d55b, 0x38aab557fca597c0, 0x84c21efbd080a8ce] := by decide

theorem kstep_unsetBase_20 :
    keccakRound 20 [0x62fe29db760805ae, 0x5857ff95a9d4d31e, 0x7fa81cb0a1855171, 0x7dc303114dd6e93a, 0xdc8785c0d7833c1c, 0x708d15e6c533a7cf, 0xa4a6f4e8606319de, 0xf26b5c3413c70f33, 0x7ae732b5e002be2f, 0x7ed7bb31f4c72c9d, 0x84634e65812fe97c, 0x3e4d6948c076402b, 0xf8da694d9e463bbd, 0xf76971d0a3f00c37, 0xbbc5b832ad3a8c1f, 0xca8ebfed30f2c6b7, 0xa9b7b9b094c8b023, 0x7ec1b340e379ba1b, 0xc0af2e7a18c2054f, 0x7038c9a9441f345d, 0xc0fe67c512da2322, 0x336d36ed3d3482f2, 0x2c62f13f3f47d55b, 0x38aab557fca597c0, 0x84c21efbd080a8ce] = [0xffd8ca1bed925303, 0xa77b853bbcfc512a, 0xc086ed2f6b8cb355, 0xc6d78750dde5e9b9, 0x647283ce8f11a512, 0xde8eee1db5a274b4, 0x49f3698ba205c173, 0xa28e39265cc6db69, 0x117ae5751895eca8, 0x6c93b49e8b6b3e84, 0x1e4b0514932cdac1, 0x9603fb5bdee9f4ee, 0x8add310c6e5a0f41, 0xb5c4149e97b061c0, 0x1315dbc8012f715d, 0xccadc9c52e6665c7, 0xea91f043d2e96263, 0x64d150dcf8ef3331, 0xfc65cae1ccfdbb59, 0x56d5fc5f13a0d7b5, 0xcddbc1da5346de25, 0x14a24dd748f2e71e, 0x808c7304838b61b0, 0x9d7f4d3698664050, 0x81e52fe63560c549] := by decide

theorem kstep_unsetBase_21 :
    keccakRound 21 [0xffd8ca1bed925303, 0xa77b853bbcfc512a, 0xc086ed2f6b8cb355, 0xc6d78750dde5e9b9, 0x647283ce8f11a512, 0xde8eee1db5a274b4, 0x49f3698ba205c173, 0xa28e39265cc6db69, 0x117ae5751895eca8, 0x6c93b49e8b6b3e84, 0x1e4b0514932cdac1, 0x9603fb5bdee9f4ee, 0x8add310c6e5a0f41, 0xb5c4149e97b061c0, 0x1315dbc8012f715d, 0xccadc9c52e6665c7, 0xea91f043d2e96263, 0x64d150dcf8ef3331, 0xfc65cae1ccfdbb59, 0x56d5fc5f13a0d7b5, 0xcddbc1da5346de25, 0x14a24dd748f2e71e, 0x808c7304838b61b0, 0x9d7f4d3698664050, 0x81e52fe63560c549] = [0x9e65a9d0791cf0e3, 0x5795d2e354d3e125, 0x16a99bc4376f0ad7, 0x539c944bd35d2c8f, 0x23a401f8712dfa9c, 0x7aeac09a850b7be2, 0x7e9e9d278dc9b760, 0xbfe97018355778e6, 0x1260793fef878403, 0x440e737438e6f7f8, 0x3a3dc10bc10719d, 0xc44640739f0500e9, 0x8be5cc4ab259b9ca, 0x705f68718b858d2c, 0x1c4b3351949d35fa, 0xa52952f1498bbc0, 0x2a04b668f339ac20, 0x267f9864fe3e0345, 0x1c5723e6a77247, 0xe30c1fb54add7da7, 0xd207abf2074c01ea, 0xd54e3526d47ec556, 0x8172f33690a7573d, 0xd8a8827a36002770, 0xc2a3b18e18a9cddc] := by decide

theorem kstep_unsetBase_22 :
    keccakRound 22 [0x9e65a9d0791cf0e3, 0x5795d2e354d3e125, 0x16a99bc4376f0ad7, 0x539c944bd35d2c8f, 0x23a401f8712dfa9c, 0x7aeac09a850b7be2, 0x7e9e9d278dc9b760, 0xbfe97018355778e6, 0x1260793fef878403, 0x440e737438e6f7f8, 0x3a3dc10bc10719d, 0xc44640739f0500e9, 0x8be5cc4ab259b9ca, 0x705f68718b858d2c, 0x1c4b3351949d35fa, 0xa52952f1498bbc0, 0x2a04b668f339ac20, 0x267f9864fe3e0345, 0x1c5723e6a77247, 0xe30c1fb54add7da7, 0xd207abf2074c01ea, 0xd54e3526d47ec556, 0x8172f33690a7573d, 0xd8a8827a36002770, 0xc2a3b18e18a9cddc] = [0xe314b590b38e4f72, 0xb8c915aaf834b326, 0xf38ace7e290988a6, 0x85448a9fb140279a, 0xe13e36168779455d, 0x8c2e5a0bea2a9034, 0x520da84050b5ff23, 0xef18080dcf55067b, 0x5b6623c5b4a6c3e7, 0x4a6afa6ee7d4dfba, 0xc7f9e1db75e16c08, 0xf85f91eefee58cdf, 0xe717787792e074ff, 0x6838670aa68d5054, 0x479f3d5f50e631ce, 0x61caac9fa8ee0134, 0xcb8ac33b28b378c6, 0x9ca0e0d48cdbef41, 0x1e10a80162d8713f, 0xb1f9de3131e7d561, 0xf5422de1a2d9f5a2, 0x310888dd3b53eb15, 0xe0e69cc51e8a88a7, 0x24b903a920c762b2, 0x858d1eb4f074e39a] := by decide

theorem kstep_unsetBase_23 :
    keccakRound 23 [0xe314b590b38e4f72, 0xb8c915aaf834b326, 0xf38ace7e290988a6, 0x85448a9fb140279a, 0xe13e36168779455d, 0x8c2e5a0bea2a9034, 0x520da84050b5ff23, 0xef18080dcf55067b, 0x5b6623c5b4a6c3e7, 0x4a6afa6ee7d4dfba, 0xc7f9e1db75e16c08, 0xf85f91eefee58cdf, 0xe717787792e074ff, 0x6838670aa68d5054, 0x479f3d5f50e631ce, 0x61caac9fa8ee0134, 0xcb8ac33b28b378c6, 0x9ca0e0d48cdbef41, 0x1e10a80162d8713f, 0xb1f9de3131e7d561, 0xf5422de1a2d9f5a2, 0x310888dd3b53eb15, 0xe0e69cc51e8a88a7, 0x24b903a920c762b2, 0x858d1eb4f074e39a] = [0x48d993550ddcd4b7, 0xc81f2614b3714eb0, 0x3a05ffd25681a8e6, 0x88bdb81c22d97530, 0x596a337120c2976a, 0x9a4191bfba3f88ba, 0x1eb6a64ffaeea4c9, 0xd981fdfa7bb29cd2, 0x59d2370df106d843, 0xe697025a93fc96dc, 0x320c9d1247829fe7, 0xd14913821b46fa86, 0xb75de3cf62bf89b6, 0xcda5a8c471cd7d85, 0xc7fe62a7318bf73f, 0xd1160b6f7968eb4a, 0xafaabed2023ac218, 0x1f7bec75b3e7322e, 0xa626ce937908f6c7, 0xddbab0b2fb379f55, 0xb8b55883feba25f5, 0x8747ef4348dc6f32, 0xb80ee8789ce961ee, 0xfcd8ba4aa6b4d38d, 0x4810aa6343aa8512] := by decide

theorem selector_unsetBase : selector "unsetBase(address,uint64)" = [0xb7, 0xd4, 0xdc, 0x0d] := by
  unfold selector keccak256
  rw [show keccakBlocks ((strBytes "unsetBase(address,uint64)").length / 136 + 1) (strBytes "unsetBase(address,uint64)")
        = [[117, 110, 115, 101, 116, 66, 97, 115, 101, 40, 97, 100, 100, 114, 101, 115, 115, 44, 117, 105, 110, 116, 54, 52, 41, 1, 0, 0, 0, 0, 0, 0, 0, 0, 0, 0, 0, 0, 0, 0, 0, 0, 0, 0, 0, 0, 0, 0, 0, 0, 0, 0, 0, 0, 0, 0, 0, 0, 0, 0, 0, 0, 0, 0, 0, 0, 0, 0, 0, 0, 0, 0, 0, 0, 0, 0, 0, 0, 0, 0, 0, 0, 0, 0, 0, 0, 0, 0, 0, 0, 0, 0, 0, 0, 0, 0, 0, 0, 0, 0, 0, 0, 0, 0, 0, 0, 0, 0, 0, 0, 0, 0, 0, 0, 0, 0, 0, 0, 0, 0, 0, 0, 0, 0, 0, 0, 0, 0, 0, 0, 0, 0, 0, 0, 0, 128]] by decide]
  simp only [List.foldl_cons, List.foldl_nil, absorbBlock]
  rw [show xorBlock (List.replicate 25 0) [117, 110, 115, 101, 116, 66, 97, 115, 101, 40, 97, 100, 100, 114, 101, 115, 115, 44, 117, 105, 110, 116, 54, 52, 41, 1, 0, 0, 0, 0, 0, 0, 0, 0, 0, 0, 0, 0, 0, 0, 0, 0, 0, 0, 0, 0, 0, 0, 0, 0, 0, 0, 0, 0, 0, 0, 0, 0, 0, 0, 0, 0, 0, 0, 0, 0, 0, 0, 0, 0, 0, 0, 0, 0, 0, 0, 0, 0, 0, 0, 0, 0, 0, 0, 0, 0, 0, 0, 0, 0, 0, 0, 0, 0, 0, 0, 0, 0, 0, 0, 0, 0, 0, 0, 0, 0, 0, 0, 0, 0, 0, 0, 0, 0, 0, 0, 0, 0, 0, 0, 0, 0, 0, 0, 0, 0, 0, 0, 0, 0, 0, 0, 0, 0, 0, 128] = [0x7361427465736e75, 0x7365726464612865, 0x3436746e69752c73, 0x129, 0x0, 0x0, 0x0, 0x0, 0x0, 0x0, 0x0, 0x0, 0x0, 0x0, 0x0, 0x0, 0x8000000000000000, 0x0, 0x0, 0x0, 0x0, 0x0, 0x0, 0x0, 0x0] by decide]
  rw [keccakF_unfold]
  rw [kstep_unsetBase_0, kstep_unsetBase_1, kstep_unsetBase_2, kstep_unsetBase_3, kstep_unsetBase_4, kstep_unsetBase_5, kstep_unsetBase_6, kstep_unsetBase_7, kstep_unsetBase_8, kstep_unsetBase_9, kstep_unsetBase_10, kstep_unsetBase_11, kstep_unsetBase_12, kstep_unsetBase_13, kstep_unsetBase_14, kstep_unsetBase_15, kstep_unsetBase_16, kstep_unsetBase_17, kstep_unsetBase_18, kstep_unsetBase_19, kstep_unsetBase_20, kstep_unsetBase_21, kstep_unsetBase_22, kstep_unsetBase_23]
  decide

theorem kstep_hasBase_0 :
    keccakRound 0 [0x2865736142736168, 0x2c73736572646461, 0x1293436746e6975, 0x0, 0x0, 0x0, 0x0, 0x0, 0x0, 0x0, 0x0, 0x0, 0x0, 0x0, 0x0, 0x0, 0x8000000000000000, 0x0, 0x0, 0x0, 0x0, 0x0, 0x0, 0x0, 0x0] = [0x708098eb2cb088bb, 0x7ff4a22f5590de8e, 0x1a132d530b8f3b83, 0xc6cd994f28ab8caf, 0x32888339e1b44632, 0xe451d6845250d153, 0x5c680f6cec24bdeb, 0xc6b91c7f2a4a4e92, 0xb430d5d5b373a616, 0x3da6660483498020, 0x6ca8d453d395edc6, 0x9edadb589dd9987b, 0x7de1cdf1eb0f71e3, 0xce66825476505c14, 0x8b7f9a2f2b0573b2, 0x8447049cb2065736, 0x6d1e05258e5ebabf, 0x986d36aeba8a20e8, 0xb994af30b2b2c72f, 0x3d89a1153a1c46e1, 0x6a37f9f4a5c3c307, 0x3a10120b93b6a3bd, 0x5b2d002e47412b42, 0x929317718ccd948c, 0x385c683cb086fa38] := by decide

theorem kstep_hasBase_1 :
    keccakRound 1 [0x708098eb2cb088bb, 0x7ff4a22f5590de8e, 0x1a132d530b8f3b83, 0xc6cd994f28ab8caf, 0x32888339e1b44632, 0xe451d6845250d153, 0x5c680f6cec24bdeb, 0xc6b91c7f2a4a4e92, 0xb430d5d5b373a616, 0x3da6660483498020, 0x6ca8d453d395edc6, 0x9edadb589dd9987b, 0x7de1cdf1eb0f71e3, 0xce66825476505c14, 0x8b7f9a2f2b0573b2, 0x8447049cb2065736, 0x6d1e05258e5ebabf, 0x986d36aeba8a20e8, 0xb994af30b2b2c72f, 0x3d89a1153a1c46e1, 0x6a37f9f4a5c3c307, 0x3a10120b93b6a3bd, 0x5b2d002e47412b42, 0x929317718ccd948c, 0x385c683cb086fa38] = [0x235ff9ba1cdf1d5b, 0x693422dc3f5923c9, 0xb2c994c0ad4efb9f, 0x22d006c1c88257ca, 0xfc2685c104c202f4, 0x5453e901449df7c6, 0xf2204a0e511009c1, 0xaeaca0139ec51411, 0x98965ff05e81c8cb, 0xd1eba56e8a255061, 0x565f89017543884b, 0xf07404718858b546, 0xcd0b6ea34f42e440, 0x4e59929f8962d1c7, 0x96b442c43124d80e, 0xea1b011cbec961f9, 0xeed1c36b543e83d2, 0x321358a4b5925132, 0x54a1a78c0349fde, 0x267351925b2f048f, 0xb6d9a85e65692062, 0xc8de359b79e1c15d, 0xe900430d6083608d, 0xc8f485e8c7889aa4, 0xe81996b486922f56] := by decide

theorem kstep_hasBase_2 :
    keccakRound 2 [0x235ff9ba1cdf1d5b, 0x693422dc3f5923c9, 0xb2c994c0ad4efb9f, 0x22d006c1c88257ca, 0xfc2685c104c202f4, 0x5453e901449df7c6, 0xf2204a0e511009c1, 0xaeaca0139ec51411, 0x98965ff05e81c8cb, 0xd1eba56e8a255061, 0x565f89017543884b, 0xf07404718858b546, 0xcd0b6ea34f42e440, 0x4e59929f8962d1c7, 0x96b442c43124d80e, 0xea1b011cbec961f9, 0xeed1c36b543e83d2, 0x321358a4b5925132, 0x54a1a78c0349fde, 0x267351925b2f048f, 0xb6d9a85e65692062, 0xc8de359b79e1c15d, 0xe900430d6083608d, 0xc8f485e8c7889aa4, 0xe81996b486922f56] = [0xec826e59e95ca7b8, 0x17e6c9907a8cdd42, 0x3dfd935a3a646d0d, 0x6374822c445ca71b, 0xb9ba5d675e1c52e6, 0xeed276abfd2c208c, 0x3810cb069e713ca9, 0xccf8c95c145e751f, 0xda95e024e2241ebd, 0x9ae02720530ff347, 0x9937236d7598eddf, 0x6040dfb5bc5602e0, 0xbf5a8d522fdc4323, 0xf0497ca9a419216c, 0xc692ce38e2ce6674, 0x1f9ac0ea97fd0dc4, 0x16efd729b1b38ea0, 0x3ef4e0b985a18f84, 0x13c7e7831d90861f, 0x514cbe8f83a82fd9, 0xe3fbb9bbd7eca9eb, 0x1f28042bfd99ba4c, 0xdfea9d6a4b7996aa, 0x75df52b32b2d4897, 0x9ad25d437bd309da] := by decide

theorem kstep_hasBase_3 :
    keccakRound 3 [0xec826e59e95ca7b8, 0x17e6c9907a8cdd42, 0x3dfd935a3a646d0d, 0x6374822c445ca71b, 0xb9ba5d675e1c52e6, 0xeed276abfd2c208c, 0x3810cb069e713ca9, 0xccf8c95c145e751f, 0xda95e024e2241ebd, 0x9ae02720530ff347, 0x9937236d7598eddf, 0x6040dfb5bc5602e0, 0xbf5a8d522fdc4323, 0xf0497ca9a419216c, 0xc692ce38e2ce6674, 0x1f9ac0ea97fd0dc4, 0x16efd729b1b38ea0, 0x3ef4e0b985a18f84, 0x13c7e7831d90861f, 0x514cbe8f83a82fd9, 0xe3fbb9bbd7eca9eb, 0x1f28042bfd99ba4c, 0xdfea9d6a4b7996aa, 0x75df52b32b2d4897, 0x9ad25d437bd309da] = [0xe6b4208a55dbe120, 0x3789859fcd07757, 0xb942062d56a29014, 0xe7b98e032e5e47c, 0x9d92832e38800cc4, 0x964bf68ad8219245, 0x9252630e88c7b406, 0xfc4f5ce27f2d0200, 0x1a8bc78fd11c8182, 0x384f588c261e3839, 0xdc4f7ca22c176fb0, 0x1a34156e58238c35, 0x99a3f042a60e4cfd, 0xe4549a7487f639f0, 0xeb0ba67fce0d953a, 0x56688cc26bc01bd8, 0x704ac504f430473c, 0x3723d21c4da8216e, 0xd94f0c45a73b2e0, 0xc105353d6e89aed, 0xf9f9319744a7559b, 0x87159c1aaa870edf, 0xfae699929711da46, 0xb18c896c0c923251, 0x9cb0c3c9aa73e898] := by decide

theorem kstep_hasBase_4 :
    keccakRound 4 [0xe6b4208a55dbe120, 0x3789859fcd07757, 0xb942062d56a29014, 0xe7b98e032e5e47c, 0x9d92832e38800cc4, 0x964bf68ad8219245, 0x9252630e88c7b406, 0xfc4f5ce27f2d0200, 0x1a8bc78fd11c8182, 0x384f588c261e3839, 0xdc4f7ca22c176fb0, 0x1a34156e58238c35, 0x99a3f042a60e4cfd, 0xe4549a7487f639f0, 0xeb0ba67fce0d953a, 0x56688cc26bc01bd8, 0x704ac504f430473c, 0x3723d21c4da8216e, 0xd94f0c45a73b2e0, 0xc105353d6e89aed, 0xf9f9319744a7559b, 0x87159c1aaa870edf, 0xfae699929711da46, 0xb18c896c0c923251, 0x9cb0c3c9aa73e898] = [0xc549a3478c45ba1f, 0xb2d3e3384b6bf892, 0x13bd23c4bdb2e808, 0x294a69c710010855, 0x8eb5695a276835d0, 0x832ba776aa775a55, 0xb7009c6098b51904, 0x75ed3d9358ccccc1, 0x4bc10e320828a819, 0xdffbd2fa6089cdbf, 0xe50d8c7510445d87, 0x5324a8530e8f2442, 0xf12d8f70848fa573, 0xebc486a882a3fec2, 0xd298162c20345e72, 0x99b9e3cadaabe445, 0x96d84f9302ec3139, 0x7a127f73c654965f, 0x8e8d7c7351f1a90e, 0xf75806a3e145a388, 0x3fbae21bea6f8a8b, 0x97530edf01eb1c84, 0xf9f373defb7ad8da, 0xd99858f03a149694, 0x1bcc234a38744f2e] := by decide

theorem kstep_hasBase_5 :
    keccakRound 5 [0xc549a3478c45ba1f, 0xb2d3e3384b6bf892, 0x13bd23c4bdb2e808, 0x294a69c710010855, 0x8eb5695a276835d0, 0x832ba776aa775a55, 0xb7009c6098b51904, 0x75ed3d9358ccccc1, 0x4bc10e320828a819, 0xdffbd2fa6089cdbf, 0xe50d8c7510445d87, 0x5324a8530e8f2442, 0xf12d8f70848fa573, 0xebc486a882a3fec2, 0xd298162c20345e72, 0x99b9e3cadaabe445, 0x96d84f9302ec3139, 0x7a127f73c654965f, 0x8e8d7c7351f1a90e, 0xf75806a3e145a388, 0x3fbae21bea6f8a8b, 0x97530edf01eb1c84, 0xf9f373defb7ad8da, 0xd99858f03a149694, 0x1bcc234a38744f2e] = [0x3cca07ef2a1c65f7, 0x87419dbd1a869065, 0xe55839d6a6937481, 0x26de1a7e64e892ba, 0x7c6a290ff2ed21da, 0x460161e9de1b3639, 0x4ae15b318550f70c, 0x65f60c7c90323732, 0xe98b770f9a377b4, 0x42afc5d4b83edfd3, 0x6f4bc273ee8f71cf, 0x81980c4d581da047, 0xd340c9c916c8da13, 0xffd8547ee72099f9, 0x9bc7b89052bb7825, 0x32d85f94127571c8, 0xb2e8b6ec7f0b39ca, 0x88784a57a8b4fefd, 0x938ceb6c5ccf7cdc, 0x5c378195981b0bce, 0x29111f8da42ed094, 0xe8f0a4f1b99a9e68, 0x374e1149f6f16a28, 0xd6f9563504c8f1a1, 0xec5a113ae209488f] := by decide

theorem kstep_hasBase_6 :
    keccakRound 6 [0x3cca07ef2a1c65f7, 0x87419dbd1a869065, 0xe55839d6a6937481, 0x26de1a7e64e892ba, 0x7c6a290ff2ed21da, 0x460161e9de1b3639, 0x4ae15b318550f70c, 0x65f60c7c90323732, 0xe98b770f9a377b4, 0x42afc5d4b83edfd3, 0x6f4bc273ee8f71cf, 0x81980c4d581da047, 0xd340c9c916c8da13, 0xffd8547ee72099f9, 0x9bc7b89052bb7825, 0x32d85f94127571c8, 0xb2e8b6ec7f0b39ca, 0x88784a57a8b4fefd, 0x938ceb6c5ccf7cdc, 0x5c378195981b0bce, 0x29111f8da42ed094, 0xe8f0a4f1b99a9e68, 0x374e1149f6f16a28, 0xd6f9563504c8f1a1, 0xec5a113ae209488f] = [0xcde024b7ea12e381, 0x17db290bd53afc3d, 0x5e8e7325354f721a, 0xbbb8925c2e7a907a, 0x15792f303ae7c4d5, 0x9cc2917d2e0eb3ce, 0x964e3bd08fb88d54, 0x93bdb964866bb5d4, 0x896f9de30b8ec7b8, 0x229b263a765e1106, 0xb7daac5e14088786, 0xc91339763ce16ad7, 0x36f9e03caf73bed8, 0x4f3d09b754e6edd0, 0xab4203223be168ac, 0xfec17e975f96112f, 0xe037b65e54e153dd, 0x808b644258ebc569, 0xfd25f61ce9b2d9ce, 0xf02fe3820df5b26, 0x85a81a5425de3dc2, 0x4b4c3fd9c2e43d99, 0x30478b02df9a3f0c, 0x7760f857f4d5b063, 0xf4647c1766659f40] := by decide

theorem kstep_hasBase_7 :
    keccakRound 7 [0xcde024b7ea12e381, 0x17db290bd53afc3d, 0x5e8e7325354f721a, 0xbbb8925c2e7a907a, 0x15792f303ae7c4d5, 0x9cc2917d2e0eb3ce, 0x964e3bd08fb88d54, 0x93bdb964866bb5d4, 0x896f9de30b8ec7b8, 0x229b263a765e1106, 0xb7daac5e14088786, 0xc91339763ce16ad7, 0x36f9e03caf73bed8, 0x4f3d09b754e6edd0, 0xab4203223be168ac, 0xfec17e975f96112f, 0xe037b65e54e153dd, 0x808b644258ebc569, 0xfd25f61ce9b2d9ce, 0xf02fe3820df5b26, 0x85a81a5425de3dc2, 0x4b4c3fd9c2e43d99, 0x30478b02df9a3f0c, 0x7760f857f4d5b063, 0xf4647c1766659f40] = [0x8dbf68e7e92cf561, 0x93896bd82da4f0fa, 0xf17e3c78bc940e05, 0x69a3025000ff4481, 0xf1bed6b26a6e0e28, 0x4f728e5793c33e66, 0x4da414320f00b163, 0x9d270266bff00ff1, 0xcda2f577493f5958, 0x2798e61592ee3cb8, 0x30d7b55e90502a66, 0x4186262ba9f14425, 0x594b0afb8f176bad, 0xaf88f8141138d16b, 0x9f1b91e395314256, 0xed2837891ec7a3ee, 0xb2440213c657d2eb, 0x3fb9a98fa65466cb, 0xab772c331135c63a, 0x30f1eb0fa53c67d0, 0x56ab7d71c0f0e927, 0x1d87f0a8707cbe47, 0x94e68c73e56ae761, 0xa58fd69ffd45231f, 0x2b47a1d153de1735] := by decide

theorem kstep_hasBase_8 :
    keccakRound 8 [0x8dbf68e7e92cf561, 0x93896bd82da4f0fa, 0xf17e3c78bc940e05, 0x69a3025000ff4481, 0xf1bed6b26a6e0e28, 0x4f728e5793c33e66, 0x4da414320f00b163, 0x9d270266bff00ff1, 0xcda2f577493f5958, 0x2798e61592ee3cb8, 0x30d7b55e90502a66, 0x4186262ba9f14425, 0x594b0afb8f176bad, 0xaf88f8141138d16b, 0x9f1b91e395314256, 0xed2837891ec7a3ee, 0xb2440213c657d2eb, 0x3fb9a98fa65466cb, 0xab772c331135c63a, 0x30f1eb0fa53c67d0, 0x56ab7d71c0f0e927, 0x1d87f0a8707cbe47, 0x94e68c73e56ae761, 0xa58fd69ffd45231f, 0x2b47a1d153de1735] = [0x7de9cd9d0887a362, 0x3da3c34bc3537b75, 0xd28c3b0e48595c9b, 0xe5984fcdb171059f, 0x198aa193a80cf750, 0xcb994a70cd2b5e4f, 0x9bf06f1c47fb1132, 0x746160859fffd10b, 0x9fc4da99e629c9cc, 0xe5a90c82f4f09a1b, 0xddd587fe174f9d7f, 0x693c90f2e79d606b, 0x7181a771f5a9243d, 0x7f2c9cfba6771f8e, 0x227c8d7c0c11f147, 0x1d8f838f735f60c8, 0x464f8747f499319e, 0x9e6ebc0f19e58492, 0x71c4539a6641c299, 0x88de91403384bddf, 0xf2f95f8b7a1d8d2a, 0xf61aef23ecccad83, 0x760e6c85a4812825, 0x800f8ab6f7154af0, 0xa6110e27ec7f6a70] := by decide

theorem kstep_hasBase_9 :
    keccakRound 9 [0x7de9cd9d0887a362, 0x3da3c34bc3537b75, 0xd28c3b0e48595c9b, 0xe5984fcdb171059f, 0x198aa193a80cf750, 0xcb994a70cd2b5e4f, 0x9bf06f1c47fb1132, 0x746160859fffd10b, 0x9fc4da99e629c9cc, 0xe5a90c82f4f09a1b, 0xddd587fe174f9d7f, 0x693c90f2e79d606b, 0x7181a771f5a9243d, 0x7f2c9cfba6771f8e, 0x227c8d7c0c11f147, 0x1d8f838f735f60c8, 0x464f8747f499319e, 0x9e6ebc0f19e58492, 0x71c4539a6641c299, 0x88de91403384bddf, 0xf2f95f8b7a1d8d2a, 0xf61aef23ecccad83, 0x760e6c85a4812825, 0x800f8ab6f7154af0, 0xa6110e27ec7f6a70] = [0x430dd2393151d47a, 0xcebfa6d3a6bee728, 0xb829212fa0bdb0b2, 0x1df1f1ce29c57d00, 0xd1c0ead344077ccb, 0x1a0fea4e73bd057a, 0x4a1688d2cd1a95f, 0xb184ab9b374714f4, 0xd5c05fc4a06f32ed, 0xfce867a9cfa26b2b, 0xba9aae68e94bfae6, 0x4994dc6d02c11c98, 0x184a6210a440f39d, 0x48296cb4f8bd03f7, 0x25295faab99bf46d, 0x6be9a5bf872e860d, 0x6f67d9dc07b5cf9b, 0xd54a32cbaa8dec87, 0xf645d41dfee5a010, 0xa95c3a9883a71b5a, 0xc5687a99fcb39730, 0xc8a6e6c4393bb13d, 0xb799643f90b64865, 0xd03e42848f395975, 0x3bc52b1024ec8811] := by decide

theorem kstep_hasBase_10 :
    keccakRound 10 [0x430dd2393151d47a, 0xcebfa6d3a6bee728, 0xb829212fa0bdb0b2, 0x1df1f1ce29c57d00, 0xd1c0ead344077ccb, 0x1a0fea4e73bd057a, 0x4a1688d2cd1a95f, 0xb184ab9b374714f4, 0xd5c05fc4a06f32ed, 0xfce867a9cfa26b2b, 0xba9aae68e94bfae6, 0x4994dc6d02c11c98, 0x184a6210a440f39d, 0x48296cb4f8bd03f7, 0x25295faab99bf46d, 0x6be9a5bf872e860d, 0x6f67d9dc07b5cf9b, 0xd54a32cbaa8dec87, 0xf645d41dfee5a010, 0xa95c3a9883a71b5a, 0xc5687a99fcb39730, 0xc8a6e6c4393bb13d, 0xb799643f90b64865, 0xd03e42848f395975, 0x3bc52b1024ec8811] = [0xa9a35a34624edc26, 0x854dcaad55554efe, 0x9de95b86bd1ba97f, 0x1f99fbf45cd6f417, 0x3d0d01ddc7a70335, 0xb08becdb446dd893, 0x9d90b158c224239a, 0x3d213f11839694d9, 0x26e3a52fc97f491, 0x74b68d2bfee022d2, 0x622b269649063f0a, 0x4603ffa124d713a3, 0x29b7be3a631c14a2, 0x4c7beca71ad5b195, 0x8e188f3ac980dd2f, 0x2c00c4e3746c4ae7, 0xe0d2de74940f2c78, 0x93a7e265c3a4c783, 0xe5f6ca1d475857c7, 0x41142976e5bf6653, 0xa63b391ea9cec08d, 0x98d43c0d0f082e0, 0x1a191e089c4c690d, 0x77c9373cbbb697c, 0x879b8fd6fa08b441] := by decide

theorem kstep_hasBase_11 :
    keccakRound 11 [0xa9a35a34624edc26, 0x854dcaad55554efe, 0x9de95b86bd1ba97f, 0x1f99fbf45cd6f417, 0x3d0d01ddc7a70335, 0xb08becdb446dd893, 0x9d90b158c224239a, 0x3d213f11839694d9, 0x26e3a52fc97f491, 0x74b68d2bfee022d2, 0x622b269649063f0a, 0x4603ffa124d713a3, 0x29b7be3a631c14a2, 0x4c7beca71ad5b195, 0x8e188f3ac980dd2f, 0x2c00c4e3746c4ae7, 0xe0d2de74940f2c78, 0x93a7e265c3a4c783, 0xe5f6ca1d475857c7, 0x41142976e5bf6653, 0xa63b391ea9cec08d, 0x98d43c0d0f082e0, 0x1a191e089c4c690d, 0x77c9373cbbb697c, 0x879b8fd6fa08b441] = [0x91858d98b1e572c9, 0x89d7aee284110f55, 0x5ef1658dd27837ee, 0x4712bcb0deb1af94, 0x407c181e9e0030bf, 0x9821f2b093fd9a06, 0x3688fb89f4d05805, 0x690d1c38861cdbf8, 0xf253400d0ece0d71, 0x5da894eaacfd10c0, 0xbf63c54290cae27e, 0x29318be68914e5eb, 0xe1c438d66ebce747, 0x23a745f403ca9038, 0xbedeaab133b735d7, 0x79bc6f7bb7c3d5ef, 0x5264476cea158661, 0xa57ed6bce4a48878, 0x950fb70995267c51, 0x4044e4fb220300b3, 0x7b01aeea9bab71d4, 0x54017bab6d3497b5, 0xdc4c1d7e35004e49, 0x4c89242a5d0f95f3, 0xe05dde10be00f684] := by decide

theorem kstep_hasBase_12 :
    keccakRound 12 [0x91858d98b1e572c9, 0x89d7aee284110f55, 0x5ef1658dd27837ee, 0x4712bcb0deb1af94, 0x407c181e9e0030bf, 0x9821f2b093fd9a06, 0x3688fb89f4d05805, 0x690d1c38861cdbf8, 0xf253400d0ece0d71, 0x5da894eaacfd10c0, 0xbf63c54290cae27e, 0x29318be68914e5eb, 0xe1c438d66ebce747, 0x23a745f403ca9038, 0xbedeaab133b735d7, 0x79bc6f7bb7c3d5ef, 0x5264476cea158661, 0xa57ed6bce4a48878, 0x950fb70995267c51, 0x4044e4fb220300b3, 0x7b01aeea9bab71d4, 0x54017bab6d3497b5, 0xdc4c1d7e35004e49, 0x4c89242a5d0f95f3, 0xe05dde10be00f684] = [0x3b93479255651730, 0x26ece5c8f8d69f89, 0xcfd5d168606a70a9, 0x2ca888ae40a3c269, 0x44a7ce767429b9b2, 0xa0f5a0da2fb3f8c4, 0x833db5490e8f27ce, 0xeb284bbb89d312c5, 0x16e05d01c558d4ce, 0xd58f47d4f9da87b, 0xc775c2b191a07398, 0x31b38db3d6f1525a, 0x1ae6c31fdd4437fc, 0xd40966946222cf4f, 0xebc9c52d3602e854, 0x57c346b2e63b452c, 0xb5d3f0db32e2fc7d, 0x7671da064f4ea308, 0xa0131e94e7c7d3fa, 0x8df515dec6cc481c, 0xfc5ef4c0e3fd4e97, 0xd70dbfc8a8ab9127, 0x9641de8421ab9a5a, 0xc2e7fe35134fc3ab, 0xfa195f758ddc1ffa] := by decide

theorem kstep_hasBase_13 :
    keccakRound 13 [0x3b93479255651730, 0x26ece5c8f8d69f89, 0xcfd5d168606a70a9, 0x2ca888ae40a3c269, 0x44a7ce767429b9b2, 0xa0f5a0da2fb3f8c4, 0x833db5490e8f27ce, 0xeb284bbb89d312c5, 0x16e05d01c558d4ce, 0xd58f47d4f9da87b, 0xc775c2b191a07398, 0x31b38db3d6f1525a, 0x1ae6c31fdd4437fc, 0xd40966946222cf4f, 0xebc9c52d3602e854, 0x57c346b2e63b452c, 0xb5d3f0db32e2fc7d, 0x7671da064f4ea308, 0xa0131e94e7c7d3fa, 0x8df515dec6cc481c, 0xfc5ef4c0e3fd4e97, 0xd70dbfc8a8ab9127, 0x9641de8421ab9a5a, 0xc2e7fe35134fc3ab, 0xfa195f758ddc1ffa] = [0x8236d57de030a547, 0xfe99dcda21cf44e5, 0x71e6470a81b15440, 0x1b06d45839fa2025, 0xbc77187927fe666c, 0xd9cdee0cd5bb7b88, 0x8f4d7ed48f47eb00, 0x77809bcf122aaba6, 0x7608fdc4bbbbc72e, 0xc932eda215f9b5cd, 0x5a09d5c5d5afa116, 0x639ebb856cedbc0f, 0x178ef9df4423fb0, 0x1729c294b88eaaec, 0xb1ad686399cf0fb4, 0xff52dacd61285d3f, 0x9c6cea8f9eed5d53, 0xa6b48279e43033c9, 0xb6c96bb35ba629d7, 0x9e9278c8e5871ab3, 0x4806f95f6f5ec92b, 0xd9792faf6bab2f70, 0x5b136a6538ddd428, 0xb5cb00def6aef98b, 0x46e74d5f482e7b06] := by decide

theorem kstep_hasBase_14 :
    keccakRound 14 [0x8236d57de030a547, 0xfe99dcda21cf44e5, 0x71e6470a81b15440, 0x1b06d45839fa2025, 0xbc77187927fe666c, 0xd9cdee0cd5bb7b88, 0x8f4d7ed48f47eb00, 0x77809bcf122aaba6, 0x7608fdc4bbbbc72e, 0xc932eda215f9b5cd, 0x5a09d5c5d5afa116, 0x639ebb856cedbc0f, 0x178ef9df4423fb0, 0x1729c294b88eaaec, 0xb1ad686399cf0fb4, 0xff52dacd61285d3f, 0x9c6cea8f9eed5d53, 0xa6b48279e43033c9, 0xb6c96bb35ba629d7, 0x9e9278c8e5871ab3, 0x4806f95f6f5ec92b, 0xd9792faf6bab2f70, 0x5b136a6538ddd428, 0xb5cb00def6aef98b, 0x46e74d5f482e7b06] = [0x93149526e99f15fc, 0xd0efaec50457b16f, 0xb3e83df269defbe4, 0x353d8e2a2418e228, 0x1137e81a0c09b4a1, 0x29bad38d2d8a6df4, 0xc685f3adecfdd577, 0x419ee1e5684cc827, 0xff1e3afa3ba444fe, 0xafc5def2765ba1d9, 0x62975ec765ead00c, 0x4771ebc061ecc77c, 0x1c86eeac2f8e3e82, 0xa063a2a7c6d89386, 0x2598bce65c73eee3, 0xad6441332540f892, 0xd9cc0faa9e66f60b, 0x7f72aa529c22eca4, 0xac0c5e2e15bba1c2, 0x2cf6530f5efe5eec, 0xe71cac9a26fe421f, 0xe49ed5b36e006e5f, 0x36138a53ecf922a1, 0x8b4abc42c19628a7, 0x6273112287460b0a] := by decide

theorem kstep_hasBase_15 :
    keccakRound 15 [0x93149526e99f15fc, 0xd0efaec50457b16f, 0xb3e83df269defbe4, 0x353d8e2a2418e228, 0x1137e81a0c09b4a1, 0x29bad38d2d8a6df4, 0xc685f3adecfdd577, 0x419ee1e5684cc827, 0xff1e3afa3ba444fe, 0xafc5def2765ba1d9, 0x62975ec765ead00c, 0x4771ebc061ecc77c, 0x1c86eeac2f8e3e82, 0xa063a2a7c6d89386, 0x2598bce65c73eee3, 0xad6441332540f892, 0xd9cc0faa9e66f60b, 0x7f72aa529c22eca4, 0xac0c5e2e15bba1c2, 0x2cf6530f5efe5eec, 0xe71cac9a26fe421f, 0xe49ed5b36e006e5f, 0x36138a53ecf922a1, 0x8b4abc42c19628a7, 0x6273112287460b0a] = [0xd5810227f5065da2, 0x2407791fae95cf29, 0xea66f556335a58c5, 0x86378da34ff0c55b, 0xa3bac23b66ba00ef, 0x110ec3e93397304e, 0x1622f987359f5438, 0xf58fd7941904c81, 0xc15669499f540f5, 0x7e2bd9d81d81083f, 0x1b5efcf0372a4ade, 0xb599df85fb655f68, 0x30ee78903b507bc2, 0x7b5ccf7722f7881d, 0x13edac9ca0cb3ca7, 0x1aea9004bac44594, 0x123964921ace2851, 0x4068c5cea14dd04c, 0x5542ee88d77ad193, 0x1d964aacfb584af5, 0xcd696cff4e8bfd2d, 0x82b9b51c33ed6c3c, 0x198fe2afcbcab226, 0x224a35143220e252, 0xc7649409c67fe93c] := by decide

theorem kstep_hasBase_16 :
    keccakRound 16 [0xd5810227f5065da2, 0x2407791fae95cf29, 0xea66f556335a58c5, 0x86378da34ff0c55b, 0xa3bac23b66ba00ef, 0x110ec3e93397304e, 0x1622f987359f5438, 0xf58fd7941904c81, 0xc15669499f540f5, 0x7e2bd9d81d81083f, 0x1b5efcf0372a4ade, 0xb599df85fb655f68, 0x30ee78903b507bc2, 0x7b5ccf7722f7881d, 0x13edac9ca0cb3ca7, 0x1aea9004bac44594, 0x123964921ace2851, 0x4068c5cea14dd04c, 0x5542ee88d77ad193, 0x1d964aacfb584af5, 0xcd696cff4e8bfd2d, 0x82b9b51c33ed6c3c, 0x198fe2afcbcab226, 0x224a35143220e252, 0xc7649409c67fe93c] = [0xf4f6fc3914852bc, 0x5408067e94de240, 0xc6295f58624dcaca, 0x590739ce6136c73d, 0xea17772fd221312c, 0x8f182e1eb831a0dd, 0x48605c0035e78eaa, 0xed07d2520f046a9b, 0x1f944c4c835c6b24, 0xb0ab827091b4c6d8, 0x71eea598c2267464, 0x6645642ae36f0d0c, 0x19908a41b918a0e6, 0x4d44fe29495b910d, 0x620dfb178be7d679, 0xe9a25a6c59cfc771, 0x35aa788aaf89741c, 0x9642f2f3c6ecf896, 0xf3127da4967de0ef, 0xd69f4433d9cca2c4, 0x7967819dd611ed41, 0x22749b715f3a3331, 0xf0d88575f6e657f, 0x21cc844a2d99f998, 0x488773f5e925a30a] := by decide

theorem kstep_hasBase_17 :
    keccakRound 17 [0xf4f6fc3914852bc, 0x5408067e94de240, 0xc6295f58624dcaca, 0x590739ce6136c73d, 0xea17772fd221312c, 0x8f182e1eb831a0dd, 0x48605c0035e78eaa, 0xed07d2520f046a9b, 0x1f944c4c835c6b24, 0xb0ab827091b4c6d8, 0x71eea598c2267464, 0x6645642ae36f0d0c, 0x19908a41b918a0e6, 0x4d44fe29495b910d, 0x620dfb178be7d679, 0xe9a25a6c59cfc771, 0x35aa788aaf89741c, 0x9642f2f3c6ecf896, 0xf3127da4967de0ef, 0xd69f4433d9cca2c4, 0x7967819dd611ed41, 0x22749b715f3a3331, 0xf0d88575f6e657f, 0x21cc844a2d99f998, 0x488773f5e925a30a] = [0x76e5b130f7167dfb, 0x590224e9cfc6b8ac, 0xb345588198abaa6f, 0x2ac5b207a6fd9d0e, 0x9eb40af3ff405459, 0xcdd4687a497a0b76, 0x79860609380eb7b8, 0x71ad5d5442aa8ce7, 0x719bb1649e540804, 0x403400ecd236f5e6, 0x73dcac1ba58023b1, 0xa39b59b8648925d4, 0xa659bd03a957ddc1, 0x2c4d1600365aacdd, 0xb5f9923a50539ea8, 0x1adeba190d8b23d2, 0x640a448d457b03e9, 0x2f816bf396fe6143, 0xb6ff04794c430fa5, 0xa5e72f0eb8e17029, 0x9221180583446811, 0x1ffcdbe15e9fde8d, 0x1a7d0c3efe299da9, 0xf155487dd8ad776e, 0x3f75ffcedc69022e] := by decide

theorem kstep_hasBase_18 :
    keccakRound 18 [0x76e5b130f7167dfb, 0x590224e9cfc6b8ac, 0xb345588198abaa6f, 0x2ac5b207a6fd9d0e, 0x9eb40af3ff405459, 0xcdd4687a497a0b76, 0x79860609380eb7b8, 0x71ad5d5442aa8ce7, 0x719bb1649e540804, 0x403400ecd236f5e6, 0x73dcac1ba58023b1, 0xa39b59b8648925d4, 0xa659bd03a957ddc1, 0x2c4d1600365aacdd, 0xb5f9923a50539ea8, 0x1adeba190d8b23d2, 0x640a448d457b03e9, 0x2f816bf396fe6143, 0xb6ff04794c430fa5, 0xa5e72f0eb8e17029, 0x9221180583446811, 0x1ffcdbe15e9fde8d, 0x1a7d0c3efe299da9, 0xf155487dd8ad776e, 0x3f75ffcedc69022e] = [0x73dfd1f2fef89fa4, 0xea6c0bb0b65725a3, 0x4742e1f28c4ce3dc, 0x61ddb3a224a05089, 0xca2c930c9fb403fa, 0xe6c3202da2b5ea8d, 0x314c369894c5da27, 0x2f15afb5e3740e47, 0xac830d0243ffe22, 0xa178cd88b81cdd04, 0xd52b9b24e9cef22a, 0x54421bf78d7e1dfe, 0xa21b0ee1be1facd3, 0x6ec8632c68c1d91c, 0x6aa64e502d1244b6, 0x3a79d447f96077e8, 0xfce82dcd4e0c56d, 0xa880c51c844191e6, 0xcbc0471db6eda0d, 0xedc1ccbeaa7efeee, 0xcea7a69ea92d97cc, 0x1863924a969e4fc0, 0x20a5ed488038f7a1, 0xd12217a1c5712926, 0xf496ca0aa0297cd1] := by decide

theorem kstep_hasBase_19 :
    keccakRound 19 [0x73dfd1f2fef89fa4, 0xea6c0bb0b65725a3, 0x4742e1f28c4ce3dc, 0x61ddb3a224a05089, 0xca2c930c9fb403fa, 0xe6c3202da2b5ea8d, 0x314c369894c5da27, 0x2f15afb5e3740e47, 0xac830d0243ffe22, 0xa178cd88b81cdd04, 0xd52b9b24e9cef22a, 0x54421bf78d7e1dfe, 0xa21b0ee1be1facd3, 0x6ec8632c68c1d91c, 0x6aa64e502d1244b6, 0x3a79d447f96077e8, 0xfce82dcd4e0c56d, 0xa880c51c844191e6, 0xcbc0471db6eda0d, 0xedc1ccbeaa7efeee, 0xcea7a69ea92d97cc, 0x1863924a969e4fc0, 0x20a5ed488038f7a1, 0xd12217a1c5712926, 0xf496ca0aa0297cd1] = [0xdaaca74125395636, 0x7731f11e5ef7afbb, 0xb479ee769efda5f9, 0x10e555599dbeb5d4, 0xe761076b574438c2, 0xf8546d601273e7e, 0xf938dd5f54332ef0, 0x40922eb8803ddf1e, 0x5388c78aa869be42, 0x12dbf8acc753249, 0x9c8f876a906a0d3b, 0x9758cc3a98dfc351, 0x1cc8011da278546d, 0xd405717921bc3c58, 0x32e5f38171427c33, 0x591b88494b8ffa96, 0x9fe635fcb781ed83, 0x22cac25bb3c2a88b, 0x323588a030c84ae4, 0x416234472711f05f, 0x9dc18e6c69d1e084, 0xf1c4b5b875617df1, 0xc7863cfcf9665e68, 0x49fee02e051b084d, 0xc15d1fa577998694] := by decide

theorem kstep_hasBase_20 :
    keccakRound 20 [0xdaaca74125395636, 0x7731f11e5ef7afbb, 0xb479ee769efda5f9, 0x10e555599dbeb5d4, 0xe761076b574438c2, 0xf8546d601273e7e, 0xf938dd5f54332ef0, 0x40922eb8803ddf1e, 0x5388c78aa869be42, 0x12dbf8acc753249, 0x9c8f876a906a0d3b, 0x9758cc3a98dfc351, 0x1cc8011da278546d, 0xd405717921bc3c58, 0x32e5f38171427c33, 0x591b88494b8ffa96, 0x9fe635fcb781ed83, 0x22cac25bb3c2a88b, 0x323588a030c84ae4, 0x416234472711f05f, 0x9dc18e6c69d1e084, 0xf1c4b5b875617df1, 0xc7863cfcf9665e68, 0x49fee02e051b084d, 0xc15d1fa577998694] = [0x71be46abfdbc6719, 0x4e0416a9a07668a2, 0x9e2e4f1ae1b7548e, 0xbaa6657271433cda, 0x9b4c2eddc34e0da3, 0xa7e462f1fa6a6232, 0x11fa18931a97c65d, 0x9ec974e523314888, 0x4487078c077bfb90, 0xbd2e505b79c8b994, 0xd16752574b88c115, 0x81ac61c6bca29cda, 0x9345a49cae64895e, 0x7858c620b43bbba6, 0x92d1ead5b4adb0ae, 0xbb95479b10a85a6d, 0xb2affdff975a24dd, 0x6ba1829127b33983, 0x6a0610a5e81f4450, 0xc2c5155e10d0d150, 0x97936c626115ad5b, 0x667fc5987d94a132, 0xce794fc276d60b36, 0xbd2bc694444cf7, 0xf9f22fb8a14a89a9] := by decide

theorem kstep_hasBase_21 :
    keccakRound 21 [0x71be46abfdbc6719, 0x4e0416a9a07668a2, 0x9e2e4f1ae1b7548e, 0xbaa6657271433cda, 0x9b4c2eddc34e0da3, 0xa7e462f1fa6a6232, 0x11fa18931a97c65d, 0x9ec974e523314888, 0x4487078c077bfb90, 0xbd2e505b79c8b994, 0xd16752574b88c115, 0x81ac61c6bca29cda, 0x9345a49cae64895e, 0x7858c620b43bbba6, 0x92d1ead5b4adb0ae, 0xbb95479b10a85a6d, 0xb2affdff975a24dd, 0x6ba1829127b33983, 0x6a0610a5e81f4450, 0xc2c5155e10d0d150, 0x97936c626115ad5b, 0x667fc5987d94a132, 0xce794fc276d60b36, 0xbd2bc694444cf7, 0xf9f22fb8a14a89a9] = [0x2f2e4d299b75545d, 0x8aedb02a37987bc6, 0xce9a1a36161771a2, 0x96d15943f68a2a8f, 0x927be97762fcb1d3, 0x8c2a78be283ad0aa, 0xc0eaa56ebc781193, 0x7f949ee935479783, 0x5b11dcb721ad6e14, 0x236e41a4c81d4388, 0x97ff627ad9962a60, 0x739703f88944fd3b, 0x716da963249e6397, 0x7126cbd4cbc303d8, 0xd7801ffa78bde15e, 0x4256c377e88fc054, 0xbd1d8c65d6296b7b, 0x4604fc9b7108219, 0x752edb1c73661c57, 0x5728d2248b96967a, 0x528b496e8c2782fc, 0x5a34fa4663aafdb6, 0x1bd1baa4f7840538, 0x55d93b8c3a8cb298, 0x8af442308e633a82] := by decide

theorem kstep_hasBase_22 :
    keccakRound 22 [0x2f2e4d299b75545d, 0x8aedb02a37987bc6, 0xce9a1a36161771a2, 0x96d15943f68a2a8f, 0x927be97762fcb1d3, 0x8c2a78be283ad0aa, 0xc0eaa56ebc781193, 0x7f949ee935479783, 0x5b11dcb721ad6e14, 0x236e41a4c81d4388, 0x97ff627ad9962a60, 0x739703f88944fd3b, 0x716da963249e6397, 0x7126cbd4cbc303d8, 0xd7801ffa78bde15e, 0x4256c377e88fc054, 0xbd1d8c65d6296b7b, 0x4604fc9b7108219, 0x752edb1c73661c57, 0x5728d2248b96967a, 0x528b496e8c2782fc, 0x5a34fa4663aafdb6, 0x1bd1baa4f7840538, 0x55d93b8c3a8cb298, 0x8af442308e633a82] = [0x914e32282b688e2, 0x4dda34f69fc88fcb, 0x24817cbc3c20f3ef, 0x9ed6e7e40779658c, 0xc35225771edd14a2, 0x11cc15be33f9982e, 0x5f815b17fbad3b2c, 0xc18433eb22dd26f4, 0x100d61c7deae6ed3, 0x11a97aea7951b9f1, 0x9e9aa88c0e1ba534, 0x4328ad880d564e67, 0x757717fde9a89efa, 0x768a543b7d05adaf, 0xfc909202e8591880, 0x3970b4270e713bc1, 0x35d784198918bb94, 0x955a308e02d2ab22, 0x301b51152070cb5d, 0xf07ad8a587da45c7, 0xa005ff2a2ca69d6, 0xece8a02d1eae78ab, 0xae6e5642ebb14101, 0xd8f9dd389809c2e6, 0xb2a778468198c092] := by decide

theorem kstep_hasBase_23 :
    keccakRound 23 [0x914e32282b688e2, 0x4dda34f69fc88fcb, 0x24817cbc3c20f3ef, 0x9ed6e7e40779658c, 0xc35225771edd14a2, 0x11cc15be33f9982e, 0x5f815b17fbad3b2c, 0xc18433eb22dd26f4, 0x100d61c7deae6ed3, 0x11a97aea7951b9f1, 0x9e9aa88c0e1ba534, 0x4328ad880d564e67, 0x757717fde9a89efa, 0x768a543b7d05adaf, 0xfc909202e8591880, 0x3970b4270e713bc1, 0x35d784198918bb94, 0x955a308e02d2ab22, 0x301b51152070cb5d, 0xf07ad8a587da45c7, 0xa005ff2a2ca69d6, 0xece8a02d1eae78ab, 0xae6e5642ebb14101, 0xd8f9dd389809c2e6, 0xb2a778468198c092] = [0xf331d6c574655b22, 0xd9f54ac2e921eb46, 0x95f4dc58e26fe17b, 0x9544ad45a4420f35, 0xdbba47b92101965c, 0xb00e52566eeec03c, 0xb703b2d9bfd6b764, 0x15a84b59503b566b, 0xf3f9c09d23e194e1, 0x45b8a187359c5305, 0x1ca9f33de09d5762, 0x8f97771d6ff465d0, 0x18f27b9ac291c954, 0xa8e5b81fee2554ca, 0xdbc55d5cabfdf8a7, 0x48bf4b28b44c1084, 0x52015f76fa3ecfac, 0x513015b2d2383780, 0x7459ea00764dbebc, 0x1eea676feda65612, 0x3366c1a3fdeea199, 0x46f1634a3041db43, 0xb3b58e5363c3ede9, 0x5ad239a8846744c4, 0x31c8b6d0c4b22942] := by decide

theorem selector_hasBase : selector "hasBase(address,uint64)" = [0x22, 0x5b, 0x65, 0x74] := by
  unfold selector keccak256
  rw [show keccakBlocks ((strBytes "hasBase(address,uint64)").length / 136 + 1) (strBytes "hasBase(address,uint64)")
        = [[104, 97, 115, 66, 97, 115, 101, 40, 97, 100, 100, 114, 101, 115, 115, 44, 117, 105, 110, 116, 54, 52, 41, 1, 0, 0, 0, 0, 0, 0, 0, 0, 0, 0, 0, 0, 0, 0, 0, 0, 0, 0, 0, 0, 0, 0, 0, 0, 0, 0, 0, 0, 0, 0, 0, 0, 0, 0, 0, 0, 0, 0, 0, 0, 0, 0, 0, 0, 0, 0, 0, 0, 0, 0, 0, 0, 0, 0, 0, 0, 0, 0, 0, 0, 0, 0, 0, 0, 0, 0, 0, 0, 0, 0, 0, 0, 0, 0, 0, 0, 0, 0, 0, 0, 0, 0, 0, 0, 0, 0, 0, 0, 0, 0, 0, 0, 0, 0, 0, 0, 0, 0, 0, 0, 0, 0, 0, 0, 0, 0, 0, 0, 0, 0, 0, 128]] by decide]
  simp only [List.foldl_cons, List.foldl_nil, absorbBlock]
  rw [show xorBlock (List.replicate 25 0) [104, 97, 115, 66, 97, 115, 101, 40, 97, 100, 100, 114, 101, 115, 115, 44, 117, 105, 110, 116, 54, 52, 41, 1, 0, 0, 0, 0, 0, 0, 0, 0, 0, 0, 0, 0, 0, 0, 0, 0, 0, 0, 0, 0, 0, 0, 0, 0, 0, 0, 0, 0, 0, 0, 0, 0, 0, 0, 0, 0, 0, 0, 0, 0, 0, 0, 0, 0, 0, 0, 0, 0, 0, 0, 0, 0, 0, 0, 0, 0, 0, 0, 0, 0, 0, 0, 0, 0, 0, 0, 0, 0, 0, 0, 0, 0, 0, 0, 0, 0, 0, 0, 0, 0, 0, 0, 0, 0, 0, 0, 0, 0, 0, 0, 0, 0, 0, 0, 0, 0, 0, 0, 0, 0, 0, 0, 0, 0, 0, 0, 0, 0, 0, 0, 0, 128] = [0x2865736142736168, 0x2c73736572646461, 0x1293436746e6975, 0x0, 0x0, 0x0, 0x0, 0x0, 0x0, 0x0, 0x0, 0x0, 0x0, 0x0, 0x0, 0x0, 0x8000000000000000, 0x0, 0x0, 0x0, 0x0, 0x0, 0x0, 0x0, 0x0] by decide]
  rw [keccakF_unfold]
  rw [kstep_hasBase_0, kstep_hasBase_1, kstep_hasBase_2, kstep_hasBase_3, kstep_hasBase_4, kstep_hasBase_5, kstep_hasBase_6, kstep_hasBase_7, kstep_hasBase_8, kstep_hasBase_9, kstep_hasBase_10, kstep_hasBase_11, kstep_hasBase_12, kstep_hasBase_13, kstep_hasBase_14, kstep_hasBase_15, kstep_hasBase_16, kstep_hasBase_17, kstep_hasBase_18, kstep_hasBase_19, kstep_hasBase_20, kstep_hasBase_21, kstep_hasBase_22, kstep_hasBase_23]
  decide

theorem kstep_setGlobal_0 :
    keccakRound 0 [0x61626f6c47746573, 0x3436746e6975286c, 0x1296c6f6f622c, 0x0, 0x0, 0x0, 0x0, 0x0, 0x0, 0x0, 0x0, 0x0, 0x0, 0x0, 0x0, 0x0, 0x8000000000000000, 0x0, 0x0, 0x0, 0x0, 0x0, 0x0, 0x0, 0x0] = [0x84fc61125be07ea, 0xae9e3e5a47db49be, 0xbb7167b3819ac3db, 0x258569ecc086052f, 0x95a613bc30f8f8a1, 0xc491f640d1129014, 0xf988d684aec83d79, 0xc1e5c4675f5aa2c3, 0x14554c0e07b681a7, 0xbf8ec601e3428944, 0x7aee57f1e1bf12dc, 0x99d1b90fd80ffad, 0xfbffdde55b250363, 0xcc52489a4850f4ce, 0xa66243a35f25a892, 0x442594371e1606f6, 0x14a4290e92fcdfd7, 0x84f6d367c2cd88e5, 0xfa4072ec86265a8f, 0x68008a9eca7e66b, 0x4d68a421c1cedad6, 0x968080042fa72611, 0x756537634445684f, 0xfcacb3d058d5abb5, 0x9780f646509ba18c] := by decide

theorem kstep_setGlobal_1 :
    keccakRound 1 [0x84fc61125be07ea, 0xae9e3e5a47db49be, 0xbb7167b3819ac3db, 0x258569ecc086052f, 0x95a613bc30f8f8a1, 0xc491f640d1129014, 0xf988d684aec83d79, 0xc1e5c4675f5aa2c3, 0x14554c0e07b681a7, 0xbf8ec601e3428944, 0x7aee57f1e1bf12dc, 0x99d1b90fd80ffad, 0xfbffdde55b250363, 0xcc52489a4850f4ce, 0xa66243a35f25a892, 0x442594371e1606f6, 0x14a4290e92fcdfd7, 0x84f6d367c2cd88e5, 0xfa4072ec86265a8f, 0x68008a9eca7e66b, 0x4d68a421c1cedad6, 0x968080042fa72611, 0x756537634445684f, 0xfcacb3d058d5abb5, 0x9780f646509ba18c] = [0xfddb3ee56225b423, 0xa2799b60ca53832c, 0x4b9ad2af6ed00a8e, 0xa77c9bd4edd63da5, 0x3f5f6537adedc689, 0x1f7ec3a9f2deda21, 0x52a8d57aaacba2fd, 0xbc545afcf4e648ac, 0x2066e04d0f70dbfd, 0xb62d2e7e8d4628f, 0xfa20ef0f059e7239, 0xe1faaafdeda5a73b, 0x7b30ff407b26d976, 0x140bb021b155188f, 0xe4b78b26ec1f2073, 0xea46ee5e820d84d0, 0xa0a79c73402e189, 0x41c3302e41ae9d48, 0xc3d4ca17bcd957c2, 0x44aed1780f68dc1f, 0x3400384ff1dd6da3, 0x619d16c3ec2254ad, 0xb04c75b2776d2548, 0xceba2fdc02909ada, 0x2b1c8be382ff68db] := by decide

theorem kstep_setGlobal_2 :
    keccakRound 2 [0xfddb3ee56225b423, 0xa2799b60ca53832c, 0x4b9ad2af6ed00a8e, 0xa77c9bd4edd63da5, 0x3f5f6537adedc689, 0x1f7ec3a9f2deda21, 0x52a8d57aaacba2fd, 0xbc545afcf4e648ac, 0x2066e04d0f70dbfd, 0xb62d2e7e8d4628f, 0xfa20ef0f059e7239, 0xe1faaafdeda5a73b, 0x7b30ff407b26d976, 0x140bb021b155188f, 0xe4b78b26ec1f2073, 0xea46ee5e820d84d0, 0xa0a79c73402e189, 0x41c3302e41ae9d48, 0xc3d4ca17bcd957c2, 0x44aed1780f68dc1f, 0x3400384ff1dd6da3, 0x619d16c3ec2254ad, 0xb04c75b2776d2548, 0xceba2fdc02909ada, 0x2b1c8be382ff68db] = [0x4bf2664decae6206, 0x11592e8b9fb6639, 0x7f601962910363b3, 0x3cd64a46fe36bba0, 0xb4cf82bbf205208, 0x973602dd6aeff658, 0x6b5d829a9e01cea5, 0x978c2536dc89a8a4, 0x2b7b056c5b561ffa, 0x7ec954544a308784, 0x54ecf4fa56a86119, 0x938358142ac67e3d, 0xc9df99e53216ac9c, 0x4e57ae2cbd8541cf, 0xa692f75c4b7ee763, 0x244fe2ec3165714f, 0x56c9f5a47777a0a7, 0x60665a82d1434f6f, 0xf3b527cdd4ed9dc7, 0x2cddabd0cb0621f8, 0xc11a051a5bb84f95, 0xed92da8f0461e2d5, 0x152c92c13756ed42, 0x8ca3fa006717a89b, 0x52f36cbf90873d7d] := by decide

theorem kstep_setGlobal_3 :
    keccakRound 3 [0x4bf2664decae6206, 0x11592e8b9fb6639, 0x7f601962910363b3, 0x3cd64a46fe36bba0, 0xb4cf82bbf205208, 0x973602dd6aeff658, 0x6b5d829a9e01cea5, 0x978c2536dc89a8a4, 0x2b7b056c5b561ffa, 0x7ec954544a308784, 0x54ecf4fa56a86119, 0x938358142ac67e3d, 0xc9df99e53216ac9c, 0x4e57ae2cbd8541cf, 0xa692f75c4b7ee763, 0x244fe2ec3165714f, 0x56c9f5a47777a0a7, 0x60665a82d1434f6f, 0xf3b527cdd4ed9dc7, 0x2cddabd0cb0621f8, 0xc11a051a5bb84f95, 0xed92da8f0461e2d5, 0x152c92c13756ed42, 0x8ca3fa006717a89b, 0x52f36cbf90873d7d] = [0xf7e3908be9052d4a, 0x28f75bad2068365c, 0x37cdee88f419f0c1, 0x54f8f343378bf3ac, 0x67d719985c49bb89, 0x5f42332f4baed3f1, 0x626b96648450a4b8, 0x84ed30e1585376ab, 0x848cd044db3e3f38, 0x4365d5c367b85708, 0x7e579a23938cf41, 0x712ef93927417966, 0x9bdeadb879811ffb, 0x4b7c573630fe4200, 0x6f3b8a142760942b, 0xc982162bdbb06016, 0x3573516bcbf10630, 0xfb53378bc6dbf178, 0x212c6caba99da6d9, 0xdcdfa0ef4b704090, 0x9c4a41eb6e57c2b4, 0xfe3fbeb8aee4a0d2, 0x44091ef5208df4a, 0xa2e7063ca72561fd, 0xe0e563da349a8853] := by decide

theorem kstep_setGlobal_4 :
    keccakRound 4 [0xf7e3908be9052d4a, 0x28f75bad2068365c, 0x37cdee88f419f0c1, 0x54f8f343378bf3ac, 0x67d719985c49bb89, 0x5f42332f4baed3f1, 0x626b96648450a4b8, 0x84ed30e1585376ab, 0x848cd044db3e3f38, 0x4365d5c367b85708, 0x7e579a23938cf41, 0x712ef93927417966, 0x9bdeadb879811ffb, 0x4b7c573630fe4200, 0x6f3b8a142760942b, 0xc982162bdbb06016, 0x3573516bcbf10630, 0xfb53378bc6dbf178, 0x212c6caba99da6d9, 0xdcdfa0ef4b704090, 0x9c4a41eb6e57c2b4, 0xfe3fbeb8aee4a0d2, 0x44091ef5208df4a, 0xa2e7063ca72561fd, 0xe0e563da349a8853] = [0x6ba82b3276f4b639, 0x74ca7779ce0d8687, 0xdeb7fa753a8a32d9, 0x5d444f5873213076, 0xcdbe7ee1b0dc034e, 0xaa460691e28226c0, 0x1c9b32238aba2b4f, 0xcdf8560c94df2f45, 0xbc45ac095a3fce36, 0x5c3f96d222288914, 0x714afa2b18de5186, 0x65f46703fe623af0, 0x2534213862b7c510, 0x35a53dc5722405b7, 0xcf6e061746500240, 0x31b2dc8446458c74, 0x485f151c1568182a, 0xe3767b7d7a152633, 0xfaf2508c97ec3d54, 0xccd76cc1eda0cbbc, 0xe48cd679dda55cb0, 0x265e6bb90aa6485c, 0x345f95017242cc42, 0x76987e963d2aa468, 0xadf06156088f5372] := by decide

theorem kstep_setGlobal_5 :
    keccakRound 5 [0x6ba82b3276f4b639, 0x74ca7779ce0d8687, 0xdeb7fa753a8a32d9, 0x5d444f5873213076, 0xcdbe7ee1b0dc034e, 0xaa460691e28226c0, 0x1c9b32238aba2b4f, 0xcdf8560c94df2f45, 0xbc45ac095a3fce36, 0x5c3f96d222288914, 0x714afa2b18de5186, 0x65f46703fe623af0, 0x2534213862b7c510, 0x35a53dc5722405b7, 0xcf6e061746500240, 0x31b2dc8446458c74, 0x485f151c1568182a, 0xe3767b7d7a152633, 0xfaf2508c97ec3d54, 0xccd76cc1eda0cbbc, 0xe48cd679dda55cb0, 0x265e6bb90aa6485c, 0x345f95017242cc42, 0x76987e963d2aa468, 0xadf06156088f5372] = [0xb1267578a12c2052, 0x9d30f3ffd29ad755, 0xe636f3a0687580a2, 0x8bc649e5c964a64f, 0xce1c3f7a96211e8a, 0x395821312d3a7c80, 0xcae788a8aa5cfd44, 0x5e15831b1d0256e6, 0x6c8d7fce19ea1749, 0x9eeb11508410b99e, 0xaa69dce7e00b6dbf, 0xf07e5a668783670b, 0x2d631668c636bd13, 0xab06e5ba6c9584d2, 0x60dcbb7704e07272, 0x36db7179be82ba6, 0x51e582ff3e20d51d, 0x35507401ccb0c21b, 0xe15b9e7e0015b8a7, 0xad6a535ae99f4dae, 0x4d032d4f5d9a7d80, 0xd19542140c774a5d, 0x9ba07ce258b659cc, 0xb00668b36807907b, 0xb51180de7274721c] := by decide

theorem kstep_setGlobal_6 :
    keccakRound 6 [0xb1267578a12c2052, 0x9d30f3ffd29ad755, 0xe636f3a0687580a2, 0x8bc649e5c964a64f, 0xce1c3f7a96211e8a, 0x395821312d3a7c80, 0xcae788a8aa5cfd44, 0x5e15831b1d0256e6, 0x6c8d7fce19ea1749, 0x9eeb11508410b99e, 0xaa69dce7e00b6dbf, 0xf07e5a668783670b, 0x2d631668c636bd13, 0xab06e5ba6c9584d2, 0x60dcbb7704e07272, 0x36db7179be82ba6, 0x51e582ff3e20d51d, 0x35507401ccb0c21b, 0xe15b9e7e0015b8a7, 0xad6a535ae99f4dae, 0x4d032d4f5d9a7d80, 0xd19542140c774a5d, 0x9ba07ce258b659cc, 0xb00668b36807907b, 0xb51180de7274721c] = [0x66cff09427bbf7a3, 0xcab5d96cc472e48d, 0xf2b2918c9de8c909, 0xa963a4e7a7e22b6d, 0xe12bf1a3a8201cf5, 0xf07e83f66ad64c8, 0x1c384d76a1099191, 0xbcd3feff9e93dade, 0x256e8959d18413de, 0xc0db3eb0a7b64621, 0xcf33b9399f4a631, 0x735abe3608b1bb70, 0x522f4f577280a78e, 0x8401bbab68ea3055, 0x53852e18cf8ba282, 0x44b777e0a45af3d2, 0xc3f33a55fb92d183, 0x8e19c38eafd0220c, 0xe795f4b89522541e, 0xf19b1e8e7bf531b4, 0x35a3e6205a10d978, 0xd488c64726b27800, 0x1be0c4503d46e300, 0xfa0a48f95d64bd39, 0x2a323ac586dd145a] := by decide

theorem kstep_setGlobal_7 :
    keccakRound 7 [0x66cff09427bbf7a3, 0xcab5d96cc472e48d, 0xf2b2918c9de8c909, 0xa963a4e7a7e22b6d, 0xe12bf1a3a8201cf5, 0xf07e83f66ad64c8, 0x1c384d76a1099191, 0xbcd3feff9e93dade, 0x256e8959d18413de, 0xc0db3eb0a7b64621, 0xcf33b9399f4a631, 0x735abe3608b1bb70, 0x522f4f577280a78e, 0x8401bbab68ea3055, 0x53852e18cf8ba282, 0x44b777e0a45af3d2, 0xc3f33a55fb92d183, 0x8e19c38eafd0220c, 0xe795f4b89522541e, 0xf19b1e8e7bf531b4, 0x35a3e6205a10d978, 0xd488c64726b27800, 0x1be0c4503d46e300, 0xfa0a48f95d64bd39, 0x2a323ac586dd145a] = [0x625987e15f3266a5, 0xb60c2135da060417, 0x7d075d1d9ef647eb, 0x1a431c3b4e07936b, 0x895c6747729bd5ec, 0xd15e5b62bf96f219, 0x154aca49d04dd03f, 0xb3f6d53e8ca98a37, 0x47391e924bdbd36c, 0xb04cc851e40e298b, 0x3a48891e48a03189, 0x24f3820f65c2d09, 0x8bc7c8fbe2ac7e3f, 0xd4d96ae02fef96e9, 0x786309e79f6068da, 0x70955315a3f79020, 0x24477aa8fa28122a, 0x702ceb030dfccde2, 0x80110b45e7139649, 0x99622c0d9bcc6270, 0x1a4e4563c4354559, 0x8a3e9a1251a960bf, 0x9ad59c3fb2da24, 0x67096bd4841871e1, 0xaa155d3b0a823549] := by decide

theorem kstep_setGlobal_8 :
    keccakRound 8 [0x625987e15f3266a5, 0xb60c2135da060417, 0x7d075d1d9ef647eb, 0x1a431c3b4e07936b, 0x895c6747729bd5ec, 0xd15e5b62bf96f219, 0x154aca49d04dd03f, 0xb3f6d53e8ca98a37, 0x47391e924bdbd36c, 0xb04cc851e40e298b, 0x3a48891e48a03189, 0x24f3820f65c2d09, 0x8bc7c8fbe2ac7e3f, 0xd4d96ae02fef96e9, 0x786309e79f6068da, 0x70955315a3f79020, 0x24477aa8fa28122a, 0x702ceb030dfccde2, 0x80110b45e7139649, 0x99622c0d9bcc6270, 0x1a4e4563c4354559, 0x8a3e9a1251a960bf, 0x9ad59c3fb2da24, 0x67096bd4841871e1, 0xaa155d3b0a823549] = [0x5e8515e860a192d3, 0xf8118ed47d8cbae, 0xf0b51ec71e70e9da, 0x5b929bd4ec0a0113, 0xb48fbf183e77c947, 0xbbdc1b04140a8ed5, 0x75e73ebf854909e4, 0xaf73c2cafef52b4b, 0x84c9d49e580dbe8e, 0xde70be52de0b9743, 0x7cb13dcaa9745804, 0xdc3eda162369cdd8, 0x55b887e98e4ef1fd, 0xd9b3326c59918f30, 0xd5af0c9e145d5973, 0x2b3c68819d567761, 0x80a08b57c987f78c, 0xe60912418846bc69, 0x65ab9c0c936d7c15, 0x4cb487e05edf52ca, 0x21d4dd5a86c75fb0, 0x204a4077aed801f0, 0xe27c8728f45236e0, 0x23c9d23a71423438, 0xaa395fd454962ac] := by decide

theorem kstep_setGlobal_9 :
    keccakRound 9 [0x5e8515e860a192d3, 0xf8118ed47d8cbae, 0xf0b51ec71e70e9da, 0x5b929bd4ec0a0113, 0xb48fbf183e77c947, 0xbbdc1b04140a8ed5, 0x75e73ebf854909e4, 0xaf73c2cafef52b4b, 0x84c9d49e580dbe8e, 0xde70be52de0b9743, 0x7cb13dcaa9745804, 0xdc3eda162369cdd8, 0x55b887e98e4ef1fd, 0xd9b3326c59918f30, 0xd5af0c9e145d5973, 0x2b3c68819d567761, 0x80a08b57c987f78c, 0xe60912418846bc69, 0x65ab9c0c936d7c15, 0x4cb487e05edf52ca, 0x21d4dd5a86c75fb0, 0x204a4077aed801f0, 0xe27c8728f45236e0, 0x23c9d23a71423438, 0xaa395fd454962ac] = [0xf42664f876f93e02, 0xa16c9eaa0a17832a, 0xd74cbe9af635b2be, 0x22699ff5f86a21d9, 0x2b8c2a9c30e65b6b, 0xe619997d425516e8, 0x92955347c4598eba, 0x443b3c5b51c404cd, 0xff1204d6a0571562, 0xc53f184fa9ba6ed1, 0xc12406356c11adeb, 0x2ff5e8d5dab96962, 0x6568d093e94e7f52, 0x3fbd0ddcfaf3450b, 0x85297176edff17de, 0x1de9d5410699210f, 0x6fa4a94d67f610dc, 0xf95a832047f7466c, 0xa0a21b89d843b4db, 0x9cdb6ca7ddda73a3, 0x584dba9f3f85886, 0xe53f77b4ec68de00, 0x1c6c0c18929d43cb, 0x5de7c81eff7a02b6, 0x1d4d4a5334a6fd96] := by decide

theorem kstep_setGlobal_10 :
    keccakRound 10 [0xf42664f876f93e02, 0xa16c9eaa0a17832a, 0xd74cbe9af635b2be, 0x22699ff5f86a21d9, 0x2b8c2a9c30e65b6b, 0xe619997d425516e8, 0x92955347c4598eba, 0x443b3c5b51c404cd, 0xff1204d6a0571562, 0xc53f184fa9ba6ed1, 0xc12406356c11adeb, 0x2ff5e8d5dab96962, 0x6568d093e94e7f52, 0x3fbd0ddcfaf3450b, 0x85297176edff17de, 0x1de9d5410699210f, 0x6fa4a94d67f610dc, 0xf95a832047f7466c, 0xa0a21b89d843b4db, 0x9cdb6ca7ddda73a3, 0x584dba9f3f85886, 0xe53f77b4ec68de00, 0x1c6c0c18929d43cb, 0x5de7c81eff7a02b6, 0x1d4d4a5334a6fd96] = [0x3341e62e99f55c0b, 0x66bae6fb130c45e3, 0x33b68cfded1e1ee6, 0x8a0a4124daedb067, 0x35d0bb6b30de84e8, 0xc5988b65b67fa2a3, 0x77e46f0505c4d59b, 0xe028089f78e9cf73, 0x2fab100ef2cc9fb0, 0xced8dba1014329d3, 0x98b7834d2db0c558, 0xffd11ef0d084317a, 0x2a9932725fd318bc, 0x2dd1de0eb48daa55, 0x47ed1362d22318be, 0x6d74422c1504152b, 0xac9ee6fa926c9a9a, 0x401ff7447e308b99, 0xd57d689899fc2c4d, 0x83107a9dd5ffba42, 0xc7b7fbe4b8c3a4d3, 0x80be17381b803e82, 0xd8dc69466b9f9f89, 0xb42514b7940f2681, 0x60e0ecdf7ef410] := by decide

theorem kstep_setGlobal_11 :
    keccakRound 11 [0x3341e62e99f55c0b, 0x66bae6fb130c45e3, 0x33b68cfded1e1ee6, 0x8a0a4124daedb067, 0x35d0bb6b30de84e8, 0xc5988b65b67fa2a3, 0x77e46f0505c4d59b, 0xe028089f78e9cf73, 0x2fab100ef2cc9fb0, 0xced8dba1014329d3, 0x98b7834d2db0c558, 0xffd11ef0d084317a, 0x2a9932725fd318bc, 0x2dd1de0eb48daa55, 0x47ed1362d22318be, 0x6d74422c1504152b, 0xac9ee6fa926c9a9a, 0x401ff7447e308b99, 0xd57d689899fc2c4d, 0x83107a9dd5ffba42, 0xc7b7fbe4b8c3a4d3, 0x80be17381b803e82, 0xd8dc69466b9f9f89, 0xb42514b7940f2681, 0x60e0ecdf7ef410] = [0x898b0abc469ba567, 0xe97c170cd4c6d312, 0xe815dda53d17c192, 0x67b2c309bf5157bb, 0xc94a91768bd79816, 0x5df099afdf7f5ef9, 0xb764fb6e08c8faa8, 0x1be570625ea9a550, 0xd12d95fb752c7b78, 0xfb083b638050b081, 0x896f2020878eab71, 0x15a6191f26b43c9c, 0x43e3c3e180a29c5b, 0xe30ecb1b582917e3, 0x4a172bf42cf4e1ff, 0x3f939bfdb2a9169c, 0x2b8eb481b531da5c, 0xd4442d69ae94d0ef, 0x529e9987602b2c43, 0x16aeeeed538b1b4c, 0x893538ba800235c, 0x2790a159e7b79c9a, 0x4be5b0d3ce87db2e, 0xb75b93aefecc9ade, 0x8d64e3387a57a7e0] := by decide

theorem kstep_setGlobal_12 :
    keccakRound 12 [0x898b0abc469ba567, 0xe97c170cd4c6d312, 0xe815dda53d17c192, 0x67b2c309bf5157bb, 0xc94a91768bd79816, 0x5df099afdf7f5ef9, 0xb764fb6e08c8faa8, 0x1be570625ea9a550, 0xd12d95fb752c7b78, 0xfb083b638050b081, 0x896f2020878eab71, 0x15a6191f26b43c9c, 0x43e3c3e180a29c5b, 0xe30ecb1b582917e3, 0x4a172bf42cf4e1ff, 0x3f939bfdb2a9169c, 0x2b8eb481b531da5c, 0xd4442d69ae94d0ef, 0x529e9987602b2c43, 0x16aeeeed538b1b4c, 0x893538ba800235c, 0x2790a159e7b79c9a, 0x4be5b0d3ce87db2e, 0xb75b93aefecc9ade, 0x8d64e3387a57a7e0] = [0x6d7144c5984af6e6, 0x47cab461d46062c1, 0xee2613bf7866998f, 0x8b3e8f45921b474f, 0x221ea7f8fe31fac6, 0xdf132c562031fa25, 0x20a8575e533dc315, 0x290ee6dec02bcbad, 0xf93863dfc51fd674, 0x8d15ddf799f39736, 0x7c9b36e5ac30a51b, 0x3b2cd6bb66f3dbfd, 0xf6dca81725361645, 0x5287a3f696488f79, 0x78f71a4595eac3f0, 0xa06216ff0d79b702, 0xbbaaccb55eef3c2c, 0x504c5c89b0bc8883, 0x11060f6069335ba7, 0x15d71f7848e4d58a, 0x53840aa013136346, 0xc994e09f8dfdbe79, 0xe2d7ca0631a52710, 0xcdca3086b9be079a, 0xcf9c24889148e0a5] := by decide

theorem kstep_setGlobal_13 :
    keccakRound 13 [0x6d7144c5984af6e6, 0x47cab461d46062c1, 0xee2613bf7866998f, 0x8b3e8f45921b474f, 0x221ea7f8fe31fac6, 0xdf132c562031fa25, 0x20a8575e533dc315, 0x290ee6dec02bcbad, 0xf93863dfc51fd674, 0x8d15ddf799f39736, 0x7c9b36e5ac30a51b, 0x3b2cd6bb66f3dbfd, 0xf6dca81725361645, 0x5287a3f696488f79, 0x78f71a4595eac3f0, 0xa06216ff0d79b702, 0xbbaaccb55eef3c2c, 0x504c5c89b0bc8883, 0x11060f6069335ba7, 0x15d71f7848e4d58a, 0x53840aa013136346, 0xc994e09f8dfdbe79, 0xe2d7ca0631a52710, 0xcdca3086b9be079a, 0xcf9c24889148e0a5] = [0xfd661c22e432b41a, 0xaa364ba6c9185653, 0xc3461523a4cdfbb1, 0x75864311c1362dee, 0x768424a6de70d077, 0xe19539b3415dbf3d, 0x8270c702a6113fe2, 0x6a66764d927c5413, 0xfbdb39a5120d598d, 0x74ef605722136b30, 0xfeac85f46f999568, 0xf946397c05050bbe, 0xfeaa1115a7950ff2, 0xd4ef2008aa655db3, 0x881a6fb8222041da, 0x17d9124c14a14a98, 0xaed94fa9c6440856, 0x90498a5c5c34b48b, 0x5591c0d17e016952, 0xd855c66cebb6d4dc, 0x1ebe79b118667d8b, 0xe6303c8f81cf0a02, 0xf4fd0fefd6770ef8, 0xf9a812368ee1bc7, 0x2850511c5d655237] := by decide

theorem kstep_setGlobal_14 :
    keccakRound 14 [0xfd661c22e432b41a, 0xaa364ba6c9185653, 0xc3461523a4cdfbb1, 0x75864311c1362dee, 0x768424a6de70d077, 0xe19539b3415dbf3d, 0x8270c702a6113fe2, 0x6a66764d927c5413, 0xfbdb39a5120d598d, 0x74ef605722136b30, 0xfeac85f46f999568, 0xf946397c05050bbe, 0xfeaa1115a7950ff2, 0xd4ef2008aa655db3, 0x881a6fb8222041da, 0x17d9124c14a14a98, 0xaed94fa9c6440856, 0x90498a5c5c34b48b, 0x5591c0d17e016952, 0xd855c66cebb6d4dc, 0x1ebe79b118667d8b, 0xe6303c8f81cf0a02, 0xf4fd0fefd6770ef8, 0xf9a812368ee1bc7, 0x2850511c5d655237] = [0x300136e756a792d3, 0x831900332e80e52e, 0x94c17c1d0b4b0d8d, 0x6df7889372be4890, 0x7d766fbddee25a82, 0x88e6bd7adb1451cb, 0x802c1867218e00ec, 0xb559fa0ac0bb144d, 0xe29a84719651221d, 0x6f84dff580587931, 0xe669b7aabc9d7d1, 0x266b99d822b9b0bc, 0x4450e99df9062d3e, 0xd36c4314161ba29c, 0x90d1af6301097c49, 0xc9a8d6d9355875d6, 0x1d3a3be29205834e, 0xcb5dbd1e2d83840, 0xfc3a45a8f52d406f, 0x2cd8640c1b822bd8, 0x4ed76874359bc9f8, 0xa7d6a6cb9bea3553, 0x7934532e69f1afc1, 0x6dcfabfced4f1156, 0xcdc6416cea67864] := by decide

theorem kstep_setGlobal_15 :
    keccakRound 15 [0x300136e756a792d3, 0x831900332e80e52e, 0x94c17c1d0b4b0d8d, 0x6df7889372be4890, 0x7d766fbddee25a82, 0x88e6bd7adb1451cb, 0x802c1867218e00ec, 0xb559fa0ac0bb144d, 0xe29a84719651221d, 0x6f84dff580587931, 0xe669b7aabc9d7d1, 0x266b99d822b9b0bc, 0x4450e99df9062d3e, 0xd36c4314161ba29c, 0x90d1af6301097c49, 0xc9a8d6d9355875d6, 0x1d3a3be29205834e, 0xcb5dbd1e2d83840, 0xfc3a45a8f52d406f, 0x2cd8640c1b822bd8, 0x4ed76874359bc9f8, 0xa7d6a6cb9bea3553, 0x7934532e69f1afc1, 0x6dcfabfced4f1156, 0xcdc6416cea67864] = [0x3c42329cdcb25052, 0x8ee4408b358860f8, 0xffe06240d1b34047, 0x1ec93b13633457f1, 0x64e55350ef2c8fbd, 0xcce97f36619fe71c, 0x48b07a5bbd7c08b2, 0x9b28e81a5f686d9a, 0x7deaffaccbe778e0, 0x4fbfe150cf70971c, 0x21bc45167b02967f, 0x902150005150776e, 0x2d531072d50a9765, 0xd5593bbc95eb2eac, 0x783ee47c0d5607d1, 0x530c7dcd83b9f858, 0xd331bca15ad8b032, 0xbfc4a5fef73a2e54, 0x19d8bd57f0234463, 0x24184852b201beab, 0xe42699ee32af9dbc, 0x7effe68e205d1560, 0x74db469d443b02d3, 0xd97e2efd93edd7eb, 0xc9365fabbaa32d6a] := by decide

theorem kstep_setGlobal_16 :
    keccakRound 16 [0x3c42329cdcb25052, 0x8ee4408b358860f8, 0xffe06240d1b34047, 0x1ec93b13633457f1, 0x64e55350ef2c8fbd, 0xcce97f36619fe71c, 0x48b07a5bbd7c08b2, 0x9b28e81a5f686d9a, 0x7deaffaccbe778e0, 0x4fbfe150cf70971c, 0x21bc45167b02967f, 0x902150005150776e, 0x2d531072d50a9765, 0xd5593bbc95eb2eac, 0x783ee47c0d5607d1, 0x530c7dcd83b9f858, 0xd331bca15ad8b032, 0xbfc4a5fef73a2e54, 0x19d8bd57f0234463, 0x24184852b201beab, 0xe42699ee32af9dbc, 0x7effe68e205d1560, 0x74db469d443b02d3, 0xd97e2efd93edd7eb, 0xc9365fabbaa32d6a] = [0xc5345ba43ed3e64c, 0x8481b6b9367530be, 0x284ecb5a0fcffaba, 0xe7ba643f55bc5902, 0x788e82918db94d54, 0x2c0b5daad94dbc0f, 0x5767eb48d82b5f05, 0xa04b2a86cc41b10a, 0x1b135e084054338c, 0xac2fb7a60b6cb219, 0x6b8e2d04a66202a5, 0x4f516dd06c9dc5bf, 0xba6cd552f25413e3, 0xa65f7d04a585341b, 0xe61105c1de9e5568, 0x6ac5477636d8143a, 0x814020280555b0e3, 0x403e29db846f3bd4, 0xaef1f4da5ae647c5, 0xb227dedcf5358c98, 0xdb76e09a7bd73312, 0xda41f516d6a7397b, 0xba25c56b57ac65f6, 0x2c5008d500716f56, 0x732aff1a9f35f741] := by decide

theorem kstep_setGlobal_17 :
    keccakRound 17 [0xc5345ba43ed3e64c, 0x8481b6b9367530be, 0x284ecb5a0fcffaba, 0xe7ba643f55bc5902, 0x788e82918db94d54, 0x2c0b5daad94dbc0f, 0x5767eb48d82b5f05, 0xa04b2a86cc41b10a, 0x1b135e084054338c, 0xac2fb7a60b6cb219, 0x6b8e2d04a66202a5, 0x4f516dd06c9dc5bf, 0xba6cd552f25413e3, 0xa65f7d04a585341b, 0xe61105c1de9e5568, 0x6ac5477636d8143a, 0x814020280555b0e3, 0x403e29db846f3bd4, 0xaef1f4da5ae647c5, 0xb227dedcf5358c98, 0xdb76e09a7bd73312, 0xda41f516d6a7397b, 0xba25c56b57ac65f6, 0x2c5008d500716f56, 0x732aff1a9f35f741] = [0x35c590890cfaf2b9, 0xf2da865c4cfd2d0f, 0x89838469bc3763ea, 0x781f8dbce9f83fa0, 0x1578944a5eb3f258, 0xb7a31f98aec7a9e6, 0x5567c307f9b37f63, 0xdb71bad0aa35a74c, 0x9c69e15ce7147110, 0xb9eb0ac2aa5d335d, 0x6e8d1364fb688e2c, 0x95965016291aa6f5, 0x3e4594dbb148339e, 0x75f03c034125032a, 0x7e71c7e89749be49, 0x42f02c360474e0b1, 0x92582ce10598fa45, 0xdb447633f35e2ffa, 0xdcaaa6510e129b92, 0x4a01d873820ef58e, 0x16b1a62322521dde, 0x201b8bd2214b0c02, 0xc5f4793c71529086, 0xf2412e27297a754f, 0xe6912fe470b84958] := by decide

theorem kstep_setGlobal_18 :
    keccakRound 18 [0x35c590890cfaf2b9, 0xf2da865c4cfd2d0f, 0x89838469bc3763ea, 0x781f8dbce9f83fa0, 0x1578944a5eb3f258, 0xb7a31f98aec7a9e6, 0x5567c307f9b37f63, 0xdb71bad0aa35a74c, 0x9c69e15ce7147110, 0xb9eb0ac2aa5d335d, 0x6e8d1364fb688e2c, 0x95965016291aa6f5, 0x3e4594dbb148339e, 0x75f03c034125032a, 0x7e71c7e89749be49, 0x42f02c360474e0b1, 0x92582ce10598fa45, 0xdb447633f35e2ffa, 0xdcaaa6510e129b92, 0x4a01d873820ef58e, 0x16b1a62322521dde, 0x201b8bd2214b0c02, 0xc5f4793c71529086, 0xf2412e27297a754f, 0xe6912fe470b84958] = [0x68e6548078e19694, 0x543e707421b9ddcf, 0x47322f12d63dfce4, 0x93632cea9c2e7d9f, 0xb2f559a3ef93426a, 0xeeedd55dd6e7d703, 0x817bf12326365b2b, 0x86560d70daaad8ca, 0xe0db29dfa266634d, 0xe67aefed0302f2b6, 0x5eff3544f3830bb7, 0x488e4734b478174d, 0x820f88bb931725c0, 0x747492dcd906fbb2, 0x90a74907639d6401, 0xfe77a06a32aa8d00, 0xdf07b110b18949ff, 0xc97e92e114538a24, 0x7ab0cd44270592fb, 0x3efcffc2252b4f9e, 0x5aeabb9f75750fee, 0x604061ac6cb41997, 0xa794ca58740b5c91, 0xdb490c3782e0706e, 0xd2fa19a0d8d2e248] := by decide

theorem kstep_setGlobal_19 :
    keccakRound 19 [0x68e6548078e19694, 0x543e707421b9ddcf, 0x47322f12d63dfce4, 0x93632cea9c2e7d9f, 0xb2f559a3ef93426a, 0xeeedd55dd6e7d703, 0x817bf12326365b2b, 0x86560d70daaad8ca, 0xe0db29dfa266634d, 0xe67aefed0302f2b6, 0x5eff3544f3830bb7, 0x488e4734b478174d, 0x820f88bb931725c0, 0x747492dcd906fbb2, 0x90a74907639d6401, 0xfe77a06a32aa8d00, 0xdf07b110b18949ff, 0xc97e92e114538a24, 0x7ab0cd44270592fb, 0x3efcffc2252b4f9e, 0x5aeabb9f75750fee, 0x604061ac6cb41997, 0xa794ca58740b5c91, 0xdb490c3782e0706e, 0xd2fa19a0d8d2e248] = [0x89da251317936fd7, 0x73d59af1ade8801c, 0x5f675e66409281c2, 0xafc7e6f23441e1b9, 0xd67db1d31520e327, 0x4c69cb858cefeefc, 0x3b47a0c355bbabc2, 0xa6460eb8a7bfd9a2, 0xc5b17e84b35ea604, 0x4bb85e7432e2f355, 0x372a3e823ab735eb, 0x265c268e4c4d1d7a, 0xf18e01b93e175ab7, 0xd87797f33df8d76c, 0x342ee81b909c5762, 0xccc4be65f205bb7, 0x9cf7c2099fbd1ec7, 0xb310e54e4c5c55ae, 0x18cd15c7bc675b46, 0xb39404c42106d655, 0x4bc4113d4f48cc3b, 0x1448807477d57712, 0xc9f99c6704f4a20e, 0x16ba161ec929ff39, 0x1ca22a4695e9ddbd] := by decide

theorem kstep_setGlobal_20 :
    keccakRound 20 [0x89da251317936fd7, 0x73d59af1ade8801c, 0x5f675e66409281c2, 0xafc7e6f23441e1b9, 0xd67db1d31520e327, 0x4c69cb858cefeefc, 0x3b47a0c355bbabc2, 0xa6460eb8a7bfd9a2, 0xc5b17e84b35ea604, 0x4bb85e7432e2f355, 0x372a3e823ab735eb, 0x265c268e4c4d1d7a, 0xf18e01b93e175ab7, 0xd87797f33df8d76c, 0x342ee81b909c5762, 0xccc4be65f205bb7, 0x9cf7c2099fbd1ec7, 0xb310e54e4c5c55ae, 0x18cd15c7bc675b46, 0xb39404c42106d655, 0x4bc4113d4f48cc3b, 0x1448807477d57712, 0xc9f99c6704f4a20e, 0x16ba161ec929ff39, 0x1ca22a4695e9ddbd] = [0xcaa568f734d81ec5, 0xb2a70623c7a9fc77, 0x9b24d77999fc1f39, 0xfda1e348fc20eb2d, 0x58e34841a8c3b2ce, 0x8aaf09f7e45588cf, 0x693948d156208ef4, 0xe8ad53b6b7a62d87, 0x7aefb92d460ac8ef, 0x3bbc7b4bead25494, 0xc4948020afd8872d, 0x76db36910e5b83aa, 0x9554c127c74d1251, 0x808d068feff8f274, 0x2445e04df8a1676c, 0x811c4d8b8a1b450c, 0xab29cafc75e5e591, 0x2993733b234da8cc, 0xd01d7f3cb1c11286, 0xc448c41c493b6b00, 0x887c0e76040585e1, 0x839c778e1914c6a5, 0x3d968ae3adb8a61f, 0x5b79df89c71fb0f2, 0x54d4481bce5ca8c5] := by decide

theorem kstep_setGlobal_21 :
    keccakRound 21 [0xcaa568f734d81ec5, 0xb2a70623c7a9fc77, 0x9b24d77999fc1f39, 0xfda1e348fc20eb2d, 0x58e34841a8c3b2ce, 0x8aaf09f7e45588cf, 0x693948d156208ef4, 0xe8ad53b6b7a62d87, 0x7aefb92d460ac8ef, 0x3bbc7b4bead25494, 0xc4948020afd8872d, 0x76db36910e5b83aa, 0x9554c127c74d1251, 0x808d068feff8f274, 0x2445e04df8a1676c, 0x811c4d8b8a1b450c, 0xab29cafc75e5e591, 0x2993733b234da8cc, 0xd01d7f3cb1c11286, 0xc448c41c493b6b00, 0x887c0e76040585e1, 0x839c778e1914c6a5, 0x3d968ae3adb8a61f, 0x5b79df89c71fb0f2, 0x54d4481bce5ca8c5] = [0x97c8b5dcf988799c, 0xf0b5c1a749377ea6, 0xbd540a0f8be04353, 0xb3158db30af9f123, 0x5c4b83f2de02b661, 0x4b0ece0cc8465f1f, 0x22f6e4fc0c32ee29, 0x77bb8c9aa3535d38, 0x4706986aaa0f2562, 0xd4d506798728f210, 0xceb5d18eaaf45389, 0x48316480747428e, 0x13e56ee653beb224, 0x83fd79a0d2f3f4d3, 0x6c5d781589a7543b, 0x28ead396de4debb5, 0xd81cab4d620fd3c7, 0x5bb4140761696573, 0x2502093b888ed612, 0xfd128dbc195b5359, 0x44aefab58a311e24, 0x98179dffbebc2312, 0x3553a99d87e0f8c4, 0x57e7c28bf6211203, 0x355fb184dae10d4a] := by decide

theorem kstep_setGlobal_22 :
    keccakRound 22 [0x97c8b5dcf988799c, 0xf0b5c1a749377ea6, 0xbd540a0f8be04353, 0xb3158db30af9f123, 0x5c4b83f2de02b661, 0x4b0ece0cc8465f1f, 0x22f6e4fc0c32ee29, 0x77bb8c9aa3535d38, 0x4706986aaa0f2562, 0xd4d506798728f210, 0xceb5d18eaaf45389, 0x48316480747428e, 0x13e56ee653beb224, 0x83fd79a0d2f3f4d3, 0x6c5d781589a7543b, 0x28ead396de4debb5, 0xd81cab4d620fd3c7, 0x5bb4140761696573, 0x2502093b888ed612, 0xfd128dbc195b5359, 0x44aefab58a311e24, 0x98179dffbebc2312, 0x3553a99d87e0f8c4, 0x57e7c28bf6211203, 0x355fb184dae10d4a] = [0x84dbfb71167ff24d, 0xe1d47bb79edc7fdc, 0xd6e6264959002fa4, 0xe11601872e597e3b, 0x8429923192bffe8d, 0x6259beca94d65575, 0x76a470d36a26eb1a, 0xac489f1de10a43ec, 0xc15b8bc25aa2759, 0xc191bc44aa080868, 0xc0b3c2a178e13add, 0xaddd264171c95eba, 0x8b9023a3319b0986, 0x749dce885414c505, 0xd802bbd8525d96fa, 0x92abbb96a3aee957, 0x6e352ed660302d3e, 0xf85a9fdc0e8a985e, 0x2d5a5bec4670d3b4, 0x20ad53742e0dcd37, 0x886a14479b752b29, 0x25d4f336079a96a4, 0xc672924e9725938f, 0x79c08a59e422cde1, 0x33fe3e654f43d126] := by decide

theorem kstep_setGlobal_23 :
    keccakRound 23 [0x84dbfb71167ff24d, 0xe1d47bb79edc7fdc, 0xd6e6264959002fa4, 0xe11601872e597e3b, 0x8429923192bffe8d, 0x6259beca94d65575, 0x76a470d36a26eb1a, 0xac489f1de10a43ec, 0xc15b8bc25aa2759, 0xc191bc44aa080868, 0xc0b3c2a178e13add, 0xaddd264171c95eba, 0x8b9023a3319b0986, 0x749dce885414c505, 0xd802bbd8525d96fa, 0x92abbb96a3aee957, 0x6e352ed660302d3e, 0xf85a9fdc0e8a985e, 0x2d5a5bec4670d3b4, 0x20ad53742e0dcd37, 0x886a14479b752b29, 0x25d4f336079a96a4, 0xc672924e9725938f, 0x79c08a59e422cde1, 0x33fe3e654f43d126] = [0x21cbe046707bbcc4, 0x2283ed8f85698a28, 0x4bb52632a5fb5943, 0xf6aac2ca763ebfee, 0xa47d00f53c0ca1c6, 0xe0902a8732051ed0, 0x2c9c28bb52c58756, 0x663a78f5637d247d, 0xd7c3439e073ff263, 0x98ebe4e09518bdc5, 0xaeb4fbecf927d8f0, 0x8248d42eaebd9955, 0x1ee7d62e4e433139, 0xcbb64d36b6b05b04, 0x7489539cd5a79369, 0x7d0661050e26b05, 0x3506a2c08610fe56, 0x62a0060c9b752c6c, 0x95da69ac7feaa2ab, 0x43a78c8ce6fb408b, 0x8d7871b0731a960c, 0xbd4768a6d4d02c12, 0x6b572b3473b63095, 0xb3a509ddf76dc053, 0x3ca0dc9095553c52] := by decide

theorem selector_setGlobal : selector "setGlobal(uint64,bool)" = [0xc4, 0xbc, 0x7b, 0x70] := by
  unfold selector keccak256
  rw [show keccakBlocks ((strBytes "setGlobal(uint64,bool)").length / 136 + 1) (strBytes "setGlobal(uint64,bool)")
        = [[115, 101, 116, 71, 108, 111, 98, 97, 108, 40, 117, 105, 110, 116, 54, 52, 44, 98, 111, 111, 108, 41, 1, 0, 0, 0, 0, 0, 0, 0, 0, 0, 0, 0, 0, 0, 0, 0, 0, 0, 0, 0, 0, 0, 0, 0, 0, 0, 0, 0, 0, 0, 0, 0, 0, 0, 0, 0, 0, 0, 0, 0, 0, 0, 0, 0, 0, 0, 0, 0, 0, 0, 0, 0, 0, 0, 0, 0, 0, 0, 0, 0, 0, 0, 0, 0, 0, 0, 0, 0, 0, 0, 0, 0, 0, 0, 0, 0, 0, 0, 0, 0, 0, 0, 0, 0, 0, 0, 0, 0, 0, 0, 0, 0, 0, 0, 0, 0, 0, 0, 0, 0, 0, 0, 0, 0, 0, 0, 0, 0, 0, 0, 0, 0, 0, 128]] by decide]
  simp only [List.foldl_cons, List.foldl_nil, absorbBlock]
  rw [show xorBlock (List.replicate 25 0) [115, 101, 116, 71, 108, 111, 98, 97, 108, 40, 117, 105, 110, 116, 54, 52, 44, 98, 111, 111, 108, 41, 1, 0, 0, 0, 0, 0, 0, 0, 0, 0, 0, 0, 0, 0, 0, 0, 0, 0, 0, 0, 0, 0, 0, 0, 0, 0, 0, 0, 0, 0, 0, 0, 0, 0, 0, 0, 0, 0, 0, 0, 0, 0, 0, 0, 0, 0, 0, 0, 0, 0, 0, 0, 0, 0, 0, 0, 0, 0, 0, 0, 0, 0, 0, 0, 0, 0, 0, 0, 0, 0, 0, 0, 0, 0, 0, 0, 0, 0, 0, 0, 0, 0, 0, 0, 0, 0, 0, 0, 0, 0, 0, 0, 0, 0, 0, 0, 0, 0, 0, 0, 0, 0, 0, 0, 0, 0, 0, 0, 0, 0, 0, 0, 0, 128] = [0x61626f6c47746573, 0x3436746e6975286c, 0x1296c6f6f622c, 0x0, 0x0, 0x0, 0x0, 0x0, 0x0, 0x0, 0x0, 0x0, 0x0, 0x0, 0x0, 0x0, 0x8000000000000000, 0x0, 0x0, 0x0, 0x0, 0x0, 0x0, 0x0, 0x0] by decide]
  rw [keccakF_unfold]
  rw [kstep_setGlobal_0, kstep_setGlobal_1, kstep_setGlobal_2, kstep_setGlobal_3, kstep_setGlobal_4, kstep_setGlobal_5, kstep_setGlobal_6, kstep_setGlobal_7, kstep_setGlobal_8, kstep_setGlobal_9, kstep_setGlobal_10, kstep_setGlobal_11, kstep_setGlobal_12, kstep_setGlobal_13, kstep_setGlobal_14, kstep_setGlobal_15, kstep_setGlobal_16, kstep_setGlobal_17, kstep_setGlobal_18, kstep_setGlobal_19, kstep_setGlobal_20, kstep_setGlobal_21, kstep_setGlobal_22, kstep_setGlobal_23]
  decide


/-- C9: the Permissions native contract function table maps the seven
canonical signatures addRole(address,string), removeRole(address,string),
hasRole(address,string), setBase(address,uint64,bool),
unsetBase(address,uint64), hasBase(address,uint64) and
setGlobal(uint64,bool), in this order, to the selectors 7d72aa65, 1bfe0308,
217fe6c6, dbd4a8ea, b7d4dc0d, 225b6574 and c4bc7b70, each selector being
the first four bytes of keccak-256 of the signature. -/
theorem permissions_selector_table :
    permissionsSignatures.map selector = compiledSigSelectors := by
  simp only [permissionsSignatures, compiledSigSelectors, List.map_cons, List.map_nil,
    selector_addRole, selector_removeRole, selector_hasRole, selector_setBase,
    selector_unsetBase, selector_hasBase, selector_setGlobal]

end Burrow
